import Mathlib

/-!
# natsclient-cpp: a shallow embedding of the C++ wrappers

The wrappers of `include/nats_client/*.hpp` sit on top of the NATS C engine
(`nats/nats.h`).  The engine is not part of the repository, so it is a
parameter of every operation: an `Engine` gives, for every call the wrappers
make, the status the engine answers and what it leaves in the call's
out-parameters.  An operation of a wrapper is a function from the engine and
the wrapper's fields to the wrapper's new fields, the returned
`expected<T, NatsError>` and the list of engine calls made, in order.
-/

namespace nats

/-! ## Engine interface -/

/-- The enum `natsStatus` of `nats/nats.h`, as the number of the enumerator. -/
abbrev natsStatus := Nat

/-- The enumerator `NATS_OK` of `natsStatus` (the first one, 0). -/
def NATS_OK : natsStatus := 0

/-- The enumerator `NATS_INVALID_ARG` of `natsStatus` (16 in `nats/status.h`). -/
def NATS_INVALID_ARG : natsStatus := 16

/-- An engine object (`natsOptions`, `natsConnection`, `jsCtx`, ...), named by its address. -/
abbrev Handle := Nat

/-- A pointer to an engine object; `none` is the null pointer. -/
abbrev Ptr := Option Handle

/-- A `std::byte`. -/
abbrev byte := Nat

/-- A `std::string_view`: `data` is the memory from `data()` onwards (the
viewed characters and what follows them in the buffer), `size` is `size()`. -/
structure string_view where
  data : List Char
  size : Nat
  deriving DecidableEq, Repr

/-- The characters a `string_view` views, what `std::format("{}", sv)` prints. -/
def string_view.str (sv : string_view) : String :=
  String.mk (sv.data.take sv.size)

/-- Value of `string_view::empty()`. -/
def string_view.empty (sv : string_view) : Bool :=
  sv.size == 0

/-- The view of a whole `std::string` (or string literal): its characters,
followed in memory by the terminating zero. -/
def string_view.ofString (s : String) : string_view :=
  { data := s.toList ++ [Char.ofNat 0], size := s.length }

/-- What a C function reads from a `const char*`: the characters up to the
first zero character. -/
def c_str (p : List Char) : String :=
  String.mk (p.takeWhile (fun ch => ch != Char.ofNat 0))

/-- The bytes a C function reads from a `const void*` to character memory
with an explicit length. -/
def c_bytes (p : List Char) (len : Nat) : List byte :=
  (p.take len).map Char.toNat

/-- The struct `jsOptions` of the engine: the field the wrapper writes and
the rest of the record. -/
structure jsOptions where
  PublishAsync_MaxPending : Int
  rest : Nat
  deriving DecidableEq, Repr

/-- The struct `kvConfig` of the engine: the field the wrapper writes (a
`const char*`, held as the C string it points to) and the rest of the record. -/
structure kvConfig where
  Bucket : Option String
  rest : Nat
  deriving DecidableEq, Repr

/-- The struct `kvWatchOptions` of the engine; the wrapper only passes it on. -/
structure kvWatchOptions where
  rest : Nat
  deriving DecidableEq, Repr

/-- The struct `kvKeysList` of the engine: `Keys` is the `char**` (`none` is
`NULL`, otherwise the array it points to), `Count` the `int` next to it. -/
structure kvKeysList where
  Keys : Option (List String)
  Count : Int
  deriving DecidableEq, Repr

/-- A call into the engine with the arguments the wrapper passes.  Pointer
out-parameters are not listed; null closures and the wrapper's own callback
functions are left out. -/
inductive EngineCall where
  | natsOptions_Create
  | natsOptions_Destroy (opts : Ptr)
  | natsOptions_SetServers (opts : Ptr) (servers : List String) (serversCount : Nat)
  | natsOptions_SetToken (opts : Ptr) (token : String)
  | natsOptions_SetName (opts : Ptr) (name : String)
  | natsOptions_SetNoRandomize (opts : Ptr) (noRandomize : Bool)
  | natsOptions_SetSecure (opts : Ptr) (secure : Bool)
  | natsOptions_LoadCATrustedCertificates (opts : Ptr) (fileName : String)
  | natsOptions_SetCATrustedCertificates (opts : Ptr) (certificates : String)
  | natsOptions_LoadCertificatesChain (opts : Ptr) (certsFileName keyFileName : String)
  | natsOptions_SetCertificatesChain (opts : Ptr) (cert key : String)
  | natsOptions_SetCiphers (opts : Ptr) (ciphers : String)
  | natsOptions_SetCipherSuites (opts : Ptr) (ciphers : String)
  | natsOptions_SetTimeout (opts : Ptr) (timeout : Int)
  | natsOptions_SetURL (opts : Ptr) (url : String)
  | natsOptions_SetVerbose (opts : Ptr) (verbose : Bool)
  | natsOptions_SetRetryOnFailedConnect (opts : Ptr) (retry : Bool)
  | natsOptions_SetExpectedHostname (opts : Ptr) (hostname : String)
  | natsOptions_SkipServerVerification (opts : Ptr) (skip : Bool)
  | natsOptions_SetPedantic (opts : Ptr) (pedantic : Bool)
  | natsOptions_SetPingInterval (opts : Ptr) (interval : Int)
  | natsOptions_SetMaxPingsOut (opts : Ptr) (maxPingsOut : Int)
  | natsOptions_SetIOBufSize (opts : Ptr) (ioBufSize : Int)
  | natsOptions_SetAllowReconnect (opts : Ptr) (allow : Bool)
  | natsOptions_SetMaxReconnect (opts : Ptr) (maxReconnect : Int)
  | natsOptions_SetReconnectWait (opts : Ptr) (reconnectWait : Int)
  | natsOptions_SetReconnectJitter (opts : Ptr) (jitter jitterTLS : Int)
  | natsOptions_SetReconnectBufSize (opts : Ptr) (reconnectBufSize : Int)
  | natsOptions_SetMaxPendingMsgs (opts : Ptr) (maxPending : Int)
  | natsOptions_SetSendAsap (opts : Ptr) (sendAsap : Bool)
  | natsOptions_SetFailRequestsOnDisconnect (opts : Ptr) (failRequests : Bool)
  | natsOptions_SetNoEcho (opts : Ptr) (noEcho : Bool)
  | natsOptions_SetWriteDeadline (opts : Ptr) (deadline : Int)
  | natsOptions_DisableNoResponders (opts : Ptr) (disabled : Bool)
  | natsOptions_SetCustomInboxPrefix (opts : Ptr) (inboxPrefix : String)
  | natsOptions_SetMessageBufferPadding (opts : Ptr) (paddingSize : Int)
  | natsOptions_SetUserInfo (opts : Ptr) (user password : String)
  | natsOptions_UseGlobalMessageDelivery (opts : Ptr) (global : Bool)
  | natsOptions_IPResolutionOrder (opts : Ptr) (order : Int)
  | natsOptions_SetUserCredentialsFromFiles (opts : Ptr) (userOrChainedFile seedFile : String)
  | natsOptions_SetUserCredentialsFromMemory (opts : Ptr) (jwtAndSeedContent : String)
  | natsOptions_SetDisconnectedCB (opts : Ptr)
  | natsOptions_SetReconnectedCB (opts : Ptr)
  | natsOptions_SetClosedCB (opts : Ptr)
  | natsOptions_SetErrorHandler (opts : Ptr)
  | natsConnection_Connect (opts : Ptr)
  | natsConnection_Destroy (conn : Ptr)
  | natsConnection_JetStream (conn : Ptr) (jsOpts : jsOptions)
  | natsConnection_GetMaxPayload (conn : Ptr)
  | natsConnection_SubscribeSync (conn : Ptr) (subject : String)
  | natsConnection_QueueSubscribeSync (conn : Ptr) (subject queueGroup : String)
  | natsConnection_Publish (conn : Ptr) (subject : String) (data : List byte) (dataLen : Nat)
  | jsOptions_Init
  | jsCtx_Destroy (js : Ptr)
  | kvConfig_Init
  | kvWatchOptions_Init
  | js_CreateKeyValue (js : Ptr) (cfg : kvConfig)
  | js_KeyValue (js : Ptr) (bucket : String)
  | js_DeleteKeyValue (js : Ptr) (bucket : String)
  | kvStore_Destroy (kv : Ptr)
  | kvStore_Bucket (kv : Ptr)
  | kvStore_Keys (kv : Ptr) (opts : Option kvWatchOptions)
  | kvStore_Watch (kv : Ptr) (key : String) (opts : Option kvWatchOptions)
  | kvStore_Get (kv : Ptr) (key : String)
  | kvStore_Create (rev : Ptr) (kv : Ptr) (key : String) (data : List byte) (len : Nat)
  | kvStore_CreateString (rev : Ptr) (kv : Ptr) (key : String) (data : String)
  | kvStore_PutString (rev : Ptr) (kv : Ptr) (key : String) (data : String)
  | kvStore_Put (rev : Ptr) (kv : Ptr) (key : String) (data : List byte) (len : Nat)
  | kvStore_Delete (kv : Ptr) (key : String)
  | kvEntry_Destroy (e : Ptr)
  | kvWatcher_Next (w : Ptr) (timeout : Int)
  | kvWatcher_Stop (w : Ptr)
  | kvWatcher_Destroy (w : Ptr)
  | kvKeysList_Destroy (kl : kvKeysList)
  | natsSubscription_Destroy (sub : Ptr)
  | natsSubscription_NextMsg (sub : Ptr) (timeout : Int)
  | natsSubscription_NoDeliveryDelay (sub : Ptr)
  | natsSubscription_QueuedMsgs (sub : Ptr)
  | natsSubscription_GetSubject (sub : Ptr)
  | natsSubscription_AutoUnsubscribe (sub : Ptr) (max : Int)
  | natsSubscription_Drain (sub : Ptr)
  | natsSubscription_DrainTimeout (sub : Ptr) (timeout : Int)
  | natsSubscription_WaitForDrainCompletion (sub : Ptr) (timeout : Int)
  | natsSubscription_GetMaxPending (sub : Ptr)
  | natsSubscription_GetDropped (sub : Ptr)
  | natsSubscription_GetDelivered (sub : Ptr)
  | natsSubscription_GetPending (sub : Ptr)
  | natsSubscription_GetPendingLimits (sub : Ptr)
  | natsSubscription_SetPendingLimits (sub : Ptr) (msgLimit bytesLimit : Int)
  | natsSubscription_Unsubscribe (sub : Ptr)
  | natsMsg_Destroy (msg : Ptr)
  deriving Repr

/-- The engine as the wrappers see it during one operation.
`natsStatus_GetText` is the engine's table from status to text, a lookup
that touches no engine object and is not listed among the calls made.
`status c` is the `natsStatus` call `c` returns; `outPtr c old` is what the
pointer out-parameter of `c` holds after the call when it held `old` before;
`outInt c k old` the same for its `k`-th integer out-parameter;
`outJsOptions`, `outKvConfig`, `outKvWatchOptions` and `outKeysList` the
same for the record a call fills in; `text c` is the C string a call returns. -/
structure Engine where
  natsStatus_GetText : natsStatus → String
  status : EngineCall → natsStatus
  outPtr : EngineCall → Ptr → Ptr
  outInt : EngineCall → Nat → Int → Int
  outJsOptions : EngineCall → jsOptions → jsOptions
  outKvConfig : EngineCall → kvConfig → kvConfig
  outKvWatchOptions : EngineCall → kvWatchOptions → kvWatchOptions
  outKeysList : EngineCall → kvKeysList → kvKeysList
  text : EngineCall → String
  int64 : EngineCall → Int

/-- An engine that answers `status` to every call with a status, stores `h`
in every pointer out-parameter when `stores` holds for the call and leaves
every other out-parameter as it found it. -/
def Engine.sample (status : EngineCall → natsStatus) (stores : EngineCall → Bool)
    (h : Ptr) : Engine :=
  { natsStatus_GetText := fun s => if s = NATS_OK then "OK" else "Error"
    status := status
    outPtr := fun c old => if stores c then h else old
    outInt := fun _ _ old => old
    outJsOptions := fun _ old => old
    outKvConfig := fun _ old => old
    outKvWatchOptions := fun _ old => old
    outKeysList := fun _ old => old
    text := fun _ => "orders"
    int64 := fun _ => 0 }

/-- An engine that answers `s` to every call and stores nothing. -/
def Engine.always (s : natsStatus) : Engine :=
  Engine.sample (fun _ => s) (fun _ => false) none

/-! ## Error.hpp -/

/-- The struct `NatsError`. -/
structure NatsError where
  status : natsStatus
  status_text : String
  message : String
  deriving DecidableEq, Repr

/-- The constructor `NatsError(natsStatus s, string message)`. -/
def NatsError.new (E : Engine) (s : natsStatus) (message : String) : NatsError :=
  { status := s, status_text := E.natsStatus_GetText s, message := message }

/-- What an operation leaves behind: the returned `expected<T, NatsError>`
(`Except.error` is `unexpected`), the fields of the object it ran on, and the
engine calls it made, in order. -/
structure Outcome (σ α : Type) where
  result : Except NatsError α
  self : σ
  calls : List EngineCall

/-! ## Options.hpp -/

/-- The struct `NatsOptions`: the engine's options object and the status of
the last engine call made through a setter. -/
structure NatsOptions where
  ptr : Ptr
  s : natsStatus
  deriving DecidableEq, Repr

/-- The constructor `NatsOptions(natsOptions* opts)`.  It initialises `ptr`
only; `indet` is the indeterminate value the member `s` starts with. -/
def NatsOptions.new (opts : Ptr) (indet : natsStatus) : NatsOptions :=
  { ptr := opts, s := indet }

/-- The destructor `~NatsOptions()`. -/
def NatsOptions.destructor (self : NatsOptions) : NatsOptions × List EngineCall :=
  if self.ptr.isSome then
    ({ self with ptr := none }, [EngineCall.natsOptions_Destroy self.ptr])
  else
    (self, [])

/-- The move constructor `NatsOptions(NatsOptions&& other)`: the new object
and what is left of `other`. -/
def NatsOptions.moveConstruct (other : NatsOptions) : NatsOptions × NatsOptions :=
  ({ ptr := other.ptr, s := other.s }, { other with ptr := none })

/-- The move assignment `NatsOptions::operator=(NatsOptions&& other)` on the
objects at addresses `this` and `other` of the memory `mem`. -/
def NatsOptions.moveAssign (mem : Nat → NatsOptions) (this other : Nat) :
    (Nat → NatsOptions) × List EngineCall :=
  if this ≠ other then
    let (mem, calls) :=
      if (mem this).ptr.isSome then
        (Function.update mem this { mem this with ptr := none },
          [EngineCall.natsOptions_Destroy (mem this).ptr])
      else
        (mem, [])
    let mem := Function.update mem this { mem this with ptr := (mem other).ptr }
    let mem := Function.update mem this { mem this with s := (mem other).s }
    let mem := Function.update mem other { mem other with ptr := none }
    (mem, calls)
  else
    (mem, [])

/-- The conversion of a `bool` argument to the `int64_t` parameter of an
engine function. -/
def boolToInt64 (b : Bool) : Int :=
  if b then 1 else 0

/-- The body every setter has: `s = natsOptions_X(ptr, ...); return *this;`,
for the engine call `call`. -/
def NatsOptions.record (E : Engine) (self : NatsOptions) (call : EngineCall) :
    NatsOptions × List EngineCall :=
  ({ self with s := E.status call }, [call])

/-- The setter `set_servers`: the engine gets the `c_str()` of every server
and their number. -/
def NatsOptions.set_servers (E : Engine) (self : NatsOptions) (servers : List String) :
    NatsOptions × List EngineCall :=
  let servers_c := servers.map (fun server => c_str server.toList)
  self.record E (EngineCall.natsOptions_SetServers self.ptr servers_c servers_c.length)

/-- The setter `set_token`. -/
def NatsOptions.set_token (E : Engine) (self : NatsOptions) (token : string_view) :
    NatsOptions × List EngineCall :=
  self.record E (EngineCall.natsOptions_SetToken self.ptr (c_str token.data))

/-- The setter `set_name`. -/
def NatsOptions.set_name (E : Engine) (self : NatsOptions) (name : string_view) :
    NatsOptions × List EngineCall :=
  self.record E (EngineCall.natsOptions_SetName self.ptr (c_str name.data))

/-- The setter `set_no_randomize`. -/
def NatsOptions.set_no_randomize (E : Engine) (self : NatsOptions) (no_randomize : Bool) :
    NatsOptions × List EngineCall :=
  self.record E (EngineCall.natsOptions_SetNoRandomize self.ptr no_randomize)

/-- The setter `set_secure`. -/
def NatsOptions.set_secure (E : Engine) (self : NatsOptions) (secure : Bool) :
    NatsOptions × List EngineCall :=
  self.record E (EngineCall.natsOptions_SetSecure self.ptr secure)

/-- The setter `load_ca_trusted_certificates`. -/
def NatsOptions.load_ca_trusted_certificates (E : Engine) (self : NatsOptions) (file_name : string_view) :
    NatsOptions × List EngineCall :=
  self.record E (EngineCall.natsOptions_LoadCATrustedCertificates self.ptr (c_str file_name.data))

/-- The setter `set_ca_trusted_certificates`. -/
def NatsOptions.set_ca_trusted_certificates (E : Engine) (self : NatsOptions) (certificates : string_view) :
    NatsOptions × List EngineCall :=
  self.record E (EngineCall.natsOptions_SetCATrustedCertificates self.ptr (c_str certificates.data))

/-- The setter `load_certificates_chain`. -/
def NatsOptions.load_certificates_chain (E : Engine) (self : NatsOptions) (certs_file_name : string_view) (key_file_name : string_view) :
    NatsOptions × List EngineCall :=
  self.record E (EngineCall.natsOptions_LoadCertificatesChain self.ptr (c_str certs_file_name.data) (c_str key_file_name.data))

/-- The setter `set_certificates_chain`. -/
def NatsOptions.set_certificates_chain (E : Engine) (self : NatsOptions) (cert : string_view) (key : string_view) :
    NatsOptions × List EngineCall :=
  self.record E (EngineCall.natsOptions_SetCertificatesChain self.ptr (c_str cert.data) (c_str key.data))

/-- The setter `set_ciphers`. -/
def NatsOptions.set_ciphers (E : Engine) (self : NatsOptions) (ciphers : string_view) :
    NatsOptions × List EngineCall :=
  self.record E (EngineCall.natsOptions_SetCiphers self.ptr (c_str ciphers.data))

/-- The setter `set_cipher_suites`. -/
def NatsOptions.set_cipher_suites (E : Engine) (self : NatsOptions) (ciphers : string_view) :
    NatsOptions × List EngineCall :=
  self.record E (EngineCall.natsOptions_SetCipherSuites self.ptr (c_str ciphers.data))

/-- The setter `set_timeout`. -/
def NatsOptions.set_timeout (E : Engine) (self : NatsOptions) (timeout_ms : Int) :
    NatsOptions × List EngineCall :=
  self.record E (EngineCall.natsOptions_SetTimeout self.ptr timeout_ms)

/-- The setter `set_url`. -/
def NatsOptions.set_url (E : Engine) (self : NatsOptions) (url : string_view) :
    NatsOptions × List EngineCall :=
  self.record E (EngineCall.natsOptions_SetURL self.ptr (c_str url.data))

/-- The setter `set_verbose`. -/
def NatsOptions.set_verbose (E : Engine) (self : NatsOptions) (verbose : Bool) :
    NatsOptions × List EngineCall :=
  self.record E (EngineCall.natsOptions_SetVerbose self.ptr verbose)

/-- The setter `set_retry_on_failed_connect`. -/
def NatsOptions.set_retry_on_failed_connect (E : Engine) (self : NatsOptions) (retry : Bool) :
    NatsOptions × List EngineCall :=
  self.record E (EngineCall.natsOptions_SetRetryOnFailedConnect self.ptr retry)

/-- The setter `set_expected_hostname`. -/
def NatsOptions.set_expected_hostname (E : Engine) (self : NatsOptions) (hostname : string_view) :
    NatsOptions × List EngineCall :=
  self.record E (EngineCall.natsOptions_SetExpectedHostname self.ptr (c_str hostname.data))

/-- The setter `skip_server_verification`. -/
def NatsOptions.skip_server_verification (E : Engine) (self : NatsOptions) (skip : Bool) :
    NatsOptions × List EngineCall :=
  self.record E (EngineCall.natsOptions_SkipServerVerification self.ptr skip)

/-- The setter `set_pedantic`. -/
def NatsOptions.set_pedantic (E : Engine) (self : NatsOptions) (pedantic : Bool) :
    NatsOptions × List EngineCall :=
  self.record E (EngineCall.natsOptions_SetPedantic self.ptr pedantic)

/-- The setter `set_ping_interval`. -/
def NatsOptions.set_ping_interval (E : Engine) (self : NatsOptions) (interval_ms : Int) :
    NatsOptions × List EngineCall :=
  self.record E (EngineCall.natsOptions_SetPingInterval self.ptr interval_ms)

/-- The setter `set_max_pings_out`. -/
def NatsOptions.set_max_pings_out (E : Engine) (self : NatsOptions) (max_pings_out : Int) :
    NatsOptions × List EngineCall :=
  self.record E (EngineCall.natsOptions_SetMaxPingsOut self.ptr max_pings_out)

/-- The setter `set_io_buffer_size`. -/
def NatsOptions.set_io_buffer_size (E : Engine) (self : NatsOptions) (io_buffer_size : Int) :
    NatsOptions × List EngineCall :=
  self.record E (EngineCall.natsOptions_SetIOBufSize self.ptr io_buffer_size)

/-- The setter `set_allow_reconnect`. -/
def NatsOptions.set_allow_reconnect (E : Engine) (self : NatsOptions) (allow_reconnect : Bool) :
    NatsOptions × List EngineCall :=
  self.record E (EngineCall.natsOptions_SetAllowReconnect self.ptr allow_reconnect)

/-- The setter `set_max_reconnect`. -/
def NatsOptions.set_max_reconnect (E : Engine) (self : NatsOptions) (max_reconnect : Int) :
    NatsOptions × List EngineCall :=
  self.record E (EngineCall.natsOptions_SetMaxReconnect self.ptr max_reconnect)

/-- The setter `set_reconnect_wait`. -/
def NatsOptions.set_reconnect_wait (E : Engine) (self : NatsOptions) (wait_ms : Int) :
    NatsOptions × List EngineCall :=
  self.record E (EngineCall.natsOptions_SetReconnectWait self.ptr wait_ms)

/-- The setter `set_reconnect_jitter`. -/
def NatsOptions.set_reconnect_jitter (E : Engine) (self : NatsOptions) (jitter_ms : Int) (jitter_tls_ms : Int) :
    NatsOptions × List EngineCall :=
  self.record E (EngineCall.natsOptions_SetReconnectJitter self.ptr jitter_ms jitter_tls_ms)

/-- The setter `set_reconnect_buf_size`. -/
def NatsOptions.set_reconnect_buf_size (E : Engine) (self : NatsOptions) (reconnect_buffer_size : Int) :
    NatsOptions × List EngineCall :=
  self.record E (EngineCall.natsOptions_SetReconnectBufSize self.ptr reconnect_buffer_size)

/-- The setter `set_max_pending_msgs`. -/
def NatsOptions.set_max_pending_msgs (E : Engine) (self : NatsOptions) (max_pending : Int) :
    NatsOptions × List EngineCall :=
  self.record E (EngineCall.natsOptions_SetMaxPendingMsgs self.ptr max_pending)

/-- The setter `set_send_asap`. -/
def NatsOptions.set_send_asap (E : Engine) (self : NatsOptions) (send_asap : Bool) :
    NatsOptions × List EngineCall :=
  self.record E (EngineCall.natsOptions_SetSendAsap self.ptr send_asap)

/-- The setter `set_fail_requests_on_disconnect`. -/
def NatsOptions.set_fail_requests_on_disconnect (E : Engine) (self : NatsOptions) (fail_requests : Bool) :
    NatsOptions × List EngineCall :=
  self.record E (EngineCall.natsOptions_SetFailRequestsOnDisconnect self.ptr fail_requests)

/-- The setter `set_no_echo`. -/
def NatsOptions.set_no_echo (E : Engine) (self : NatsOptions) (no_echo : Bool) :
    NatsOptions × List EngineCall :=
  self.record E (EngineCall.natsOptions_SetNoEcho self.ptr no_echo)

/-- The setter `set_write_deadline`. -/
def NatsOptions.set_write_deadline (E : Engine) (self : NatsOptions) (deadline_ms : Bool) :
    NatsOptions × List EngineCall :=
  self.record E (EngineCall.natsOptions_SetWriteDeadline self.ptr (boolToInt64 deadline_ms))

/-- The setter `disable_no_responders`. -/
def NatsOptions.disable_no_responders (E : Engine) (self : NatsOptions) (disabled : Bool) :
    NatsOptions × List EngineCall :=
  self.record E (EngineCall.natsOptions_DisableNoResponders self.ptr disabled)

/-- The setter `set_custom_inbox_prefix`. -/
def NatsOptions.set_custom_inbox_prefix (E : Engine) (self : NatsOptions) (inboxPrefix : string_view) :
    NatsOptions × List EngineCall :=
  self.record E (EngineCall.natsOptions_SetCustomInboxPrefix self.ptr (c_str inboxPrefix.data))

/-- The setter `set_message_buffer_padding`. -/
def NatsOptions.set_message_buffer_padding (E : Engine) (self : NatsOptions) (padding_size : Int) :
    NatsOptions × List EngineCall :=
  self.record E (EngineCall.natsOptions_SetMessageBufferPadding self.ptr padding_size)

/-- The setter `set_user_info`. -/
def NatsOptions.set_user_info (E : Engine) (self : NatsOptions) (username : string_view) (password : string_view) :
    NatsOptions × List EngineCall :=
  self.record E (EngineCall.natsOptions_SetUserInfo self.ptr (c_str username.data) (c_str password.data))

/-- The setter `use_global_message_delivery`. -/
def NatsOptions.use_global_message_delivery (E : Engine) (self : NatsOptions) (global : Bool) :
    NatsOptions × List EngineCall :=
  self.record E (EngineCall.natsOptions_UseGlobalMessageDelivery self.ptr global)

/-- The setter `ip_resolution_order`. -/
def NatsOptions.ip_resolution_order (E : Engine) (self : NatsOptions) (order : Int) :
    NatsOptions × List EngineCall :=
  self.record E (EngineCall.natsOptions_IPResolutionOrder self.ptr order)

/-- The setter `set_user_credentials_from_file`. -/
def NatsOptions.set_user_credentials_from_file (E : Engine) (self : NatsOptions) (user_or_chained_file : string_view) (seed_file : string_view) :
    NatsOptions × List EngineCall :=
  self.record E (EngineCall.natsOptions_SetUserCredentialsFromFiles self.ptr (c_str user_or_chained_file.data) (c_str seed_file.data))

/-- The setter `set_user_credentials_from_memory`. -/
def NatsOptions.set_user_credentials_from_memory (E : Engine) (self : NatsOptions) (jwt_and_seed_content : string_view) :
    NatsOptions × List EngineCall :=
  self.record E (EngineCall.natsOptions_SetUserCredentialsFromMemory self.ptr (c_str jwt_and_seed_content.data))

/-- One call of a setter of `NatsOptions`, with its arguments. -/
inductive Setter where
  | set_servers (servers : List String)
  | set_token (token : string_view)
  | set_name (name : string_view)
  | set_no_randomize (no_randomize : Bool)
  | set_secure (secure : Bool)
  | load_ca_trusted_certificates (file_name : string_view)
  | set_ca_trusted_certificates (certificates : string_view)
  | load_certificates_chain (certs_file_name : string_view) (key_file_name : string_view)
  | set_certificates_chain (cert : string_view) (key : string_view)
  | set_ciphers (ciphers : string_view)
  | set_cipher_suites (ciphers : string_view)
  | set_timeout (timeout_ms : Int)
  | set_url (url : string_view)
  | set_verbose (verbose : Bool)
  | set_retry_on_failed_connect (retry : Bool)
  | set_expected_hostname (hostname : string_view)
  | skip_server_verification (skip : Bool)
  | set_pedantic (pedantic : Bool)
  | set_ping_interval (interval_ms : Int)
  | set_max_pings_out (max_pings_out : Int)
  | set_io_buffer_size (io_buffer_size : Int)
  | set_allow_reconnect (allow_reconnect : Bool)
  | set_max_reconnect (max_reconnect : Int)
  | set_reconnect_wait (wait_ms : Int)
  | set_reconnect_jitter (jitter_ms : Int) (jitter_tls_ms : Int)
  | set_reconnect_buf_size (reconnect_buffer_size : Int)
  | set_max_pending_msgs (max_pending : Int)
  | set_send_asap (send_asap : Bool)
  | set_fail_requests_on_disconnect (fail_requests : Bool)
  | set_no_echo (no_echo : Bool)
  | set_write_deadline (deadline_ms : Bool)
  | disable_no_responders (disabled : Bool)
  | set_custom_inbox_prefix (inboxPrefix : string_view)
  | set_message_buffer_padding (padding_size : Int)
  | set_user_info (username : string_view) (password : string_view)
  | use_global_message_delivery (global : Bool)
  | ip_resolution_order (order : Int)
  | set_user_credentials_from_file (user_or_chained_file : string_view) (seed_file : string_view)
  | set_user_credentials_from_memory (jwt_and_seed_content : string_view)

/-- Run one setter call on the options object. -/
def NatsOptions.call (E : Engine) (self : NatsOptions) :
    Setter → NatsOptions × List EngineCall
  | Setter.set_servers servers => self.set_servers E servers
  | Setter.set_token token => self.set_token E token
  | Setter.set_name name => self.set_name E name
  | Setter.set_no_randomize no_randomize => self.set_no_randomize E no_randomize
  | Setter.set_secure secure => self.set_secure E secure
  | Setter.load_ca_trusted_certificates file_name => self.load_ca_trusted_certificates E file_name
  | Setter.set_ca_trusted_certificates certificates => self.set_ca_trusted_certificates E certificates
  | Setter.load_certificates_chain certs_file_name key_file_name => self.load_certificates_chain E certs_file_name key_file_name
  | Setter.set_certificates_chain cert key => self.set_certificates_chain E cert key
  | Setter.set_ciphers ciphers => self.set_ciphers E ciphers
  | Setter.set_cipher_suites ciphers => self.set_cipher_suites E ciphers
  | Setter.set_timeout timeout_ms => self.set_timeout E timeout_ms
  | Setter.set_url url => self.set_url E url
  | Setter.set_verbose verbose => self.set_verbose E verbose
  | Setter.set_retry_on_failed_connect retry => self.set_retry_on_failed_connect E retry
  | Setter.set_expected_hostname hostname => self.set_expected_hostname E hostname
  | Setter.skip_server_verification skip => self.skip_server_verification E skip
  | Setter.set_pedantic pedantic => self.set_pedantic E pedantic
  | Setter.set_ping_interval interval_ms => self.set_ping_interval E interval_ms
  | Setter.set_max_pings_out max_pings_out => self.set_max_pings_out E max_pings_out
  | Setter.set_io_buffer_size io_buffer_size => self.set_io_buffer_size E io_buffer_size
  | Setter.set_allow_reconnect allow_reconnect => self.set_allow_reconnect E allow_reconnect
  | Setter.set_max_reconnect max_reconnect => self.set_max_reconnect E max_reconnect
  | Setter.set_reconnect_wait wait_ms => self.set_reconnect_wait E wait_ms
  | Setter.set_reconnect_jitter jitter_ms jitter_tls_ms => self.set_reconnect_jitter E jitter_ms jitter_tls_ms
  | Setter.set_reconnect_buf_size reconnect_buffer_size => self.set_reconnect_buf_size E reconnect_buffer_size
  | Setter.set_max_pending_msgs max_pending => self.set_max_pending_msgs E max_pending
  | Setter.set_send_asap send_asap => self.set_send_asap E send_asap
  | Setter.set_fail_requests_on_disconnect fail_requests => self.set_fail_requests_on_disconnect E fail_requests
  | Setter.set_no_echo no_echo => self.set_no_echo E no_echo
  | Setter.set_write_deadline deadline_ms => self.set_write_deadline E deadline_ms
  | Setter.disable_no_responders disabled => self.disable_no_responders E disabled
  | Setter.set_custom_inbox_prefix inboxPrefix => self.set_custom_inbox_prefix E inboxPrefix
  | Setter.set_message_buffer_padding padding_size => self.set_message_buffer_padding E padding_size
  | Setter.set_user_info username password => self.set_user_info E username password
  | Setter.use_global_message_delivery global => self.use_global_message_delivery E global
  | Setter.ip_resolution_order order => self.ip_resolution_order E order
  | Setter.set_user_credentials_from_file user_or_chained_file seed_file => self.set_user_credentials_from_file E user_or_chained_file seed_file
  | Setter.set_user_credentials_from_memory jwt_and_seed_content => self.set_user_credentials_from_memory E jwt_and_seed_content

/-- The engine call a setter call makes on the options object `opts`. -/
def Setter.engineCall (opts : Ptr) : Setter → EngineCall
  | Setter.set_servers servers =>
      EngineCall.natsOptions_SetServers opts (servers.map (fun server => c_str server.toList))
        (servers.map (fun server => c_str server.toList)).length
  | Setter.set_token token => EngineCall.natsOptions_SetToken opts (c_str token.data)
  | Setter.set_name name => EngineCall.natsOptions_SetName opts (c_str name.data)
  | Setter.set_no_randomize no_randomize => EngineCall.natsOptions_SetNoRandomize opts no_randomize
  | Setter.set_secure secure => EngineCall.natsOptions_SetSecure opts secure
  | Setter.load_ca_trusted_certificates file_name => EngineCall.natsOptions_LoadCATrustedCertificates opts (c_str file_name.data)
  | Setter.set_ca_trusted_certificates certificates => EngineCall.natsOptions_SetCATrustedCertificates opts (c_str certificates.data)
  | Setter.load_certificates_chain certs_file_name key_file_name => EngineCall.natsOptions_LoadCertificatesChain opts (c_str certs_file_name.data) (c_str key_file_name.data)
  | Setter.set_certificates_chain cert key => EngineCall.natsOptions_SetCertificatesChain opts (c_str cert.data) (c_str key.data)
  | Setter.set_ciphers ciphers => EngineCall.natsOptions_SetCiphers opts (c_str ciphers.data)
  | Setter.set_cipher_suites ciphers => EngineCall.natsOptions_SetCipherSuites opts (c_str ciphers.data)
  | Setter.set_timeout timeout_ms => EngineCall.natsOptions_SetTimeout opts timeout_ms
  | Setter.set_url url => EngineCall.natsOptions_SetURL opts (c_str url.data)
  | Setter.set_verbose verbose => EngineCall.natsOptions_SetVerbose opts verbose
  | Setter.set_retry_on_failed_connect retry => EngineCall.natsOptions_SetRetryOnFailedConnect opts retry
  | Setter.set_expected_hostname hostname => EngineCall.natsOptions_SetExpectedHostname opts (c_str hostname.data)
  | Setter.skip_server_verification skip => EngineCall.natsOptions_SkipServerVerification opts skip
  | Setter.set_pedantic pedantic => EngineCall.natsOptions_SetPedantic opts pedantic
  | Setter.set_ping_interval interval_ms => EngineCall.natsOptions_SetPingInterval opts interval_ms
  | Setter.set_max_pings_out max_pings_out => EngineCall.natsOptions_SetMaxPingsOut opts max_pings_out
  | Setter.set_io_buffer_size io_buffer_size => EngineCall.natsOptions_SetIOBufSize opts io_buffer_size
  | Setter.set_allow_reconnect allow_reconnect => EngineCall.natsOptions_SetAllowReconnect opts allow_reconnect
  | Setter.set_max_reconnect max_reconnect => EngineCall.natsOptions_SetMaxReconnect opts max_reconnect
  | Setter.set_reconnect_wait wait_ms => EngineCall.natsOptions_SetReconnectWait opts wait_ms
  | Setter.set_reconnect_jitter jitter_ms jitter_tls_ms => EngineCall.natsOptions_SetReconnectJitter opts jitter_ms jitter_tls_ms
  | Setter.set_reconnect_buf_size reconnect_buffer_size => EngineCall.natsOptions_SetReconnectBufSize opts reconnect_buffer_size
  | Setter.set_max_pending_msgs max_pending => EngineCall.natsOptions_SetMaxPendingMsgs opts max_pending
  | Setter.set_send_asap send_asap => EngineCall.natsOptions_SetSendAsap opts send_asap
  | Setter.set_fail_requests_on_disconnect fail_requests => EngineCall.natsOptions_SetFailRequestsOnDisconnect opts fail_requests
  | Setter.set_no_echo no_echo => EngineCall.natsOptions_SetNoEcho opts no_echo
  | Setter.set_write_deadline deadline_ms => EngineCall.natsOptions_SetWriteDeadline opts (boolToInt64 deadline_ms)
  | Setter.disable_no_responders disabled => EngineCall.natsOptions_DisableNoResponders opts disabled
  | Setter.set_custom_inbox_prefix inboxPrefix => EngineCall.natsOptions_SetCustomInboxPrefix opts (c_str inboxPrefix.data)
  | Setter.set_message_buffer_padding padding_size => EngineCall.natsOptions_SetMessageBufferPadding opts padding_size
  | Setter.set_user_info username password => EngineCall.natsOptions_SetUserInfo opts (c_str username.data) (c_str password.data)
  | Setter.use_global_message_delivery global => EngineCall.natsOptions_UseGlobalMessageDelivery opts global
  | Setter.ip_resolution_order order => EngineCall.natsOptions_IPResolutionOrder opts order
  | Setter.set_user_credentials_from_file user_or_chained_file seed_file => EngineCall.natsOptions_SetUserCredentialsFromFiles opts (c_str user_or_chained_file.data) (c_str seed_file.data)
  | Setter.set_user_credentials_from_memory jwt_and_seed_content => EngineCall.natsOptions_SetUserCredentialsFromMemory opts (c_str jwt_and_seed_content.data)

/-- A sequence of setter calls, in call order; each comes with the engine as
it answers at the time of that call. -/
def NatsOptions.run (self : NatsOptions) : List (Engine × Setter) → NatsOptions × List EngineCall
  | [] => (self, [])
  | (E, st) :: rest =>
      let r := self.call E st
      let r2 := NatsOptions.run r.1 rest
      (r2.1, r.2 ++ r2.2)

/-- The statuses the engine answers to a sequence of setter calls on the
options object `opts`, in call order. -/
def setterStatuses (opts : Ptr) (calls : List (Engine × Setter)) : List natsStatus :=
  calls.map (fun c => c.1.status (c.2.engineCall opts))

/-- The sticky-first-error rule in the words of the specification: the first
status in call order that is not OK, or OK when there is none. -/
def firstFailure (statuses : List natsStatus) : natsStatus :=
  (statuses.find? (fun st => st != NATS_OK)).getD NATS_OK

/-! ## MessageView.hpp -/

/-- The struct `NatsMessageView`. -/
structure NatsMessageView where
  ptr : Ptr
  deriving DecidableEq, Repr

/-- The constructor `NatsMessageView(natsMsg* msg)`. -/
def NatsMessageView.new (msg : Ptr) : NatsMessageView :=
  { ptr := msg }

/-- The destructor `~NatsMessageView()`. -/
def NatsMessageView.destructor (self : NatsMessageView) : NatsMessageView × List EngineCall :=
  if self.ptr.isSome then
    ({ self with ptr := none }, [EngineCall.natsMsg_Destroy self.ptr])
  else
    (self, [])

/-- The move constructor `NatsMessageView(NatsMessageView&& other)`: the new object and what is left
of `other`. -/
def NatsMessageView.moveConstruct (other : NatsMessageView) : NatsMessageView × NatsMessageView :=
  ({ ptr := other.ptr }, { other with ptr := none })

/-- The move assignment `NatsMessageView::operator=(NatsMessageView&& other)` on the objects at
addresses `this` and `other` of the memory `mem`. -/
def NatsMessageView.moveAssign (mem : Nat → NatsMessageView) (this other : Nat) :
    (Nat → NatsMessageView) × List EngineCall :=
  if this ≠ other then
    let (mem, calls) :=
      if (mem this).ptr.isSome then
        (mem, [EngineCall.natsMsg_Destroy (mem this).ptr])
      else
        (mem, [])
    let mem := Function.update mem this { mem this with ptr := (mem other).ptr }
    let mem := Function.update mem other { mem other with ptr := none }
    (mem, calls)
  else
    (mem, [])

/-! ## SubscriptionSync.hpp -/

/-- The struct `NatsSubscriptionSync`. -/
structure NatsSubscriptionSync where
  ptr : Ptr
  s : natsStatus
  deriving DecidableEq, Repr

/-- The constructor `NatsSubscriptionSync(natsSubscription* sub)`.  It initialises `ptr` only;
`indet` is the indeterminate value the member `s` starts with. -/
def NatsSubscriptionSync.new (sub : Ptr) (indet : natsStatus) : NatsSubscriptionSync :=
  { ptr := sub, s := indet }

/-- The destructor `~NatsSubscriptionSync()`. -/
def NatsSubscriptionSync.destructor (self : NatsSubscriptionSync) : NatsSubscriptionSync × List EngineCall :=
  if self.ptr.isSome then
    ({ self with ptr := none }, [EngineCall.natsSubscription_Destroy self.ptr])
  else
    (self, [])

/-- The move constructor `NatsSubscriptionSync(NatsSubscriptionSync&& other)`: the new object and what is left
of `other`.  The new object's `s` is not initialised (`indet`). -/
def NatsSubscriptionSync.moveConstruct (indet : natsStatus) (other : NatsSubscriptionSync) : NatsSubscriptionSync × NatsSubscriptionSync :=
  ({ ptr := other.ptr, s := indet }, { other with ptr := none })

/-- The move assignment `NatsSubscriptionSync::operator=(NatsSubscriptionSync&& other)` on the objects at
addresses `this` and `other` of the memory `mem`. -/
def NatsSubscriptionSync.moveAssign (mem : Nat → NatsSubscriptionSync) (this other : Nat) :
    (Nat → NatsSubscriptionSync) × List EngineCall :=
  if this ≠ other then
    let (mem, calls) :=
      if (mem this).ptr.isSome then
        (mem, [EngineCall.natsSubscription_Destroy (mem this).ptr])
      else
        (mem, [])
    let mem := Function.update mem this { mem this with ptr := (mem other).ptr }
    let mem := Function.update mem other { mem other with ptr := none }
    (mem, calls)
  else
    (mem, [])

/-- The method `subject()`: the C string `natsSubscription_GetSubject(ptr)` returns. -/
def NatsSubscriptionSync.subject (E : Engine) (self : NatsSubscriptionSync) : String :=
  E.text (EngineCall.natsSubscription_GetSubject self.ptr)

/-- The method `next_msg`. -/
def NatsSubscriptionSync.next_msg (E : Engine) (self : NatsSubscriptionSync) (timeout_ms : Int) :
    Outcome NatsSubscriptionSync NatsMessageView :=
  let call := EngineCall.natsSubscription_NextMsg self.ptr timeout_ms
  let msg : Ptr := E.outPtr call none
  let self := { self with s := E.status call }
  if self.s ≠ NATS_OK then
    { result := Except.error (NatsError.new E self.s "Failed to get next message from subscription.")
      self := self, calls := [call] }
  else
    { result := Except.ok (NatsMessageView.new msg), self := self, calls := [call] }

/-- The method `no_delivery_delay`. -/
def NatsSubscriptionSync.no_delivery_delay (E : Engine) (self : NatsSubscriptionSync) :
    Outcome NatsSubscriptionSync Unit :=
  let call := EngineCall.natsSubscription_NoDeliveryDelay self.ptr
  let self := { self with s := E.status call }
  if self.s ≠ NATS_OK then
    { result := Except.error (NatsError.new E self.s "Failed to set no delivery delay.")
      self := self, calls := [call] }
  else
    { result := Except.ok (), self := self, calls := [call] }

/-- The method `queued_msgs`. -/
def NatsSubscriptionSync.queued_msgs (E : Engine) (self : NatsSubscriptionSync) :
    Outcome NatsSubscriptionSync Int :=
  let call := EngineCall.natsSubscription_QueuedMsgs self.ptr
  let queuedMsgs : Int := E.outInt call 0 0
  let self := { self with s := E.status call }
  if self.s ≠ NATS_OK then
    { result := Except.error (NatsError.new E self.s "Failed to get queued messages count.")
      self := self, calls := [call] }
  else
    { result := Except.ok queuedMsgs, self := self, calls := [call] }

/-- The method `auto_unsunscribe` (spelt as in the source). -/
def NatsSubscriptionSync.auto_unsunscribe (E : Engine) (self : NatsSubscriptionSync) (max : Int) :
    Outcome NatsSubscriptionSync Unit :=
  let call := EngineCall.natsSubscription_AutoUnsubscribe self.ptr max
  let self := { self with s := E.status call }
  if self.s ≠ NATS_OK then
    { result := Except.error (NatsError.new E self.s
        ("Failed to set auto unsubscribe to " ++ toString max ++ " for subscription ["
          ++ self.subject E ++ "]."))
      self := self, calls := [call, EngineCall.natsSubscription_GetSubject self.ptr] }
  else
    { result := Except.ok (), self := self, calls := [call] }

/-- The method `drain`. -/
def NatsSubscriptionSync.drain (E : Engine) (self : NatsSubscriptionSync) :
    Outcome NatsSubscriptionSync Unit :=
  let call := EngineCall.natsSubscription_Drain self.ptr
  let self := { self with s := E.status call }
  if self.s ≠ NATS_OK then
    { result := Except.error (NatsError.new E self.s
        ("Failed to drain subscription [" ++ self.subject E ++ "]."))
      self := self, calls := [call, EngineCall.natsSubscription_GetSubject self.ptr] }
  else
    { result := Except.ok (), self := self, calls := [call] }

/-- The method `drain_timeout`. -/
def NatsSubscriptionSync.drain_timeout (E : Engine) (self : NatsSubscriptionSync)
    (timeout_ms : Int) : Outcome NatsSubscriptionSync Unit :=
  let call := EngineCall.natsSubscription_DrainTimeout self.ptr timeout_ms
  let self := { self with s := E.status call }
  if self.s ≠ NATS_OK then
    { result := Except.error (NatsError.new E self.s
        ("Failed to drain subscription [" ++ self.subject E ++ "]."))
      self := self, calls := [call, EngineCall.natsSubscription_GetSubject self.ptr] }
  else
    { result := Except.ok (), self := self, calls := [call] }

/-- The method `wait_for_drain_completion`. -/
def NatsSubscriptionSync.wait_for_drain_completion (E : Engine) (self : NatsSubscriptionSync)
    (timeout_ms : Int) : Outcome NatsSubscriptionSync Unit :=
  let call := EngineCall.natsSubscription_WaitForDrainCompletion self.ptr timeout_ms
  let self := { self with s := E.status call }
  if self.s ≠ NATS_OK then
    { result := Except.error (NatsError.new E self.s
        ("Failed to wait for drain completion [" ++ self.subject E ++ "]."))
      self := self, calls := [call, EngineCall.natsSubscription_GetSubject self.ptr] }
  else
    { result := Except.ok (), self := self, calls := [call] }

/-- The structs `MaxPending`, `Pending` and `PendingLimits` of
`NatsSubscriptionSync`, which have the same two members. -/
structure MsgsBytes where
  msgs : Int
  bytes : Int
  deriving DecidableEq, Repr

/-- The method `get_max_pending`. -/
def NatsSubscriptionSync.get_max_pending (E : Engine) (self : NatsSubscriptionSync) :
    Outcome NatsSubscriptionSync MsgsBytes :=
  let call := EngineCall.natsSubscription_GetMaxPending self.ptr
  let mp : MsgsBytes := { msgs := E.outInt call 0 0, bytes := E.outInt call 1 0 }
  let self := { self with s := E.status call }
  if self.s ≠ NATS_OK then
    { result := Except.error (NatsError.new E self.s
        ("Failed to get max pending stats for subscription [" ++ self.subject E ++ "]."))
      self := self, calls := [call, EngineCall.natsSubscription_GetSubject self.ptr] }
  else
    { result := Except.ok mp, self := self, calls := [call] }

/-- The method `get_dropped`. -/
def NatsSubscriptionSync.get_dropped (E : Engine) (self : NatsSubscriptionSync) :
    Outcome NatsSubscriptionSync Int :=
  let call := EngineCall.natsSubscription_GetDropped self.ptr
  let count : Int := E.outInt call 0 0
  let self := { self with s := E.status call }
  if self.s ≠ NATS_OK then
    { result := Except.error (NatsError.new E self.s
        ("Failed to get dropped count for subscription [" ++ self.subject E ++ "]."))
      self := self, calls := [call, EngineCall.natsSubscription_GetSubject self.ptr] }
  else
    { result := Except.ok count, self := self, calls := [call] }

/-- The method `get_delivered`. -/
def NatsSubscriptionSync.get_delivered (E : Engine) (self : NatsSubscriptionSync) :
    Outcome NatsSubscriptionSync Int :=
  let call := EngineCall.natsSubscription_GetDelivered self.ptr
  let count : Int := E.outInt call 0 0
  let self := { self with s := E.status call }
  if self.s ≠ NATS_OK then
    { result := Except.error (NatsError.new E self.s
        ("Failed to get delivered count for subscription [" ++ self.subject E ++ "]."))
      self := self, calls := [call, EngineCall.natsSubscription_GetSubject self.ptr] }
  else
    { result := Except.ok count, self := self, calls := [call] }

/-- The method `get_pending`. -/
def NatsSubscriptionSync.get_pending (E : Engine) (self : NatsSubscriptionSync) :
    Outcome NatsSubscriptionSync MsgsBytes :=
  let call := EngineCall.natsSubscription_GetPending self.ptr
  let p : MsgsBytes := { msgs := E.outInt call 0 0, bytes := E.outInt call 1 0 }
  let self := { self with s := E.status call }
  if self.s ≠ NATS_OK then
    { result := Except.error (NatsError.new E self.s
        ("Failed to get pending stats for subscription [" ++ self.subject E ++ "]."))
      self := self, calls := [call, EngineCall.natsSubscription_GetSubject self.ptr] }
  else
    { result := Except.ok p, self := self, calls := [call] }

/-- The method `get_pending_limits`. -/
def NatsSubscriptionSync.get_pending_limits (E : Engine) (self : NatsSubscriptionSync) :
    Outcome NatsSubscriptionSync MsgsBytes :=
  let call := EngineCall.natsSubscription_GetPendingLimits self.ptr
  let p : MsgsBytes := { msgs := E.outInt call 0 0, bytes := E.outInt call 1 0 }
  let self := { self with s := E.status call }
  if self.s ≠ NATS_OK then
    { result := Except.error (NatsError.new E self.s
        ("Failed to get pending limits stats for subscription [" ++ self.subject E ++ "]."))
      self := self, calls := [call, EngineCall.natsSubscription_GetSubject self.ptr] }
  else
    { result := Except.ok p, self := self, calls := [call] }

/-- The method `set_pending_limits`. -/
def NatsSubscriptionSync.set_pending_limits (E : Engine) (self : NatsSubscriptionSync)
    (msgs bytes : Int) : Outcome NatsSubscriptionSync Unit :=
  let call := EngineCall.natsSubscription_SetPendingLimits self.ptr msgs bytes
  let self := { self with s := E.status call }
  if self.s ≠ NATS_OK then
    { result := Except.error (NatsError.new E self.s
        ("Failed to set pending limits for subscription [" ++ self.subject E ++ "] to "
          ++ toString msgs ++ " msgs and " ++ toString bytes ++ " bytes."))
      self := self, calls := [call, EngineCall.natsSubscription_GetSubject self.ptr] }
  else
    { result := Except.ok (), self := self, calls := [call] }

/-! ## Kv.hpp -/

/-- The struct `KvStore`. -/
structure KvStore where
  ptr : Ptr
  deriving DecidableEq, Repr

/-- The constructor `KvStore(kvStore* kv_store)`. -/
def KvStore.new (kv_store : Ptr) : KvStore :=
  { ptr := kv_store }

/-- The destructor `~KvStore()`. -/
def KvStore.destructor (self : KvStore) : KvStore × List EngineCall :=
  if self.ptr.isSome then
    ({ self with ptr := none }, [EngineCall.kvStore_Destroy self.ptr])
  else
    (self, [])

/-- The move constructor `KvStore(KvStore&& other)`: the new object and what is left
of `other`. -/
def KvStore.moveConstruct (other : KvStore) : KvStore × KvStore :=
  ({ ptr := other.ptr }, { other with ptr := none })

/-- The move assignment `KvStore::operator=(KvStore&& other)` on the objects at
addresses `this` and `other` of the memory `mem`. -/
def KvStore.moveAssign (mem : Nat → KvStore) (this other : Nat) :
    (Nat → KvStore) × List EngineCall :=
  if this ≠ other then
    let (mem, calls) :=
      if (mem this).ptr.isSome then
        (Function.update mem this { mem this with ptr := none },
          [EngineCall.kvStore_Destroy (mem this).ptr])
      else
        (mem, [])
    let mem := Function.update mem this { mem this with ptr := (mem other).ptr }
    let mem := Function.update mem other { mem other with ptr := none }
    (mem, calls)
  else
    (mem, [])

/-- The struct `KvEntry`. -/
structure KvEntry where
  ptr : Ptr
  deriving DecidableEq, Repr

/-- The constructor `KvEntry(kvEntry* kv_entry)`. -/
def KvEntry.new (kv_entry : Ptr) : KvEntry :=
  { ptr := kv_entry }

/-- The destructor `~KvEntry()`. -/
def KvEntry.destructor (self : KvEntry) : KvEntry × List EngineCall :=
  if self.ptr.isSome then
    ({ self with ptr := none }, [EngineCall.kvEntry_Destroy self.ptr])
  else
    (self, [])

/-- The move constructor `KvEntry(KvEntry&& other)`: the new object and what is left
of `other`. -/
def KvEntry.moveConstruct (other : KvEntry) : KvEntry × KvEntry :=
  ({ ptr := other.ptr }, { other with ptr := none })

/-- The move assignment `KvEntry::operator=(KvEntry&& other)` on the objects at
addresses `this` and `other` of the memory `mem`. -/
def KvEntry.moveAssign (mem : Nat → KvEntry) (this other : Nat) :
    (Nat → KvEntry) × List EngineCall :=
  if this ≠ other then
    let (mem, calls) :=
      if (mem this).ptr.isSome then
        (Function.update mem this { mem this with ptr := none },
          [EngineCall.kvEntry_Destroy (mem this).ptr])
      else
        (mem, [])
    let mem := Function.update mem this { mem this with ptr := (mem other).ptr }
    let mem := Function.update mem other { mem other with ptr := none }
    (mem, calls)
  else
    (mem, [])

/-- The struct `KvWatcher`. -/
structure KvWatcher where
  ptr : Ptr
  s : natsStatus
  deriving DecidableEq, Repr

/-- The constructor `KvWatcher(kvWatcher* kv_watcher)`.  It initialises `ptr` only;
`indet` is the indeterminate value the member `s` starts with. -/
def KvWatcher.new (kv_watcher : Ptr) (indet : natsStatus) : KvWatcher :=
  { ptr := kv_watcher, s := indet }

/-- The destructor `~KvWatcher()`. -/
def KvWatcher.destructor (self : KvWatcher) : KvWatcher × List EngineCall :=
  if self.ptr.isSome then
    ({ self with ptr := none }, [EngineCall.kvWatcher_Destroy self.ptr])
  else
    (self, [])

/-- The move constructor `KvWatcher(KvWatcher&& other)`: the new object and what is left
of `other`.  The new object's `s` is not initialised (`indet`). -/
def KvWatcher.moveConstruct (indet : natsStatus) (other : KvWatcher) : KvWatcher × KvWatcher :=
  ({ ptr := other.ptr, s := indet }, { other with ptr := none })

/-- The move assignment `KvWatcher::operator=(KvWatcher&& other)` on the objects at
addresses `this` and `other` of the memory `mem`. -/
def KvWatcher.moveAssign (mem : Nat → KvWatcher) (this other : Nat) :
    (Nat → KvWatcher) × List EngineCall :=
  if this ≠ other then
    let (mem, calls) :=
      if (mem this).ptr.isSome then
        (Function.update mem this { mem this with ptr := none },
          [EngineCall.kvWatcher_Destroy (mem this).ptr])
      else
        (mem, [])
    let mem := Function.update mem this { mem this with ptr := (mem other).ptr }
    let mem := Function.update mem other { mem other with ptr := none }
    (mem, calls)
  else
    (mem, [])

/-- The method `KvStore::bucket()`: the C string `kvStore_Bucket(ptr)` returns. -/
def KvStore.bucket (E : Engine) (self : KvStore) : String :=
  E.text (EngineCall.kvStore_Bucket self.ptr)

/-- The method `KvWatcher::next`.  `e` is the local `kvEntry* e = NULL` after
the engine call. -/
def KvWatcher.next (E : Engine) (self : KvWatcher) (timeout_ms : Int) :
    Outcome KvWatcher (Option KvEntry) :=
  let call := EngineCall.kvWatcher_Next self.ptr timeout_ms
  let e : Ptr := E.outPtr call none
  let self := { self with s := E.status call }
  if self.s ≠ NATS_OK then
    { result := Except.error (NatsError.new E self.s "Failed to get next KV watcher update.")
      self := self, calls := [call] }
  else if e = none then
    { result := Except.ok none, self := self, calls := [call] }
  else
    { result := Except.ok (some (KvEntry.new e)), self := self, calls := [call] }

/-- The method `KvWatcher::stop`. -/
def KvWatcher.stop (E : Engine) (self : KvWatcher) : Outcome KvWatcher Unit :=
  let call := EngineCall.kvWatcher_Stop self.ptr
  let self := { self with s := E.status call }
  if self.s ≠ NATS_OK then
    { result := Except.error (NatsError.new E self.s "Failed to stop KV watcher.")
      self := self, calls := [call] }
  else
    { result := Except.ok (), self := self, calls := [call] }

/-- The struct `KvKeysList`. -/
structure KvKeysList where
  kl : kvKeysList
  deriving DecidableEq, Repr

/-- The constructor `KvKeysList()`: `kl{}` is zero-initialised. -/
def KvKeysList.new : KvKeysList :=
  { kl := { Keys := none, Count := 0 } }

/-- The destructor `~KvKeysList()`. -/
def KvKeysList.destructor (self : KvKeysList) : KvKeysList × List EngineCall :=
  if self.kl.Keys ≠ none then
    ({ kl := { Keys := none, Count := 0 } }, [EngineCall.kvKeysList_Destroy self.kl])
  else
    (self, [])

/-- The move constructor `KvKeysList(KvKeysList&& other)`: the new object and
what is left of `other`. -/
def KvKeysList.moveConstruct (other : KvKeysList) : KvKeysList × KvKeysList :=
  ({ kl := other.kl }, { kl := { Keys := none, Count := 0 } })

/-- The move assignment `KvKeysList::operator=(KvKeysList&& other)` on the
objects at addresses `this` and `other` of the memory `mem`. -/
def KvKeysList.moveAssign (mem : Nat → KvKeysList) (this other : Nat) :
    (Nat → KvKeysList) × List EngineCall :=
  if this ≠ other then
    let (mem, calls) :=
      if (mem this).kl.Keys ≠ none then
        (Function.update mem this { kl := { Keys := none, Count := 0 } },
          [EngineCall.kvKeysList_Destroy (mem this).kl])
      else
        (mem, [])
    let mem := Function.update mem this { kl := (mem other).kl }
    let mem := Function.update mem other { kl := { Keys := none, Count := 0 } }
    (mem, calls)
  else
    (mem, [])

/-! ## Client.hpp -/

/-- The class `NatsClient`: its five members. -/
structure NatsClient where
  conn : Ptr
  opts : NatsOptions
  js : Ptr
  s : natsStatus
  jsOpts : jsOptions
  deriving DecidableEq, Repr

/-- The method `cleanup()`.  The explicit call `opts.~NatsOptions()` is the
destructor of the member. -/
def NatsClient.cleanup (self : NatsClient) : NatsClient × List EngineCall :=
  let (self, calls1) :=
    if self.conn.isSome then
      ({ self with conn := none }, [EngineCall.natsConnection_Destroy self.conn])
    else
      (self, [])
  let (opts, calls2) := self.opts.destructor
  let self := { self with opts := opts }
  let (self, calls3) :=
    if self.js.isSome then
      ({ self with js := none }, [EngineCall.jsCtx_Destroy self.js])
    else
      (self, [])
  (self, calls1 ++ calls2 ++ calls3)

/-- The destructor `~NatsClient()`: its body calls `cleanup()`, then the
members are destroyed, of which only `opts` has a destructor. -/
def NatsClient.destructor (self : NatsClient) : NatsClient × List EngineCall :=
  let (self, calls1) := self.cleanup
  let (opts, calls2) := self.opts.destructor
  ({ self with opts := opts }, calls1 ++ calls2)

/-- The private constructor `NatsClient(NatsOptions&& opts)`: `opts` is
move-constructed, `conn` and `js` take their default member initialisers,
`s` and `jsOpts` are not initialised (`indet_s`, `indet_jsOpts`).  Returns
the new client and what is left of the argument. -/
def NatsClient.new (indet_s : natsStatus) (indet_jsOpts : jsOptions) (opts : NatsOptions) :
    NatsClient × NatsOptions :=
  let (mine, left) := NatsOptions.moveConstruct opts
  ({ conn := none, opts := mine, js := none, s := indet_s, jsOpts := indet_jsOpts }, left)

/-- The move constructor `NatsClient(NatsClient&& other)`: the new client and
what is left of `other`.  The initialiser list names `conn` and `opts`; `js`
takes its default member initialiser, `s` and `jsOpts` are not initialised. -/
def NatsClient.moveConstruct (indet_s : natsStatus) (indet_jsOpts : jsOptions)
    (other : NatsClient) : NatsClient × NatsClient :=
  let (mine, left) := NatsOptions.moveConstruct other.opts
  let other := { other with opts := left }
  let self : NatsClient :=
    { conn := other.conn, opts := mine, js := none, s := indet_s, jsOpts := indet_jsOpts }
  let other := { other with conn := none }
  (self, other)

/-- The move assignment `NatsClient::operator=(NatsClient&& other)` on the
clients at addresses `this` and `other` of the memory `mem`.  The two
assignments to `opts` members are `NatsOptions::operator=`, run on a memory
that holds the two option objects involved; `other.opts = nullptr` assigns
from the temporary `NatsOptions(nullptr)`, whose `s` is not initialised
(`indet`) and whose destructor runs at the end of the statement. -/
def NatsClient.moveAssign (indet : natsStatus) (mem : Nat → NatsClient) (this other : Nat) :
    (Nat → NatsClient) × List EngineCall :=
  if this ≠ other then
    let (self, calls1) := (mem this).cleanup
    let mem := Function.update mem this self
    let mem := Function.update mem this { mem this with conn := (mem other).conn }
    let (optsMem, calls2) :=
      NatsOptions.moveAssign (fun a => if a = 0 then (mem this).opts else (mem other).opts) 0 1
    let mem := Function.update mem this { mem this with opts := optsMem 0 }
    let mem := Function.update mem other { mem other with opts := optsMem 1 }
    let mem := Function.update mem other { mem other with conn := none }
    let (tmpMem, calls3) :=
      NatsOptions.moveAssign
        (fun a => if a = 0 then (mem other).opts else NatsOptions.new none indet) 0 1
    let mem := Function.update mem other { mem other with opts := tmpMem 0 }
    let (_, calls4) := (tmpMem 1).destructor
    (mem, calls1 ++ calls2 ++ calls3 ++ calls4)
  else
    (mem, [])

/-- The static method `create()`.  The temporaries `NatsOptions(opts)` and
`NatsClient(...)` are moved from before they are destroyed, so their
destructors make no engine call; the client that ends up in the returned
`expected` is move-constructed from the temporary client.  `indet_opts_s` is
the indeterminate value the member `s` of `NatsOptions(opts)` starts with,
which the move constructors of `NatsOptions` copy along; `indet_s` and
`indet_jsOpts` are the uninitialised members `s` and `jsOpts` of the client. -/
def NatsClient.create (E : Engine) (indet_opts_s indet_s : natsStatus)
    (indet_jsOpts : jsOptions) : Except NatsError NatsClient × List EngineCall :=
  let call := EngineCall.natsOptions_Create
  let opts : Ptr := E.outPtr call none
  let s := E.status call
  if s ≠ NATS_OK then
    (Except.error (NatsError.new E s "Error creating NATS options struct."), [call])
  else
    let (tmpClient, tmpOpts) :=
      NatsClient.new indet_s indet_jsOpts (NatsOptions.new opts indet_opts_s)
    let (client, tmpClient) := NatsClient.moveConstruct indet_s indet_jsOpts tmpClient
    (Except.ok client, [call] ++ tmpClient.destructor.2 ++ tmpOpts.destructor.2)

/-- The method `connect()`. -/
def NatsClient.connect (E : Engine) (self : NatsClient) : Outcome NatsClient Unit :=
  if self.opts.s ≠ NATS_OK then
    { result := Except.error (NatsError.new E self.opts.s "NATS options has an error.")
      self := self, calls := [] }
  else
    let c1 := EngineCall.natsOptions_SetDisconnectedCB self.opts.ptr
    let self := { self with s := E.status c1 }
    if self.s ≠ NATS_OK then
      { result := Except.error (NatsError.new E self.s "Error setting disconnected callback.")
        self := self, calls := [c1] }
    else
      let c2 := EngineCall.natsOptions_SetReconnectedCB self.opts.ptr
      let self := { self with s := E.status c2 }
      if self.s ≠ NATS_OK then
        { result := Except.error (NatsError.new E self.s "Error setting reconnected callback.")
          self := self, calls := [c1, c2] }
      else
        let c3 := EngineCall.natsOptions_SetClosedCB self.opts.ptr
        let self := { self with s := E.status c3 }
        if self.s ≠ NATS_OK then
          { result := Except.error (NatsError.new E self.s "Error setting closed callback.")
            self := self, calls := [c1, c2, c3] }
        else
          let c4 := EngineCall.natsOptions_SetErrorHandler self.opts.ptr
          let self := { self with s := E.status c4 }
          if self.s ≠ NATS_OK then
            { result := Except.error
                (NatsError.new E self.s "Error setting error handler callback.")
              self := self, calls := [c1, c2, c3, c4] }
          else
            let c5 := EngineCall.natsConnection_Connect self.opts.ptr
            let self := { self with conn := E.outPtr c5 self.conn, s := E.status c5 }
            if self.s ≠ NATS_OK then
              { result := Except.error
                  (NatsError.new E self.s "Connect failed. Check NATS server is running.")
                self := self, calls := [c1, c2, c3, c4, c5] }
            else
              { result := Except.ok (), self := self, calls := [c1, c2, c3, c4, c5] }

/-- The method `jet_stream()`. -/
def NatsClient.jet_stream (E : Engine) (self : NatsClient) : Outcome NatsClient Unit :=
  let c1 := EngineCall.jsOptions_Init
  let self := { self with jsOpts := E.outJsOptions c1 self.jsOpts, s := E.status c1 }
  if self.s ≠ NATS_OK then
    { result := Except.error (NatsError.new E self.s "Failed to initialize JetStream options.")
      self := self, calls := [c1] }
  else
    let self := { self with jsOpts := { self.jsOpts with PublishAsync_MaxPending := 256 } }
    let c2 := EngineCall.natsConnection_JetStream self.conn self.jsOpts
    let self := { self with js := E.outPtr c2 self.js, s := E.status c2 }
    if self.s ≠ NATS_OK then
      { result := Except.error (NatsError.new E self.s "Failed to create JetStream context.")
        self := self, calls := [c1, c2] }
    else
      { result := Except.ok (), self := self, calls := [c1, c2] }

/-- The method `get_max_payload()`. -/
def NatsClient.get_max_payload (E : Engine) (self : NatsClient) : Int × List EngineCall :=
  (E.int64 (EngineCall.natsConnection_GetMaxPayload self.conn),
    [EngineCall.natsConnection_GetMaxPayload self.conn])

/-- The method `kvs_config_init()`; `indet` is the content of the local
`kvConfig cfg` before the engine fills it in. -/
def NatsClient.kvs_config_init (E : Engine) (self : NatsClient) (indet : kvConfig) :
    Outcome NatsClient kvConfig :=
  let call := EngineCall.kvConfig_Init
  let cfg := E.outKvConfig call indet
  let self := { self with s := E.status call }
  if self.s ≠ NATS_OK then
    { result := Except.error (NatsError.new E self.s "Failed to initialize KV config.")
      self := self, calls := [call] }
  else
    { result := Except.ok cfg, self := self, calls := [call] }

/-- The method `kvs_create`; `indet` is passed on to `kvs_config_init`. -/
def NatsClient.kvs_create (E : Engine) (self : NatsClient) (indet : kvConfig)
    (bucket_name : string_view) (description : Option string_view) :
    Outcome NatsClient KvStore :=
  let _ := description
  if bucket_name.empty then
    { result := Except.error (NatsError.new E NATS_INVALID_ARG "Bucket name is required.")
      self := self, calls := [] }
  else
    let res_cfg := self.kvs_config_init E indet
    let self := res_cfg.self
    match res_cfg.result with
    | Except.error err => { result := Except.error err, self := self, calls := res_cfg.calls }
    | Except.ok config =>
      let config := { config with Bucket := some (c_str bucket_name.data) }
      let call := EngineCall.js_CreateKeyValue self.js config
      let kv : Ptr := E.outPtr call none
      let self := { self with s := E.status call }
      if self.s ≠ NATS_OK then
        { result := Except.error (NatsError.new E self.s "Failed to create KV bucket.")
          self := self, calls := res_cfg.calls ++ [call] }
      else
        { result := Except.ok (KvStore.new kv), self := self, calls := res_cfg.calls ++ [call] }

/-- The method `kvs_bind`. -/
def NatsClient.kvs_bind (E : Engine) (self : NatsClient) (bucket : string_view) :
    Outcome NatsClient KvStore :=
  let call := EngineCall.js_KeyValue self.js (c_str bucket.data)
  let kv : Ptr := E.outPtr call none
  let self := { self with s := E.status call }
  if self.s ≠ NATS_OK then
    { result := Except.error (NatsError.new E self.s
        ("Failed to bind to KV bucket [" ++ bucket.str ++ "]."))
      self := self, calls := [call] }
  else
    { result := Except.ok (KvStore.new kv), self := self, calls := [call] }

/-- The method `kvs_delete`. -/
def NatsClient.kvs_delete (E : Engine) (self : NatsClient) (bucket : string_view) :
    Outcome NatsClient Unit :=
  let call := EngineCall.js_DeleteKeyValue self.js (c_str bucket.data)
  let self := { self with s := E.status call }
  if self.s ≠ NATS_OK then
    { result := Except.error (NatsError.new E self.s
        ("Failed to delete KV bucket [" ++ bucket.str ++ "]."))
      self := self, calls := [call] }
  else
    { result := Except.ok (), self := self, calls := [call] }

/-- The method `kvs_keys`.  On the error path the local `KvKeysList list` is
destroyed after the error has been built; on success it is moved into the
returned value. -/
def NatsClient.kvs_keys (E : Engine) (self : NatsClient) (kv_store : KvStore)
    (opts : Option kvWatchOptions) : Outcome NatsClient KvKeysList :=
  let list := KvKeysList.new
  let call := EngineCall.kvStore_Keys kv_store.ptr opts
  let list : KvKeysList := { kl := E.outKeysList call list.kl }
  let self := { self with s := E.status call }
  if self.s ≠ NATS_OK then
    { result := Except.error (NatsError.new E self.s
        ("Failed to get keys for KV bucket [" ++ kv_store.bucket E ++ "]."))
      self := self
      calls := [call, EngineCall.kvStore_Bucket kv_store.ptr] ++ list.destructor.2 }
  else
    let (ret, list) := KvKeysList.moveConstruct list
    { result := Except.ok ret, self := self, calls := [call] ++ list.destructor.2 }

/-- The method `kvs_watch_options()`; `indet` is the content of the local
`kvWatchOptions o` before the engine fills it in. -/
def NatsClient.kvs_watch_options (E : Engine) (self : NatsClient) (indet : kvWatchOptions) :
    Outcome NatsClient kvWatchOptions :=
  let call := EngineCall.kvWatchOptions_Init
  let o := E.outKvWatchOptions call indet
  let self := { self with s := E.status call }
  if self.s ≠ NATS_OK then
    { result := Except.error (NatsError.new E self.s "Failed to initialize KV watch options.")
      self := self, calls := [call] }
  else
    { result := Except.ok o, self := self, calls := [call] }

/-- The method `kvs_watch`; `indet` is the indeterminate `s` of the new `KvWatcher`. -/
def NatsClient.kvs_watch (E : Engine) (self : NatsClient) (indet : natsStatus)
    (kv_store : KvStore) (key : string_view) (opts : Option kvWatchOptions) :
    Outcome NatsClient KvWatcher :=
  let call := EngineCall.kvStore_Watch kv_store.ptr (c_str key.data) opts
  let w : Ptr := E.outPtr call none
  let self := { self with s := E.status call }
  if self.s ≠ NATS_OK then
    { result := Except.error (NatsError.new E self.s
        ("Failed to create KV watcher for key [" ++ key.str ++ "] in bucket ["
          ++ kv_store.bucket E ++ "]."))
      self := self, calls := [call, EngineCall.kvStore_Bucket kv_store.ptr] }
  else
    { result := Except.ok (KvWatcher.new w indet), self := self, calls := [call] }

/-- The method `kv_get`. -/
def NatsClient.kv_get (E : Engine) (self : NatsClient) (kv_store : KvStore)
    (key : string_view) : Outcome NatsClient KvEntry :=
  let call := EngineCall.kvStore_Get kv_store.ptr (c_str key.data)
  let e : Ptr := E.outPtr call none
  let self := { self with s := E.status call }
  if self.s ≠ NATS_OK then
    { result := Except.error (NatsError.new E self.s
        ("Failed to read KV entry [" ++ key.str ++ "] from bucket ["
          ++ kv_store.bucket E ++ "]."))
      self := self, calls := [call, EngineCall.kvStore_Bucket kv_store.ptr] }
  else
    { result := Except.ok (KvEntry.new e), self := self, calls := [call] }

/-- The method `kv_create`; `rev` is the null pointer. -/
def NatsClient.kv_create (E : Engine) (self : NatsClient) (kv_store : KvStore)
    (key : string_view) (data : List byte) : Outcome NatsClient Unit :=
  let rev : Ptr := none
  let size := data.length
  let call := EngineCall.kvStore_Create rev kv_store.ptr (c_str key.data) data size
  let self := { self with s := E.status call }
  if self.s ≠ NATS_OK then
    { result := Except.error (NatsError.new E self.s
        ("Failed to create KV entry for key [" ++ key.str ++ "] with " ++ toString data.length
          ++ " bytes in bucket [" ++ kv_store.bucket E ++ "]."))
      self := self, calls := [call, EngineCall.kvStore_Bucket kv_store.ptr] }
  else
    { result := Except.ok (), self := self, calls := [call] }

/-- The method `kv_create_string`; `rev` is the null pointer. -/
def NatsClient.kv_create_string (E : Engine) (self : NatsClient) (kv_store : KvStore)
    (key : string_view) (data : string_view) : Outcome NatsClient Unit :=
  let rev : Ptr := none
  let call := EngineCall.kvStore_CreateString rev kv_store.ptr (c_str key.data) (c_str data.data)
  let self := { self with s := E.status call }
  if self.s ≠ NATS_OK then
    { result := Except.error (NatsError.new E self.s
        ("Failed to create KV string entry for key [" ++ key.str ++ "] in bucket ["
          ++ kv_store.bucket E ++ "]."))
      self := self, calls := [call, EngineCall.kvStore_Bucket kv_store.ptr] }
  else
    { result := Except.ok (), self := self, calls := [call] }

/-- The method `kv_put_string`; the revision out-parameter is `NULL`. -/
def NatsClient.kv_put_string (E : Engine) (self : NatsClient) (kv_store : KvStore)
    (key : string_view) (value : string_view) : Outcome NatsClient Unit :=
  let call := EngineCall.kvStore_PutString none kv_store.ptr (c_str key.data) (c_str value.data)
  let self := { self with s := E.status call }
  if self.s ≠ NATS_OK then
    { result := Except.error (NatsError.new E self.s
        ("Failed to put KV string with key [" ++ key.str ++ "] and " ++ toString value.size
          ++ " bytes in bucket [" ++ kv_store.bucket E ++ "]."))
      self := self, calls := [call, EngineCall.kvStore_Bucket kv_store.ptr] }
  else
    { result := Except.ok (), self := self, calls := [call] }

/-- The method `kv_put`; the revision out-parameter is `NULL`. -/
def NatsClient.kv_put (E : Engine) (self : NatsClient) (kv_store : KvStore)
    (key : string_view) (data : List byte) : Outcome NatsClient Unit :=
  let call := EngineCall.kvStore_Put none kv_store.ptr (c_str key.data) data data.length
  let self := { self with s := E.status call }
  if self.s ≠ NATS_OK then
    { result := Except.error (NatsError.new E self.s
        ("Failed to put KV data with key [" ++ key.str ++ "] and " ++ toString data.length
          ++ " bytes in bucket [" ++ kv_store.bucket E ++ "]."))
      self := self, calls := [call, EngineCall.kvStore_Bucket kv_store.ptr] }
  else
    { result := Except.ok (), self := self, calls := [call] }

/-- The method `kv_delete`. -/
def NatsClient.kv_delete (E : Engine) (self : NatsClient) (kv_store : KvStore)
    (key : string_view) : Outcome NatsClient Unit :=
  let call := EngineCall.kvStore_Delete kv_store.ptr (c_str key.data)
  let self := { self with s := E.status call }
  if self.s ≠ NATS_OK then
    { result := Except.error (NatsError.new E self.s
        ("Failed to delete KV key [" ++ key.str ++ "] in bucket [" ++ kv_store.bucket E ++ "]."))
      self := self, calls := [call, EngineCall.kvStore_Bucket kv_store.ptr] }
  else
    { result := Except.ok (), self := self, calls := [call] }

/-- The method `subscribe_sync`; `indet` is the indeterminate `s` of the new
`NatsSubscriptionSync`. -/
def NatsClient.subscribe_sync (E : Engine) (self : NatsClient) (indet : natsStatus)
    (subject : string_view) : Outcome NatsClient NatsSubscriptionSync :=
  let call := EngineCall.natsConnection_SubscribeSync self.conn (c_str subject.data)
  let sub : Ptr := E.outPtr call none
  let self := { self with s := E.status call }
  if self.s ≠ NATS_OK then
    { result := Except.error (NatsError.new E self.s
        ("Failed to subscribe to subject [" ++ subject.str ++ "]."))
      self := self, calls := [call] }
  else
    { result := Except.ok (NatsSubscriptionSync.new sub indet), self := self, calls := [call] }

/-- The method `queue_subscribe_sync`; `indet` is the indeterminate `s` of
the new `NatsSubscriptionSync`. -/
def NatsClient.queue_subscribe_sync (E : Engine) (self : NatsClient) (indet : natsStatus)
    (subject : string_view) (queue_group : string_view) :
    Outcome NatsClient NatsSubscriptionSync :=
  let call := EngineCall.natsConnection_QueueSubscribeSync self.conn (c_str subject.data)
    (c_str queue_group.data)
  let sub : Ptr := E.outPtr call none
  let self := { self with s := E.status call }
  if self.s ≠ NATS_OK then
    { result := Except.error (NatsError.new E self.s
        ("Failed to queue subscribe to subject [" ++ subject.str ++ "] with group ["
          ++ queue_group.str ++ "]."))
      self := self, calls := [call] }
  else
    { result := Except.ok (NatsSubscriptionSync.new sub indet), self := self, calls := [call] }

/-- The method `unsubscribe`. -/
def NatsClient.unsubscribe (E : Engine) (self : NatsClient) (sub : NatsSubscriptionSync) :
    Outcome NatsClient Unit :=
  let call := EngineCall.natsSubscription_Unsubscribe sub.ptr
  let self := { self with s := E.status call }
  if self.s ≠ NATS_OK then
    { result := Except.error (NatsError.new E self.s
        ("Failed to unsubscribe from subject [" ++ sub.subject E ++ "]."))
      self := self, calls := [call, EngineCall.natsSubscription_GetSubject sub.ptr] }
  else
    { result := Except.ok (), self := self, calls := [call] }

/-- The overload `publish(string_view subject, string_view data)`. -/
def NatsClient.publish (E : Engine) (self : NatsClient) (subject : string_view)
    (data : string_view) : Outcome NatsClient Unit :=
  let call := EngineCall.natsConnection_Publish self.conn (c_str subject.data)
    (c_bytes data.data data.size) data.size
  let self := { self with s := E.status call }
  if self.s ≠ NATS_OK then
    { result := Except.error (NatsError.new E self.s
        ("Failed to publish string with " ++ toString data.size ++ " bytes to subject ["
          ++ subject.str ++ "]."))
      self := self, calls := [call] }
  else
    { result := Except.ok (), self := self, calls := [call] }

/-- The overload `publish(string_view subject, span<const byte> data)`. -/
def NatsClient.publish_span (E : Engine) (self : NatsClient) (subject : string_view)
    (data : List byte) : Outcome NatsClient Unit :=
  let call := EngineCall.natsConnection_Publish self.conn (c_str subject.data) data data.length
  let self := { self with s := E.status call }
  if self.s ≠ NATS_OK then
    { result := Except.error (NatsError.new E self.s
        ("Failed to publish " ++ toString data.length ++ " bytes to subject ["
          ++ subject.str ++ "]."))
      self := self, calls := [call] }
  else
    { result := Except.ok (), self := self, calls := [call] }

/-- Whether `needle` occurs in `text` as a run of consecutive characters. -/
def containsText (text needle : String) : Prop :=
  needle.toList <:+: text.toList

instance (text needle : String) : Decidable (containsText text needle) := by
  unfold containsText
  infer_instance

/-- The engine calls that destroy the object behind `p` once: one call of
`destroy` when `p` is not null, none when it is. -/
def destroyCalls (destroy : Ptr → EngineCall) (p : Ptr) : List EngineCall :=
  match p with
  | some h => [destroy (some h)]
  | none => []

/-- The status an operation hands back: that of the returned error, or
`NATS_OK` when it returned a value. -/
def Outcome.status {σ α : Type} (o : Outcome σ α) : natsStatus :=
  match o.result with
  | Except.ok _ => NATS_OK
  | Except.error e => e.status

/-- Whether an operation returned `unexpected(...)`. -/
def Outcome.failed {σ α : Type} (o : Outcome σ α) : Bool :=
  match o.result with
  | Except.ok _ => false
  | Except.error _ => true

/-- The five engine calls of `connect()` on the options object `opts`, in
the order of the specification: the disconnected, reconnected and closed
callbacks, the error handler, the handshake. -/
def connectSteps (opts : Ptr) : List EngineCall :=
  [EngineCall.natsOptions_SetDisconnectedCB opts, EngineCall.natsOptions_SetReconnectedCB opts,
    EngineCall.natsOptions_SetClosedCB opts, EngineCall.natsOptions_SetErrorHandler opts,
    EngineCall.natsConnection_Connect opts]

/-- The operation made exactly the engine call `call` and handed its status
back unchanged: it returned an error if and only if that status is not OK,
and the error carries that status. -/
def Outcome.forwards {σ α : Type} (E : Engine) (o : Outcome σ α) (call : EngineCall) : Prop :=
  o.calls = [call] ∧ o.status = E.status call ∧ (o.failed = true ↔ E.status call ≠ NATS_OK)

/-- The `jsOptions` record `jet_stream()` hands to the engine: what
`jsOptions_Init` left in the member, with `PublishAsync.MaxPending` set to 256. -/
def NatsClient.jetStreamOptions (E : Engine) (c : NatsClient) : jsOptions :=
  { E.outJsOptions EngineCall.jsOptions_Init c.jsOpts with PublishAsync_MaxPending := 256 }

/-! ## Sample inputs -/

/-- An engine that rejects `natsOptions_SetURL` with `NATS_INVALID_ARG` and
accepts every other call. -/
def Engine.rejectsURL : Engine :=
  Engine.sample
    (fun c => match c with
      | EngineCall.natsOptions_SetURL _ _ => NATS_INVALID_ARG
      | _ => NATS_OK)
    (fun _ => false) none

/-- A client that is connected (connection 1), with options object 2 and
JetStream context 3. -/
def NatsClient.sample : NatsClient :=
  { conn := some 1, opts := { ptr := some 2, s := NATS_OK }, js := some 3, s := NATS_OK,
    jsOpts := { PublishAsync_MaxPending := 256, rest := 0 } }

/-- A client as `create()` leaves it when `s` happens to start as OK: options
object 2, no connection, no JetStream context. -/
def NatsClient.unconnected : NatsClient :=
  { conn := none, opts := { ptr := some 2, s := NATS_OK }, js := none, s := NATS_OK,
    jsOpts := { PublishAsync_MaxPending := 0, rest := 0 } }

/-- The sample client with a failure recorded in its options. -/
def NatsClient.misconfigured : NatsClient :=
  { NatsClient.unconnected with opts := { ptr := some 2, s := NATS_INVALID_ARG } }

/-- A memory with the unconnected sample client at address 0 and the
connected one everywhere else. -/
def NatsClient.sampleMem : Nat → NatsClient :=
  fun a => if a = 0 then NatsClient.unconnected else NatsClient.sample

/-- An engine that accepts every call and stores connection 7 at the handshake. -/
def Engine.connects : Engine :=
  Engine.sample (fun _ => NATS_OK)
    (fun c => match c with
      | EngineCall.natsConnection_Connect _ => true
      | _ => false)
    (some 7)

/-- An engine that accepts the callback registrations, answers status 6
(`NATS_NO_SERVER`) to the handshake and stores nothing. -/
def Engine.noServer : Engine :=
  Engine.sample
    (fun c => match c with
      | EngineCall.natsConnection_Connect _ => 6
      | _ => NATS_OK)
    (fun _ => false) none

/-! ## Further parts of the wrappers -/

/-- The method `NatsError::to_string()`:
`std::format("NATS error {}: {} - {}", (int)status, status_text, message)`. -/
def NatsError.to_string (self : NatsError) : String :=
  "NATS error " ++ toString self.status ++ ": " ++ self.status_text ++ " - " ++ self.message

/-- The conversion of an integer argument to a `bool` parameter at a call. -/
def int64ToBool (d : Int) : Bool :=
  d != 0

/-- The view is a C string: a C function reading from `data()` reads exactly
the viewed characters (a zero follows them and none is among them). -/
def string_view.isCString (sv : string_view) : Prop :=
  c_str sv.data = sv.str

instance (sv : string_view) : Decidable sv.isCString := by
  unfold string_view.isCString
  infer_instance

/-- The characters a bucket name may have: `A-Z`, `a-z`, `0-9`, `_` and `-`. -/
def bucketChar (ch : Char) : Bool :=
  ch.isAlphanum || ch == '_' || ch == '-'

/-- A bucket name is valid when it is not empty and has only bucket characters. -/
def validBucketName (name : String) : Bool :=
  !name.isEmpty && name.toList.all bucketChar

/-! ## Further statuses of the engine -/

/-- The enumerator `NATS_ERR` of `natsStatus` (1 in `nats/status.h`). -/
def NATS_ERR : natsStatus := 1

/-- The enumerator `NATS_NOT_FOUND` of `natsStatus` (13 in `nats/status.h`). -/
def NATS_NOT_FOUND : natsStatus := 13

/-- The enumerator `NATS_INVALID_SUBJECT` of `natsStatus` (15 in `nats/status.h`). -/
def NATS_INVALID_SUBJECT : natsStatus := 15

/-- The enumerator `NATS_ILLEGAL_STATE` of `natsStatus` (19 in `nats/status.h`). -/
def NATS_ILLEGAL_STATE : natsStatus := 19

/-- The enumerator `NATS_MAX_PAYLOAD` of `natsStatus` (21 in `nats/status.h`). -/
def NATS_MAX_PAYLOAD : natsStatus := 21

/-- The enumerator `NATS_TIMEOUT` of `natsStatus` (26 in `nats/status.h`). -/
def NATS_TIMEOUT : natsStatus := 26

/-! ## A model of the engine

The claims about the payload ceiling, the tombstone and the stopped watcher
are about what the engine answers, and the engine is not in the repository.
For them the engine is modelled from the specification: a state, the status
it answers to a call in that state, and the state after the call. -/

/-- Modelled from the spec: the state of the engine, which the repository
only calls.  `maxPayload` is the server-advertised maximum size of a publish,
`outbound` the publishes accepted into the outbound buffer, `live` the latest
non-tombstoned value of each key of each store (`none`: absent or deleted),
`stopped` the watchers that have been stopped. -/
structure EngineModel where
  maxPayload : Int
  outbound : List (String × List byte)
  live : Handle → String → Option (List byte)
  stopped : Handle → Bool

/-- Modelled from the spec: the status the engine answers to a call.
`publish`: "subject must be non-empty; payload size must not exceed the
server-advertised maximum, else MaxPayloadExceeded".  `get`: "NotFound if
absent or logically deleted".  Put-if-absent fails on a live key.  `next`:
after `stop()` it "fails IllegalState"; a watcher that is not stopped is
modelled with no update to deliver, so it times out. -/
def EngineModel.status (m : EngineModel) : EngineCall → natsStatus
  | EngineCall.natsConnection_Publish _ subject _ dataLen =>
      if subject = "" then NATS_INVALID_SUBJECT
      else if m.maxPayload < (dataLen : Int) then NATS_MAX_PAYLOAD
      else NATS_OK
  | EngineCall.kvStore_Get (some kv) key =>
      if (m.live kv key).isSome then NATS_OK else NATS_NOT_FOUND
  | EngineCall.kvStore_Create _ (some kv) key _ _ =>
      if (m.live kv key).isSome then NATS_ERR else NATS_OK
  | EngineCall.kvStore_CreateString _ (some kv) key _ =>
      if (m.live kv key).isSome then NATS_ERR else NATS_OK
  | EngineCall.kvWatcher_Next (some w) _ =>
      if m.stopped w then NATS_ILLEGAL_STATE else NATS_TIMEOUT
  | _ => NATS_OK

/-- Modelled from the spec: the state of the engine after a call.  An
accepted publish is added to the outbound buffer; `put` and an accepted
put-if-absent make the value the live one of the key; `delete` leaves a
tombstone, so the key has no live value; `stop` marks the watcher stopped.
A call that fails, and every other call, leaves the state as it is. -/
def EngineModel.apply (m : EngineModel) (call : EngineCall) : EngineModel :=
  match call with
  | EngineCall.natsConnection_Publish _ subject data _ =>
      if m.status call = NATS_OK then { m with outbound := m.outbound ++ [(subject, data)] }
      else m
  | EngineCall.kvStore_Put _ (some kv) key data len =>
      { m with live := (Function.update m.live kv
          (Function.update (m.live kv) key (some (data.take len)))) }
  | EngineCall.kvStore_PutString _ (some kv) key data =>
      { m with live := (Function.update m.live kv
          (Function.update (m.live kv) key (some (data.toList.map Char.toNat)))) }
  | EngineCall.kvStore_Create _ (some kv) key data len =>
      if m.status call = NATS_OK then
        { m with live := (Function.update m.live kv
            (Function.update (m.live kv) key (some (data.take len)))) }
      else m
  | EngineCall.kvStore_CreateString _ (some kv) key data =>
      if m.status call = NATS_OK then
        { m with live := (Function.update m.live kv
            (Function.update (m.live kv) key (some (data.toList.map Char.toNat)))) }
      else m
  | EngineCall.kvStore_Delete (some kv) key =>
      { m with live := (Function.update m.live kv (Function.update (m.live kv) key none)) }
  | EngineCall.kvWatcher_Stop (some w) =>
      { m with stopped := Function.update m.stopped w true }
  | _ => m

/-- The modelled engine as the wrappers see it during one operation: the
statuses of the model, `natsConnection_GetMaxPayload` answering the
server-advertised maximum, an entry handle stored by a successful `get`. -/
def EngineModel.engine (m : EngineModel) : Engine :=
  { natsStatus_GetText := fun s => if s = NATS_OK then "OK" else "Error"
    status := m.status
    outPtr := fun c old =>
      match c with
      | EngineCall.kvStore_Get _ _ => if m.status c = NATS_OK then some 1 else old
      | _ => old
    outInt := fun _ _ old => old
    outJsOptions := fun _ old => old
    outKvConfig := fun _ old => old
    outKvWatchOptions := fun _ old => old
    outKeysList := fun _ old => old
    text := fun _ => "orders"
    int64 := fun c =>
      match c with
      | EngineCall.natsConnection_GetMaxPayload _ => m.maxPayload
      | _ => 0 }

/-- The state of the modelled engine after the calls of one operation. -/
def EngineModel.after (m : EngineModel) (calls : List EngineCall) : EngineModel :=
  calls.foldl EngineModel.apply m

/-- A sequence of `next` calls on one watcher, one for each timeout, against
the modelled engine: the engine's state and the watcher afterwards. -/
def EngineModel.runNext (m : EngineModel) (w : KvWatcher) : List Int → EngineModel × KvWatcher
  | [] => (m, w)
  | timeout_ms :: rest =>
      let r := w.next m.engine timeout_ms
      EngineModel.runNext (m.after r.calls) r.self rest

/-- A state of the modelled engine: maximum payload 4 bytes, nothing
published, key "k" of store 5 holding the bytes 1, 2, no watcher stopped. -/
def EngineModel.sample : EngineModel :=
  { maxPayload := 4
    outbound := []
    live := fun kv key => if kv = 5 ∧ key = "k" then some [1, 2] else none
    stopped := fun _ => false }

/-- An engine that rejects `js_CreateKeyValue` with `NATS_INVALID_ARG`, as
for a bucket name it does not accept, and accepts every other call. -/
def Engine.rejectsBucket : Engine :=
  Engine.sample
    (fun c => match c with
      | EngineCall.js_CreateKeyValue _ _ => NATS_INVALID_ARG
      | _ => NATS_OK)
    (fun _ => false) none

/-- The value "ab", a zero character, "cd": five characters, followed in
memory by the terminating zero. -/
def string_view.withZero : string_view :=
  { data := ['a', 'b', Char.ofNat 0, 'c', 'd', Char.ofNat 0], size := 5 }

/-- The view of the first two characters of the buffer "abcd". -/
def string_view.intoBuffer : string_view :=
  { data := ['a', 'b', 'c', 'd', Char.ofNat 0], size := 2 }

/-! ## KvKeysList::keys -/

/-- The read `kl.Keys[i]` and the construction of a `std::string` from it;
`none` when `Keys` is null or the array has no element `i`, where the read is
undefined. -/
def KvKeysList.key (self : KvKeysList) (i : Nat) : Option String :=
  match self.kl.Keys with
  | none => none
  | some arr => arr[i]?

/-- The method `KvKeysList::keys()`: the loop runs `i` from 0 while
`i < kl.Count` and appends `kl.Keys[i]` to the result; `none` when a read is
undefined.  The method is `const`: the list itself is not changed. -/
def KvKeysList.keys (self : KvKeysList) : Option (List String) :=
  (List.range self.kl.Count.toNat).foldlM
    (fun keys i => (self.key i).map (fun k => keys ++ [k])) []

/-- An engine that accepts every call and stores connection or context 8. -/
def Engine.connectsAgain : Engine :=
  Engine.sample (fun _ => NATS_OK)
    (fun c => match c with
      | EngineCall.natsConnection_Connect _ => true
      | EngineCall.natsConnection_JetStream _ _ => true
      | _ => false)
    (some 8)

/-- A keys list as the engine fills it: three keys. -/
def KvKeysList.sample : KvKeysList :=
  { kl := { Keys := some ["a", "b", "c"], Count := 3 } }

/-- An engine that accepts every call and stores context 3. -/
def Engine.activates : Engine :=
  Engine.sample (fun _ => NATS_OK)
    (fun c => match c with
      | EngineCall.natsConnection_JetStream _ _ => true
      | _ => false)
    (some 3)

/-- The unconnected sample client after a successful `connect()`: the engine
handed it connection 7. -/
def NatsClient.connectedOnce : NatsClient :=
  (NatsClient.unconnected.connect Engine.connects).self

/-- That client after a successful `jet_stream()`: the engine handed it
context 3. -/
def NatsClient.activatedOnce : NatsClient :=
  (NatsClient.connectedOnce.jet_stream Engine.activates).self

/-- That client after a second successful `connect()`: the engine handed it
connection 8. -/
def NatsClient.connectedTwice : NatsClient :=
  (NatsClient.activatedOnce.connect Engine.connectsAgain).self

/-- That client after a second successful `jet_stream()`: the engine handed
it context 8. -/
def NatsClient.activatedTwice : NatsClient :=
  (NatsClient.connectedTwice.jet_stream Engine.connectsAgain).self

/-- An engine that accepts the callback registrations, answers status 6
(`NATS_NO_SERVER`) to the handshake and all the same stores connection 7 in
the out-parameter. -/
def Engine.failsButStores : Engine :=
  Engine.sample
    (fun c => match c with
      | EngineCall.natsConnection_Connect _ => 6
      | _ => NATS_OK)
    (fun c => match c with
      | EngineCall.natsConnection_Connect _ => true
      | _ => false)
    (some 7)

/-- The empty view at the start of the buffer "abc": size 0, `data()` at "abc". -/
def string_view.emptyIntoBuffer : string_view :=
  { data := ['a', 'b', 'c', Char.ofNat 0], size := 0 }

/-! # Theorems -/

/-! ## Options builder: which status is recorded -/

theorem getLast?_getD_cons {α : Type} (x : α) (l : List α) (a b : α) :
    ((x :: l).getLast?).getD a = ((x :: l).getLast?).getD b := by
  cases h : (x :: l).getLast? with
  | none => simp at h
  | some v => rfl

theorem NatsOptions.call_eq_record (E : Engine) (self : NatsOptions) (st : Setter) :
    self.call E st = self.record E (st.engineCall self.ptr) := by
  cases st <;> rfl

theorem NatsOptions.run_ptr (self : NatsOptions) (calls : List (Engine × Setter)) :
    (self.run calls).1.ptr = self.ptr := by
  induction calls generalizing self with
  | nil => rfl
  | cons c rest ih =>
    obtain ⟨E, st⟩ := c
    simp only [NatsOptions.run]
    rw [ih, NatsOptions.call_eq_record]
    rfl

/-- C1, as stated, fails: `set_url` is rejected by the engine with
`NATS_INVALID_ARG`, then `set_verbose` succeeds; the builder then records OK,
while the first failure in call order is `NATS_INVALID_ARG`. -/
theorem first_failure_is_overwritten :
    ((NatsOptions.new (some 2) NATS_OK).run
        [(Engine.rejectsURL, Setter.set_url (string_view.ofString "nats//bad")),
         (Engine.rejectsURL, Setter.set_verbose true)]).1.s = NATS_OK
    ∧ firstFailure (setterStatuses (some 2)
        [(Engine.rejectsURL, Setter.set_url (string_view.ofString "nats//bad")),
         (Engine.rejectsURL, Setter.set_verbose true)]) = NATS_INVALID_ARG
    ∧ ((NatsOptions.new (some 2) NATS_OK).run
        [(Engine.rejectsURL, Setter.set_url (string_view.ofString "nats//bad")),
         (Engine.rejectsURL, Setter.set_verbose true)]).1.s
      ≠ firstFailure (setterStatuses (some 2)
        [(Engine.rejectsURL, Setter.set_url (string_view.ofString "nats//bad")),
         (Engine.rejectsURL, Setter.set_verbose true)]) := by
  refine ⟨rfl, rfl, ?_⟩
  decide

/-- C1, amended: for every sequence of setter calls, every setter makes its
engine call on the same options object, in call order, and the status the
builder records afterwards is the status of the LAST setter called (the value
`s` held before, when no setter was called): each setter overwrites `s`. -/
theorem setters_record_last_status (self : NatsOptions) (calls : List (Engine × Setter)) :
    (self.run calls).2 = calls.map (fun c => c.2.engineCall self.ptr)
    ∧ (self.run calls).1.ptr = self.ptr
    ∧ (self.run calls).1.s = ((setterStatuses self.ptr calls).getLast?).getD self.s := by
  refine ⟨?_, NatsOptions.run_ptr self calls, ?_⟩
  · induction calls generalizing self with
    | nil => rfl
    | cons c rest ih =>
      obtain ⟨E, st⟩ := c
      simp only [NatsOptions.run, List.map_cons]
      rw [ih, NatsOptions.call_eq_record]
      rfl
  · induction calls generalizing self with
    | nil => rfl
    | cons c rest ih =>
      obtain ⟨E, st⟩ := c
      simp only [NatsOptions.run]
      rw [ih, NatsOptions.call_eq_record]
      cases rest with
      | nil => rfl
      | cons d rest2 =>
        simp only [setterStatuses, NatsOptions.record, List.map_cons, List.getLast?_cons_cons]
        exact getLast?_getD_cons _ _ _ _

/-! ## connect() with a recorded failure -/

theorem NatsClient.connect_of_recorded_failure (E : Engine) (self : NatsClient)
    (h : self.opts.s ≠ NATS_OK) :
    (self.connect E).result
        = Except.error (NatsError.new E self.opts.s "NATS options has an error.")
    ∧ (self.connect E).status = self.opts.s
    ∧ (self.connect E).calls = []
    ∧ (self.connect E).self = self := by
  simp [NatsClient.connect, h, Outcome.status, NatsError.new]

/-- C2: when the options hold a recorded failure (`opts.s` is not OK),
`connect()` returns an error carrying exactly that status, makes no engine
call and leaves the client, its connection handle included, unchanged. -/
theorem connect_surfaces_recorded_failure (E : Engine) (self : NatsClient)
    (h : self.opts.s ≠ NATS_OK) :
    (self.connect E).result
        = Except.error (NatsError.new E self.opts.s "NATS options has an error.")
    ∧ (self.connect E).status = self.opts.s
    ∧ (self.connect E).calls = []
    ∧ (self.connect E).self = self :=
  NatsClient.connect_of_recorded_failure E self h

/-- C2 at a concrete input: the options hold `NATS_INVALID_ARG`. -/
theorem connect_surfaces_recorded_failure_witness :
    (NatsClient.misconfigured.connect (Engine.always NATS_OK)).status = NATS_INVALID_ARG
    ∧ (NatsClient.misconfigured.connect (Engine.always NATS_OK)).calls = []
    ∧ (NatsClient.misconfigured.connect (Engine.always NATS_OK)).self
        = NatsClient.misconfigured :=
  (connect_surfaces_recorded_failure (Engine.always NATS_OK) NatsClient.misconfigured
    (by decide)).2

/-! ## Moving a client -/

/-- C3, the code at the failing input: moving the connected sample client
(connection 1, options 2, JetStream context 3) hands connection and options
to the destination, but the destination has no JetStream context and the
source keeps context 3, by move construction and by move assignment alike. -/
theorem move_leaves_js_context_behind :
    (NatsClient.moveConstruct NATS_OK NatsClient.sample.jsOpts NatsClient.sample).1.conn = some 1
    ∧ (NatsClient.moveConstruct NATS_OK NatsClient.sample.jsOpts NatsClient.sample).1.opts.ptr
        = some 2
    ∧ (NatsClient.moveConstruct NATS_OK NatsClient.sample.jsOpts NatsClient.sample).1.js = none
    ∧ (NatsClient.moveConstruct NATS_OK NatsClient.sample.jsOpts NatsClient.sample).2.js = some 3
    ∧ ((NatsClient.moveAssign NATS_OK NatsClient.sampleMem 0 1).1 0).conn = some 1
    ∧ ((NatsClient.moveAssign NATS_OK NatsClient.sampleMem 0 1).1 0).opts.ptr = some 2
    ∧ ((NatsClient.moveAssign NATS_OK NatsClient.sampleMem 0 1).1 0).js = none
    ∧ ((NatsClient.moveAssign NATS_OK NatsClient.sampleMem 0 1).1 1).js = some 3 := by
  refine ⟨rfl, rfl, rfl, rfl, ?_, ?_, ?_, ?_⟩ <;> decide

theorem NatsOptions_moveAssign_distinct (mem : Nat → NatsOptions) (this other : Nat)
    (h : this ≠ other) :
    (NatsOptions.moveAssign mem this other).2
        = destroyCalls EngineCall.natsOptions_Destroy (mem this).ptr
    ∧ ((NatsOptions.moveAssign mem this other).1 this) = { ptr := (mem other).ptr, s := (mem other).s }
    ∧ ((NatsOptions.moveAssign mem this other).1 other) = { mem other with ptr := none }
    ∧ ∀ a, a ≠ this → a ≠ other → (NatsOptions.moveAssign mem this other).1 a = mem a := by
  have h2 : other ≠ this := fun e => h e.symm
  cases hp : (mem this).ptr with
  | none =>
    simp [NatsOptions.moveAssign, h, h2, hp, destroyCalls, Function.update]
    intro a h3 h4
    simp [h3, h4]
  | some v =>
    simp [NatsOptions.moveAssign, h, h2, hp, destroyCalls, Function.update]
    intro a h3 h4
    simp [h3, h4]

theorem NatsClient.moveConstruct_source (indet_s : natsStatus) (indet_jsOpts : jsOptions)
    (src : NatsClient) :
    (NatsClient.moveConstruct indet_s indet_jsOpts src).2.conn = none
    ∧ (NatsClient.moveConstruct indet_s indet_jsOpts src).2.opts.ptr = none := by
  simp [NatsClient.moveConstruct, NatsOptions.moveConstruct]

theorem NatsClient.moveAssign_source (indet : natsStatus) (mem : Nat → NatsClient)
    (this other : Nat) (h : this ≠ other) :
    ((NatsClient.moveAssign indet mem this other).1 other).conn = none
    ∧ ((NatsClient.moveAssign indet mem this other).1 other).opts.ptr = none := by
  have h2 : other ≠ this := fun e => h e.symm
  have h01 : (0 : Nat) ≠ 1 := by decide
  simp only [NatsClient.moveAssign, h, ne_eq, not_false_eq_true, if_true]
  simp [Function.update, h2, (NatsOptions_moveAssign_distinct _ 0 1 h01).2.1, NatsOptions.new]

/-! ## Operations on a client without a connection -/

theorem NatsClient.publish_forwards (E : Engine) (c : NatsClient) (subject data : string_view) :
    (c.publish E subject data).forwards E
      (EngineCall.natsConnection_Publish c.conn (c_str subject.data)
        (c_bytes data.data data.size) data.size) := by
  by_cases h : E.status (EngineCall.natsConnection_Publish c.conn (c_str subject.data)
      (c_bytes data.data data.size) data.size) = NATS_OK
    <;> simp [NatsClient.publish, Outcome.forwards, Outcome.status, Outcome.failed, h,
      NatsError.new]

theorem NatsClient.publish_span_forwards (E : Engine) (c : NatsClient) (subject : string_view)
    (data : List byte) :
    (c.publish_span E subject data).forwards E
      (EngineCall.natsConnection_Publish c.conn (c_str subject.data) data data.length) := by
  by_cases h : E.status (EngineCall.natsConnection_Publish c.conn (c_str subject.data)
      data data.length) = NATS_OK
    <;> simp [NatsClient.publish_span, Outcome.forwards, Outcome.status, Outcome.failed, h,
      NatsError.new]

theorem NatsClient.subscribe_sync_forwards (E : Engine) (c : NatsClient) (indet : natsStatus)
    (subject : string_view) :
    (c.subscribe_sync E indet subject).forwards E
      (EngineCall.natsConnection_SubscribeSync c.conn (c_str subject.data)) := by
  by_cases h : E.status (EngineCall.natsConnection_SubscribeSync c.conn (c_str subject.data))
      = NATS_OK
    <;> simp [NatsClient.subscribe_sync, Outcome.forwards, Outcome.status, Outcome.failed, h,
      NatsError.new]

theorem NatsClient.queue_subscribe_sync_forwards (E : Engine) (c : NatsClient)
    (indet : natsStatus) (subject queue_group : string_view) :
    (c.queue_subscribe_sync E indet subject queue_group).forwards E
      (EngineCall.natsConnection_QueueSubscribeSync c.conn (c_str subject.data)
        (c_str queue_group.data)) := by
  by_cases h : E.status (EngineCall.natsConnection_QueueSubscribeSync c.conn
      (c_str subject.data) (c_str queue_group.data)) = NATS_OK
    <;> simp [NatsClient.queue_subscribe_sync, Outcome.forwards, Outcome.status,
      Outcome.failed, h, NatsError.new]

theorem NatsClient.jet_stream_trace (E : Engine) (c : NatsClient) :
    (c.jet_stream E).calls
        = (if E.status EngineCall.jsOptions_Init ≠ NATS_OK then [EngineCall.jsOptions_Init]
           else [EngineCall.jsOptions_Init,
                 EngineCall.natsConnection_JetStream c.conn (c.jetStreamOptions E)])
    ∧ (c.jet_stream E).status
        = (if E.status EngineCall.jsOptions_Init ≠ NATS_OK then E.status EngineCall.jsOptions_Init
           else E.status (EngineCall.natsConnection_JetStream c.conn (c.jetStreamOptions E)))
    ∧ ((c.jet_stream E).failed = true ↔ (c.jet_stream E).status ≠ NATS_OK) := by
  by_cases h1 : E.status EngineCall.jsOptions_Init = NATS_OK
  · by_cases h2 : E.status (EngineCall.natsConnection_JetStream c.conn
        { E.outJsOptions EngineCall.jsOptions_Init c.jsOpts with
          PublishAsync_MaxPending := 256 }) = NATS_OK
      <;> simp [NatsClient.jet_stream, NatsClient.jetStreamOptions, Outcome.status,
        Outcome.failed, h1, h2, NatsError.new]
  · simp [NatsClient.jet_stream, NatsClient.jetStreamOptions, Outcome.status,
      Outcome.failed, h1, NatsError.new]

/-- C5, as stated, fails: the wrapper has no status of its own for a missing
connection.  On the unconnected sample client `publish` succeeds when the
engine answers OK, and otherwise returns whatever status the engine answers
(`NATS_INVALID_ARG`, or 5), so no single status is returned. -/
theorem unconnected_publish_returns_engine_status :
    NatsClient.unconnected.conn = none
    ∧ (NatsClient.unconnected.publish (Engine.always NATS_OK)
        (string_view.ofString "orders") (string_view.ofString "x")).result = Except.ok ()
    ∧ (NatsClient.unconnected.publish (Engine.always NATS_INVALID_ARG)
        (string_view.ofString "orders") (string_view.ofString "x")).status = NATS_INVALID_ARG
    ∧ (NatsClient.unconnected.publish (Engine.always 5)
        (string_view.ofString "orders") (string_view.ofString "x")).status = 5 := by
  refine ⟨rfl, rfl, rfl, rfl⟩

/-- C5, amended: on a client whose connection handle is null, `publish`
(both overloads), `subscribe_sync` and `queue_subscribe_sync` make one engine
call with the null connection handle and return an error exactly when the
engine's status for that call is not OK, carrying that status unchanged;
`jet_stream` first initialises the JetStream options, returns that call's
status when it is not OK, and otherwise does the same with
`natsConnection_JetStream` on the null connection handle. -/
theorem unconnected_ops_forward_engine_status (E : Engine) (c : NatsClient)
    (h : c.conn = none) (indet : natsStatus) (subject data queue_group : string_view)
    (bytes : List byte) :
    (c.publish E subject data).forwards E
      (EngineCall.natsConnection_Publish none (c_str subject.data)
        (c_bytes data.data data.size) data.size)
    ∧ (c.publish_span E subject bytes).forwards E
      (EngineCall.natsConnection_Publish none (c_str subject.data) bytes bytes.length)
    ∧ (c.subscribe_sync E indet subject).forwards E
      (EngineCall.natsConnection_SubscribeSync none (c_str subject.data))
    ∧ (c.queue_subscribe_sync E indet subject queue_group).forwards E
      (EngineCall.natsConnection_QueueSubscribeSync none (c_str subject.data)
        (c_str queue_group.data))
    ∧ (c.jet_stream E).calls
        = (if E.status EngineCall.jsOptions_Init ≠ NATS_OK then [EngineCall.jsOptions_Init]
           else [EngineCall.jsOptions_Init,
                 EngineCall.natsConnection_JetStream none (c.jetStreamOptions E)])
    ∧ (c.jet_stream E).status
        = (if E.status EngineCall.jsOptions_Init ≠ NATS_OK then E.status EngineCall.jsOptions_Init
           else E.status (EngineCall.natsConnection_JetStream none (c.jetStreamOptions E)))
    ∧ ((c.jet_stream E).failed = true ↔ (c.jet_stream E).status ≠ NATS_OK) := by
  have h1 := NatsClient.publish_forwards E c subject data
  have h2 := NatsClient.publish_span_forwards E c subject bytes
  have h3 := NatsClient.subscribe_sync_forwards E c indet subject
  have h4 := NatsClient.queue_subscribe_sync_forwards E c indet subject queue_group
  have h5 := NatsClient.jet_stream_trace E c
  rw [h] at h1 h2 h3 h4 h5
  exact ⟨h1, h2, h3, h4, h5⟩

/-- C5, amended, at a concrete input: the unconnected sample client and an
engine that answers `NATS_INVALID_ARG` to every call. -/
theorem unconnected_ops_forward_engine_status_witness :
    (NatsClient.unconnected.publish (Engine.always NATS_INVALID_ARG)
        (string_view.ofString "orders") (string_view.ofString "x")).forwards
      (Engine.always NATS_INVALID_ARG)
      (EngineCall.natsConnection_Publish none
        (c_str (string_view.ofString "orders").data)
        (c_bytes (string_view.ofString "x").data (string_view.ofString "x").size)
        (string_view.ofString "x").size) :=
  (unconnected_ops_forward_engine_status (Engine.always NATS_INVALID_ARG)
    NatsClient.unconnected rfl NATS_OK (string_view.ofString "orders")
    (string_view.ofString "x") (string_view.ofString "q") []).1



/-! ## connect() step by step -/

theorem NatsClient.connect_trace (E : Engine) (c : NatsClient) (hs : c.opts.s = NATS_OK) :
    (c.connect E).calls
        = (connectSteps c.opts.ptr).takeWhile (fun k => E.status k == NATS_OK)
          ++ ((connectSteps c.opts.ptr).dropWhile (fun k => E.status k == NATS_OK)).take 1
    ∧ (c.connect E).status = firstFailure ((connectSteps c.opts.ptr).map E.status)
    ∧ ((c.connect E).failed = true ↔ (c.connect E).status ≠ NATS_OK)
    ∧ (c.connect E).self.conn
        = (if ((connectSteps c.opts.ptr).take 4).all (fun k => E.status k == NATS_OK)
           then E.outPtr (EngineCall.natsConnection_Connect c.opts.ptr) c.conn else c.conn) := by
  by_cases h1 : E.status (EngineCall.natsOptions_SetDisconnectedCB c.opts.ptr) = NATS_OK
  · by_cases h2 : E.status (EngineCall.natsOptions_SetReconnectedCB c.opts.ptr) = NATS_OK
    · by_cases h3 : E.status (EngineCall.natsOptions_SetClosedCB c.opts.ptr) = NATS_OK
      · by_cases h4 : E.status (EngineCall.natsOptions_SetErrorHandler c.opts.ptr) = NATS_OK
        · by_cases h5 : E.status (EngineCall.natsConnection_Connect c.opts.ptr) = NATS_OK
            <;> simp [NatsClient.connect, connectSteps, firstFailure, Outcome.status,
              Outcome.failed, NatsError.new, hs, h1, h2, h3, h4, h5]
        · simp [NatsClient.connect, connectSteps, firstFailure, Outcome.status,
            Outcome.failed, NatsError.new, hs, h1, h2, h3, h4]
      · simp [NatsClient.connect, connectSteps, firstFailure, Outcome.status,
          Outcome.failed, NatsError.new, hs, h1, h2, h3]
    · simp [NatsClient.connect, connectSteps, firstFailure, Outcome.status,
        Outcome.failed, NatsError.new, hs, h1, h2]
  · simp [NatsClient.connect, connectSteps, firstFailure, Outcome.status,
      Outcome.failed, NatsError.new, hs, h1]


/-- C8, as stated, fails: `connect()` passes `&conn` to the engine and does
not reset it.  With an engine whose handshake answers status 6 and all the
same stores connection 7, `connect()` on the unconnected sample client
returns an error with status 6 and the client holds connection 7. -/
theorem failed_handshake_can_leave_handle :
    NatsClient.unconnected.conn = none
    ∧ (NatsClient.unconnected.connect Engine.failsButStores).failed = true
    ∧ (NatsClient.unconnected.connect Engine.failsButStores).status = 6
    ∧ (NatsClient.unconnected.connect Engine.failsButStores).calls = connectSteps (some 2)
    ∧ (NatsClient.unconnected.connect Engine.failsButStores).self.conn = some 7 := by
  refine ⟨rfl, rfl, rfl, rfl, rfl⟩

/-- C8, amended: on an Unconnected client whose options hold no recorded
failure, `connect()` makes the five engine calls in order and stops after
the first whose status is not OK: it then returns an error with that step's
status.  It returns success exactly when all five statuses are OK, and then
holds the connection the handshake stored.  The connection handle afterwards
is null when one of the four registrations failed, and otherwise what the
engine left in the out-parameter of the handshake, also when the handshake
failed: it is still null after a failure whenever the engine stores no
connection when the handshake fails. -/
theorem connect_fail_fast (E : Engine) (self : NatsClient)
    (hopts : self.opts.s = NATS_OK) (hconn : self.conn = none) :
    (self.connect E).calls
        = (connectSteps self.opts.ptr).takeWhile (fun k => E.status k == NATS_OK)
          ++ ((connectSteps self.opts.ptr).dropWhile (fun k => E.status k == NATS_OK)).take 1
    ∧ (∀ k, (connectSteps self.opts.ptr).find? (fun k => E.status k != NATS_OK) = some k →
        (self.connect E).failed = true ∧ (self.connect E).status = E.status k)
    ∧ ((connectSteps self.opts.ptr).find? (fun k => E.status k != NATS_OK) = none →
        (self.connect E).result = Except.ok ()
        ∧ (self.connect E).self.conn
            = E.outPtr (EngineCall.natsConnection_Connect self.opts.ptr) none)
    ∧ ((self.connect E).failed = false ↔
        ∀ k ∈ connectSteps self.opts.ptr, E.status k = NATS_OK)
    ∧ (self.connect E).self.conn
        = (if ((connectSteps self.opts.ptr).take 4).all (fun k => E.status k == NATS_OK)
           then E.outPtr (EngineCall.natsConnection_Connect self.opts.ptr) none else none)
    ∧ ((E.status (EngineCall.natsConnection_Connect self.opts.ptr) ≠ NATS_OK →
          E.outPtr (EngineCall.natsConnection_Connect self.opts.ptr) none = none) →
        (self.connect E).failed = true → (self.connect E).self.conn = none) := by
  refine ⟨(NatsClient.connect_trace E self hopts).1, ?_, ?_, ?_, ?_, ?_⟩
  · intro k hk
    by_cases h1 : E.status (EngineCall.natsOptions_SetDisconnectedCB self.opts.ptr) = NATS_OK
    · by_cases h2 : E.status (EngineCall.natsOptions_SetReconnectedCB self.opts.ptr) = NATS_OK
      · by_cases h3 : E.status (EngineCall.natsOptions_SetClosedCB self.opts.ptr) = NATS_OK
        · by_cases h4 : E.status (EngineCall.natsOptions_SetErrorHandler self.opts.ptr) = NATS_OK
          · by_cases h5 : E.status (EngineCall.natsConnection_Connect self.opts.ptr) = NATS_OK
            · simp [connectSteps, h1, h2, h3, h4, h5] at hk
            · simp [connectSteps, h1, h2, h3, h4, h5] at hk
              subst hk
              simp [NatsClient.connect, Outcome.status, Outcome.failed, NatsError.new, hopts,
                h1, h2, h3, h4, h5]
          · simp [connectSteps, h1, h2, h3, h4] at hk
            subst hk
            simp [NatsClient.connect, Outcome.status, Outcome.failed, NatsError.new, hopts,
              h1, h2, h3, h4]
        · simp [connectSteps, h1, h2, h3] at hk
          subst hk
          simp [NatsClient.connect, Outcome.status, Outcome.failed, NatsError.new, hopts,
            h1, h2, h3]
      · simp [connectSteps, h1, h2] at hk
        subst hk
        simp [NatsClient.connect, Outcome.status, Outcome.failed, NatsError.new, hopts,
          h1, h2]
    · simp [connectSteps, h1] at hk
      subst hk
      simp [NatsClient.connect, Outcome.status, Outcome.failed, NatsError.new, hopts,
        h1]
  · intro hk
    simp [connectSteps] at hk
    obtain ⟨h1, h2, h3, h4, h5⟩ := hk
    simp [NatsClient.connect, hopts, hconn, h1, h2, h3, h4, h5]
  · by_cases h1 : E.status (EngineCall.natsOptions_SetDisconnectedCB self.opts.ptr) = NATS_OK
    · by_cases h2 : E.status (EngineCall.natsOptions_SetReconnectedCB self.opts.ptr) = NATS_OK
      · by_cases h3 : E.status (EngineCall.natsOptions_SetClosedCB self.opts.ptr) = NATS_OK
        · by_cases h4 : E.status (EngineCall.natsOptions_SetErrorHandler self.opts.ptr) = NATS_OK
          · by_cases h5 : E.status (EngineCall.natsConnection_Connect self.opts.ptr) = NATS_OK
              <;> simp [NatsClient.connect, connectSteps, Outcome.failed, hopts,
                h1, h2, h3, h4, h5]
          · simp [NatsClient.connect, connectSteps, Outcome.failed, hopts, h1, h2, h3, h4]
        · simp [NatsClient.connect, connectSteps, Outcome.failed, hopts, h1, h2, h3]
      · simp [NatsClient.connect, connectSteps, Outcome.failed, hopts, h1, h2]
    · simp [NatsClient.connect, connectSteps, Outcome.failed, hopts, h1]
  · have h := (NatsClient.connect_trace E self hopts).2.2.2
    rw [hconn] at h
    exact h
  · intro hengine hf
    by_cases h1 : E.status (EngineCall.natsOptions_SetDisconnectedCB self.opts.ptr) = NATS_OK
    · by_cases h2 : E.status (EngineCall.natsOptions_SetReconnectedCB self.opts.ptr) = NATS_OK
      · by_cases h3 : E.status (EngineCall.natsOptions_SetClosedCB self.opts.ptr) = NATS_OK
        · by_cases h4 : E.status (EngineCall.natsOptions_SetErrorHandler self.opts.ptr) = NATS_OK
          · by_cases h5 : E.status (EngineCall.natsConnection_Connect self.opts.ptr) = NATS_OK
            · simp [NatsClient.connect, Outcome.failed, hopts, h1, h2, h3, h4, h5] at hf
            · simp [NatsClient.connect, hopts, hconn, h1, h2, h3, h4, h5, hengine h5]
          · simp [NatsClient.connect, hopts, hconn, h1, h2, h3, h4]
        · simp [NatsClient.connect, hopts, hconn, h1, h2, h3]
      · simp [NatsClient.connect, hopts, hconn, h1, h2]
    · simp [NatsClient.connect, hopts, hconn, h1]

/-- C8, amended, at concrete inputs: with an engine that accepts everything
the unconnected sample client ends up holding connection 7; with an engine
whose handshake answers status 6 and stores nothing it gets that status back
and still has no connection. -/
theorem connect_fail_fast_witness :
    ((NatsClient.unconnected.connect Engine.connects).result = Except.ok ()
      ∧ (NatsClient.unconnected.connect Engine.connects).self.conn = some 7)
    ∧ ((NatsClient.unconnected.connect Engine.noServer).failed = true
      ∧ (NatsClient.unconnected.connect Engine.noServer).status = 6)
    ∧ (NatsClient.unconnected.connect Engine.noServer).self.conn = none :=
  ⟨(connect_fail_fast Engine.connects NatsClient.unconnected rfl rfl).2.2.1 rfl,
   (connect_fail_fast Engine.noServer NatsClient.unconnected rfl rfl).2.1
      (EngineCall.natsConnection_Connect (some 2)) rfl,
   (connect_fail_fast Engine.noServer NatsClient.unconnected rfl rfl).2.2.2.2.2
      (fun _ => rfl) rfl⟩

/-! ## A moved-from client -/

/-- C4, as stated, fails: the source of a move keeps its JetStream context.
After the connected sample client (context 3) has been moved from,
`kvs_delete` on it hands the live context 3 to the engine and, the engine
answering OK, returns success.  And `publish` on it returns whatever status
the engine answers (`NATS_INVALID_ARG`, or 5): the wrapper has no status of
its own for a missing connection. -/
theorem moved_from_client_reaches_live_js :
    ((NatsClient.moveConstruct NATS_OK NatsClient.sample.jsOpts NatsClient.sample).2.kvs_delete
        (Engine.always NATS_OK) (string_view.ofString "cfg")).calls
      = [EngineCall.js_DeleteKeyValue (some 3) "cfg"]
    ∧ ((NatsClient.moveConstruct NATS_OK NatsClient.sample.jsOpts NatsClient.sample).2.kvs_delete
        (Engine.always NATS_OK) (string_view.ofString "cfg")).result = Except.ok ()
    ∧ ((NatsClient.moveConstruct NATS_OK NatsClient.sample.jsOpts NatsClient.sample).2.publish
        (Engine.always NATS_INVALID_ARG) (string_view.ofString "orders")
        (string_view.ofString "x")).status = NATS_INVALID_ARG
    ∧ ((NatsClient.moveConstruct NATS_OK NatsClient.sample.jsOpts NatsClient.sample).2.publish
        (Engine.always 5) (string_view.ofString "orders")
        (string_view.ofString "x")).status = 5 := by
  exact ⟨rfl, rfl, rfl, rfl⟩

/-- C4, amended: after a client has been moved from, by move construction or
by move assignment to another client, its connection handle and its options
handle are null.  On such a client `connect` either returns the status
recorded in its options without an engine call or runs its steps on the null
options handle; `jet_stream`, `publish` (both overloads), `subscribe_sync`
and `queue_subscribe_sync` hand the engine the null connection handle; each
returns an error exactly when the engine's status is not OK, and the error
carries that status. -/
theorem moved_from_client_hands_null_handles :
    (∀ (indet_s : natsStatus) (indet_jsOpts : jsOptions) (src : NatsClient),
      (NatsClient.moveConstruct indet_s indet_jsOpts src).2.conn = none
      ∧ (NatsClient.moveConstruct indet_s indet_jsOpts src).2.opts.ptr = none)
    ∧ (∀ (indet : natsStatus) (mem : Nat → NatsClient) (this other : Nat), this ≠ other →
      ((NatsClient.moveAssign indet mem this other).1 other).conn = none
      ∧ ((NatsClient.moveAssign indet mem this other).1 other).opts.ptr = none)
    ∧ (∀ (E : Engine) (c : NatsClient), c.conn = none → c.opts.ptr = none →
      ∀ (indet : natsStatus) (subject data queue_group : string_view) (bytes : List byte),
        (c.opts.s ≠ NATS_OK → (c.connect E).calls = [] ∧ (c.connect E).status = c.opts.s)
        ∧ (c.opts.s = NATS_OK →
            (c.connect E).calls
              = (connectSteps none).takeWhile (fun k => E.status k == NATS_OK)
                ++ ((connectSteps none).dropWhile (fun k => E.status k == NATS_OK)).take 1
            ∧ (c.connect E).status = firstFailure ((connectSteps none).map E.status)
            ∧ ((c.connect E).failed = true ↔ (c.connect E).status ≠ NATS_OK))
        ∧ (c.jet_stream E).calls
            = (if E.status EngineCall.jsOptions_Init ≠ NATS_OK then [EngineCall.jsOptions_Init]
               else [EngineCall.jsOptions_Init,
                     EngineCall.natsConnection_JetStream none (c.jetStreamOptions E)])
        ∧ (c.jet_stream E).status
            = (if E.status EngineCall.jsOptions_Init ≠ NATS_OK
               then E.status EngineCall.jsOptions_Init
               else E.status (EngineCall.natsConnection_JetStream none (c.jetStreamOptions E)))
        ∧ ((c.jet_stream E).failed = true ↔ (c.jet_stream E).status ≠ NATS_OK)
        ∧ (c.publish E subject data).forwards E
            (EngineCall.natsConnection_Publish none (c_str subject.data)
              (c_bytes data.data data.size) data.size)
        ∧ (c.publish_span E subject bytes).forwards E
            (EngineCall.natsConnection_Publish none (c_str subject.data) bytes bytes.length)
        ∧ (c.subscribe_sync E indet subject).forwards E
            (EngineCall.natsConnection_SubscribeSync none (c_str subject.data))
        ∧ (c.queue_subscribe_sync E indet subject queue_group).forwards E
            (EngineCall.natsConnection_QueueSubscribeSync none (c_str subject.data)
              (c_str queue_group.data))) := by
  refine ⟨NatsClient.moveConstruct_source, NatsClient.moveAssign_source, ?_⟩
  intro E c hc ho indet subject data queue_group bytes
  have h1 := NatsClient.publish_forwards E c subject data
  have h2 := NatsClient.publish_span_forwards E c subject bytes
  have h3 := NatsClient.subscribe_sync_forwards E c indet subject
  have h4 := NatsClient.queue_subscribe_sync_forwards E c indet subject queue_group
  have h5 := NatsClient.jet_stream_trace E c
  rw [hc] at h1 h2 h3 h4 h5
  refine ⟨?_, ?_, h5.1, h5.2.1, h5.2.2, h1, h2, h3, h4⟩
  · intro hs
    have h := NatsClient.connect_of_recorded_failure E c hs
    exact ⟨h.2.2.1, h.2.1⟩
  · intro hs
    have h := NatsClient.connect_trace E c hs
    rw [ho] at h
    exact ⟨h.1, h.2.1, h.2.2.1⟩

/-- C4, amended, at a concrete input: the source of a move of the connected
sample client, with an engine that answers `NATS_INVALID_ARG` to every call. -/
theorem moved_from_client_hands_null_handles_witness :
    ((NatsClient.moveConstruct NATS_OK NatsClient.sample.jsOpts NatsClient.sample).2.publish
        (Engine.always NATS_INVALID_ARG) (string_view.ofString "orders")
        (string_view.ofString "x")).forwards (Engine.always NATS_INVALID_ARG)
      (EngineCall.natsConnection_Publish none (c_str (string_view.ofString "orders").data)
        (c_bytes (string_view.ofString "x").data (string_view.ofString "x").size)
        (string_view.ofString "x").size) :=
  (moved_from_client_hands_null_handles.2.2 (Engine.always NATS_INVALID_ARG)
    (NatsClient.moveConstruct NATS_OK NatsClient.sample.jsOpts NatsClient.sample).2 rfl rfl
    NATS_OK (string_view.ofString "orders") (string_view.ofString "x")
    (string_view.ofString "q") []).2.2.2.2.2.1



/-! ## Release and move assignment of the handle wrappers -/

theorem NatsSubscriptionSync_moveAssign_distinct (mem : Nat → NatsSubscriptionSync) (this other : Nat) (h : this ≠ other) :
    (NatsSubscriptionSync.moveAssign mem this other).2 = destroyCalls EngineCall.natsSubscription_Destroy (mem this).ptr
    ∧ ((NatsSubscriptionSync.moveAssign mem this other).1 this).ptr = (mem other).ptr
    ∧ ((NatsSubscriptionSync.moveAssign mem this other).1 other).ptr = none
    ∧ ∀ a, a ≠ this → a ≠ other → (NatsSubscriptionSync.moveAssign mem this other).1 a = mem a := by
  have h2 : other ≠ this := fun e => h e.symm
  cases hp : (mem this).ptr with
  | none =>
    simp [NatsSubscriptionSync.moveAssign, h, h2, hp, destroyCalls, Function.update]
    intro a h3 h4
    simp [h3, h4]
  | some v =>
    simp [NatsSubscriptionSync.moveAssign, h, h2, hp, destroyCalls, Function.update]
    intro a h3 h4
    simp [h3, h4]

theorem NatsMessageView_moveAssign_distinct (mem : Nat → NatsMessageView) (this other : Nat) (h : this ≠ other) :
    (NatsMessageView.moveAssign mem this other).2 = destroyCalls EngineCall.natsMsg_Destroy (mem this).ptr
    ∧ ((NatsMessageView.moveAssign mem this other).1 this).ptr = (mem other).ptr
    ∧ ((NatsMessageView.moveAssign mem this other).1 other).ptr = none
    ∧ ∀ a, a ≠ this → a ≠ other → (NatsMessageView.moveAssign mem this other).1 a = mem a := by
  have h2 : other ≠ this := fun e => h e.symm
  cases hp : (mem this).ptr with
  | none =>
    simp [NatsMessageView.moveAssign, h, h2, hp, destroyCalls, Function.update]
    intro a h3 h4
    simp [h3, h4]
  | some v =>
    simp [NatsMessageView.moveAssign, h, h2, hp, destroyCalls, Function.update]
    intro a h3 h4
    simp [h3, h4]

theorem KvStore_moveAssign_distinct (mem : Nat → KvStore) (this other : Nat) (h : this ≠ other) :
    (KvStore.moveAssign mem this other).2 = destroyCalls EngineCall.kvStore_Destroy (mem this).ptr
    ∧ ((KvStore.moveAssign mem this other).1 this).ptr = (mem other).ptr
    ∧ ((KvStore.moveAssign mem this other).1 other).ptr = none
    ∧ ∀ a, a ≠ this → a ≠ other → (KvStore.moveAssign mem this other).1 a = mem a := by
  have h2 : other ≠ this := fun e => h e.symm
  cases hp : (mem this).ptr with
  | none =>
    simp [KvStore.moveAssign, h, h2, hp, destroyCalls, Function.update]
    intro a h3 h4
    simp [h3, h4]
  | some v =>
    simp [KvStore.moveAssign, h, h2, hp, destroyCalls, Function.update]
    intro a h3 h4
    simp [h3, h4]

theorem KvEntry_moveAssign_distinct (mem : Nat → KvEntry) (this other : Nat) (h : this ≠ other) :
    (KvEntry.moveAssign mem this other).2 = destroyCalls EngineCall.kvEntry_Destroy (mem this).ptr
    ∧ ((KvEntry.moveAssign mem this other).1 this).ptr = (mem other).ptr
    ∧ ((KvEntry.moveAssign mem this other).1 other).ptr = none
    ∧ ∀ a, a ≠ this → a ≠ other → (KvEntry.moveAssign mem this other).1 a = mem a := by
  have h2 : other ≠ this := fun e => h e.symm
  cases hp : (mem this).ptr with
  | none =>
    simp [KvEntry.moveAssign, h, h2, hp, destroyCalls, Function.update]
    intro a h3 h4
    simp [h3, h4]
  | some v =>
    simp [KvEntry.moveAssign, h, h2, hp, destroyCalls, Function.update]
    intro a h3 h4
    simp [h3, h4]

theorem KvWatcher_moveAssign_distinct (mem : Nat → KvWatcher) (this other : Nat) (h : this ≠ other) :
    (KvWatcher.moveAssign mem this other).2 = destroyCalls EngineCall.kvWatcher_Destroy (mem this).ptr
    ∧ ((KvWatcher.moveAssign mem this other).1 this).ptr = (mem other).ptr
    ∧ ((KvWatcher.moveAssign mem this other).1 other).ptr = none
    ∧ ∀ a, a ≠ this → a ≠ other → (KvWatcher.moveAssign mem this other).1 a = mem a := by
  have h2 : other ≠ this := fun e => h e.symm
  cases hp : (mem this).ptr with
  | none =>
    simp [KvWatcher.moveAssign, h, h2, hp, destroyCalls, Function.update]
    intro a h3 h4
    simp [h3, h4]
  | some v =>
    simp [KvWatcher.moveAssign, h, h2, hp, destroyCalls, Function.update]
    intro a h3 h4
    simp [h3, h4]

theorem KvKeysList_moveAssign_distinct (mem : Nat → KvKeysList) (this other : Nat)
    (h : this ≠ other) :
    (KvKeysList.moveAssign mem this other).2
        = (if (mem this).kl.Keys ≠ none then [EngineCall.kvKeysList_Destroy (mem this).kl]
           else [])
    ∧ ((KvKeysList.moveAssign mem this other).1 this).kl = (mem other).kl
    ∧ ((KvKeysList.moveAssign mem this other).1 other).kl = { Keys := none, Count := 0 }
    ∧ ∀ a, a ≠ this → a ≠ other → (KvKeysList.moveAssign mem this other).1 a = mem a := by
  have h2 : other ≠ this := fun e => h e.symm
  cases hp : (mem this).kl.Keys with
  | none =>
    simp [KvKeysList.moveAssign, h, h2, hp, Function.update]
    intro a h3 h4
    simp [h3, h4]
  | some v =>
    simp [KvKeysList.moveAssign, h, h2, hp, Function.update]
    intro a h3 h4
    simp [h3, h4]

/-- C7: move assignment of a derived handle (`KvStore`, `KvEntry`,
`KvWatcher`, `KvKeysList`, `NatsSubscriptionSync`, `NatsMessageView`,
`NatsOptions`) from a distinct source destroys the handle the target held
exactly once (not at all when it was null), leaves the source's handle in
the target and no handle in the source (for `KvKeysList`: `Keys` null and
`Count` 0), and touches no other object; self-assignment destroys nothing
and changes nothing. -/
theorem move_assignment_transfers_handle :
    (∀ (mem : Nat → KvStore) (this other : Nat), this ≠ other →
      (KvStore.moveAssign mem this other).2 = destroyCalls EngineCall.kvStore_Destroy (mem this).ptr
      ∧ ((KvStore.moveAssign mem this other).1 this).ptr = (mem other).ptr
      ∧ ((KvStore.moveAssign mem this other).1 other).ptr = none
      ∧ ∀ a, a ≠ this → a ≠ other → (KvStore.moveAssign mem this other).1 a = mem a)
    ∧ (∀ (mem : Nat → KvStore) (a : Nat), KvStore.moveAssign mem a a = (mem, []))
    ∧ (∀ (mem : Nat → KvEntry) (this other : Nat), this ≠ other →
      (KvEntry.moveAssign mem this other).2 = destroyCalls EngineCall.kvEntry_Destroy (mem this).ptr
      ∧ ((KvEntry.moveAssign mem this other).1 this).ptr = (mem other).ptr
      ∧ ((KvEntry.moveAssign mem this other).1 other).ptr = none
      ∧ ∀ a, a ≠ this → a ≠ other → (KvEntry.moveAssign mem this other).1 a = mem a)
    ∧ (∀ (mem : Nat → KvEntry) (a : Nat), KvEntry.moveAssign mem a a = (mem, []))
    ∧ (∀ (mem : Nat → KvWatcher) (this other : Nat), this ≠ other →
      (KvWatcher.moveAssign mem this other).2 = destroyCalls EngineCall.kvWatcher_Destroy (mem this).ptr
      ∧ ((KvWatcher.moveAssign mem this other).1 this).ptr = (mem other).ptr
      ∧ ((KvWatcher.moveAssign mem this other).1 other).ptr = none
      ∧ ∀ a, a ≠ this → a ≠ other → (KvWatcher.moveAssign mem this other).1 a = mem a)
    ∧ (∀ (mem : Nat → KvWatcher) (a : Nat), KvWatcher.moveAssign mem a a = (mem, []))
    ∧ (∀ (mem : Nat → NatsSubscriptionSync) (this other : Nat), this ≠ other →
      (NatsSubscriptionSync.moveAssign mem this other).2 = destroyCalls EngineCall.natsSubscription_Destroy (mem this).ptr
      ∧ ((NatsSubscriptionSync.moveAssign mem this other).1 this).ptr = (mem other).ptr
      ∧ ((NatsSubscriptionSync.moveAssign mem this other).1 other).ptr = none
      ∧ ∀ a, a ≠ this → a ≠ other → (NatsSubscriptionSync.moveAssign mem this other).1 a = mem a)
    ∧ (∀ (mem : Nat → NatsSubscriptionSync) (a : Nat), NatsSubscriptionSync.moveAssign mem a a = (mem, []))
    ∧ (∀ (mem : Nat → NatsMessageView) (this other : Nat), this ≠ other →
      (NatsMessageView.moveAssign mem this other).2 = destroyCalls EngineCall.natsMsg_Destroy (mem this).ptr
      ∧ ((NatsMessageView.moveAssign mem this other).1 this).ptr = (mem other).ptr
      ∧ ((NatsMessageView.moveAssign mem this other).1 other).ptr = none
      ∧ ∀ a, a ≠ this → a ≠ other → (NatsMessageView.moveAssign mem this other).1 a = mem a)
    ∧ (∀ (mem : Nat → NatsMessageView) (a : Nat), NatsMessageView.moveAssign mem a a = (mem, []))
    ∧ (∀ (mem : Nat → NatsOptions) (this other : Nat), this ≠ other →
      (NatsOptions.moveAssign mem this other).2 = destroyCalls EngineCall.natsOptions_Destroy (mem this).ptr
      ∧ ((NatsOptions.moveAssign mem this other).1 this).ptr = (mem other).ptr
      ∧ ((NatsOptions.moveAssign mem this other).1 other).ptr = none
      ∧ ∀ a, a ≠ this → a ≠ other → (NatsOptions.moveAssign mem this other).1 a = mem a)
    ∧ (∀ (mem : Nat → NatsOptions) (a : Nat), NatsOptions.moveAssign mem a a = (mem, []))
    ∧ (∀ (mem : Nat → KvKeysList) (this other : Nat), this ≠ other →
      (KvKeysList.moveAssign mem this other).2
          = (if (mem this).kl.Keys ≠ none then [EngineCall.kvKeysList_Destroy (mem this).kl]
             else [])
      ∧ ((KvKeysList.moveAssign mem this other).1 this).kl = (mem other).kl
      ∧ ((KvKeysList.moveAssign mem this other).1 other).kl = { Keys := none, Count := 0 }
      ∧ ∀ a, a ≠ this → a ≠ other → (KvKeysList.moveAssign mem this other).1 a = mem a)
    ∧ (∀ (mem : Nat → KvKeysList) (a : Nat), KvKeysList.moveAssign mem a a = (mem, [])) := by
  refine ⟨KvStore_moveAssign_distinct, ?_, KvEntry_moveAssign_distinct, ?_,
    KvWatcher_moveAssign_distinct, ?_, NatsSubscriptionSync_moveAssign_distinct, ?_,
    NatsMessageView_moveAssign_distinct, ?_, ?_, ?_, KvKeysList_moveAssign_distinct, ?_⟩
  · intro mem a
    simp [KvStore.moveAssign]
  · intro mem a
    simp [KvEntry.moveAssign]
  · intro mem a
    simp [KvWatcher.moveAssign]
  · intro mem a
    simp [NatsSubscriptionSync.moveAssign]
  · intro mem a
    simp [NatsMessageView.moveAssign]
  · intro mem this other h
    have k := NatsOptions_moveAssign_distinct mem this other h
    refine ⟨k.1, ?_, ?_, k.2.2.2⟩
    · rw [k.2.1]
    · rw [k.2.2.1]
  · intro mem a
    simp [NatsOptions.moveAssign]
  · intro mem a
    simp [KvKeysList.moveAssign]

/-- C7 at a concrete input: a `KvStore` holding handle 5 at address 0 is
assigned from one holding handle 6 at address 1. -/
theorem move_assignment_transfers_handle_witness :
    (KvStore.moveAssign (fun a => if a = 0 then KvStore.new (some 5) else KvStore.new (some 6))
        0 1).2 = [EngineCall.kvStore_Destroy (some 5)]
    ∧ ((KvStore.moveAssign (fun a => if a = 0 then KvStore.new (some 5) else KvStore.new (some 6))
        0 1).1 0).ptr = some 6
    ∧ ((KvStore.moveAssign (fun a => if a = 0 then KvStore.new (some 5) else KvStore.new (some 6))
        0 1).1 1).ptr = none :=
  ⟨(move_assignment_transfers_handle.1
      (fun a => if a = 0 then KvStore.new (some 5) else KvStore.new (some 6)) 0 1
      (by decide)).1,
   (move_assignment_transfers_handle.1
      (fun a => if a = 0 then KvStore.new (some 5) else KvStore.new (some 6)) 0 1
      (by decide)).2.1,
   (move_assignment_transfers_handle.1
      (fun a => if a = 0 then KvStore.new (some 5) else KvStore.new (some 6)) 0 1
      (by decide)).2.2.1⟩



/-! ## KvWatcher::next -/

/-- C9: `KvWatcher::next` makes one engine call and distinguishes three
outcomes: it returns an error if and only if the engine's status is not OK
(the error carries that status); when the status is OK and the engine
produced no entry it returns success with an absent entry; when the status
is OK and the engine produced an entry it returns success with a `KvEntry`
owning exactly that entry: its `ptr` is the entry the engine stored. -/
theorem watcher_next_three_outcomes (E : Engine) (self : KvWatcher) (timeout_ms : Int) :
    (self.next E timeout_ms).calls = [EngineCall.kvWatcher_Next self.ptr timeout_ms]
    ∧ ((self.next E timeout_ms).failed = true ↔
        E.status (EngineCall.kvWatcher_Next self.ptr timeout_ms) ≠ NATS_OK)
    ∧ (E.status (EngineCall.kvWatcher_Next self.ptr timeout_ms) ≠ NATS_OK →
        (self.next E timeout_ms).result
          = Except.error (NatsError.new E
              (E.status (EngineCall.kvWatcher_Next self.ptr timeout_ms))
              "Failed to get next KV watcher update."))
    ∧ (E.status (EngineCall.kvWatcher_Next self.ptr timeout_ms) = NATS_OK →
        E.outPtr (EngineCall.kvWatcher_Next self.ptr timeout_ms) none = none →
        (self.next E timeout_ms).result = Except.ok none)
    ∧ (∀ h : Handle, E.status (EngineCall.kvWatcher_Next self.ptr timeout_ms) = NATS_OK →
        E.outPtr (EngineCall.kvWatcher_Next self.ptr timeout_ms) none = some h →
        (self.next E timeout_ms).result = Except.ok (some { ptr := some h })) := by
  by_cases hs : E.status (EngineCall.kvWatcher_Next self.ptr timeout_ms) = NATS_OK
  · cases he : E.outPtr (EngineCall.kvWatcher_Next self.ptr timeout_ms) none
      <;> simp [KvWatcher.next, KvEntry.new, Outcome.failed, hs, he]
  · simp [KvWatcher.next, KvEntry.new, Outcome.failed, hs]

/-- C9 at concrete inputs: a timeout (status 26) is an error, an OK answer
without an entry is the caught-up marker, an OK answer with entry 9 is that
entry. -/
theorem watcher_next_three_outcomes_witness :
    (KvWatcher.next (Engine.always 26) (KvWatcher.new (some 8) NATS_OK) 100).failed = true
    ∧ (KvWatcher.next (Engine.always NATS_OK) (KvWatcher.new (some 8) NATS_OK) 100).result
        = Except.ok none
    ∧ (KvWatcher.next (Engine.sample (fun _ => NATS_OK) (fun _ => true) (some 9))
        (KvWatcher.new (some 8) NATS_OK) 100).result = Except.ok (some { ptr := some 9 }) :=
  ⟨(watcher_next_three_outcomes (Engine.always 26) (KvWatcher.new (some 8) NATS_OK) 100).2.1.2
      (by decide),
   (watcher_next_three_outcomes (Engine.always NATS_OK)
      (KvWatcher.new (some 8) NATS_OK) 100).2.2.2.1 rfl rfl,
   (watcher_next_three_outcomes (Engine.sample (fun _ => NATS_OK) (fun _ => true) (some 9))
      (KvWatcher.new (some 8) NATS_OK) 100).2.2.2.2 9 rfl rfl⟩

/-! ## What an error message names -/

theorem containsText_self (s : String) : containsText s s :=
  List.infix_refl _

theorem containsText_append_right (t u s : String) (h : containsText t s) :
    containsText (t ++ u) s := by
  show s.data <:+: (t ++ u).data
  rw [String.data_append]
  exact List.IsInfix.trans h (List.prefix_append _ _).isInfix

theorem containsText_append_left (u s : String) : containsText (u ++ s) s := by
  show s.data <:+: (u ++ s).data
  rw [String.data_append]
  exact (List.suffix_append _ _).isInfix

/-- C10, as stated, fails: `next_msg` on a subscription whose subject is
"orders", timing out (status 26), returns the fixed message "Failed to get
next message from subscription.", which does not name the subject; and
`KvWatcher::next` on a watcher opened for key "orders" returns the fixed
message "Failed to get next KV watcher update.", which names neither key
nor bucket. -/
theorem error_message_without_context :
    NatsSubscriptionSync.subject (Engine.always 26) (NatsSubscriptionSync.new (some 4) NATS_OK)
        = "orders"
    ∧ (NatsSubscriptionSync.next_msg (Engine.always 26)
        (NatsSubscriptionSync.new (some 4) NATS_OK) 100).result
        = Except.error { status := 26, status_text := "Error",
                         message := "Failed to get next message from subscription." }
    ∧ ¬ containsText "Failed to get next message from subscription." "orders"
    ∧ (NatsClient.kvs_watch (Engine.sample (fun _ => NATS_OK) (fun _ => true) (some 8))
        NatsClient.sample NATS_OK (KvStore.new (some 5)) (string_view.ofString "orders")
        none).result = Except.ok (KvWatcher.new (some 8) NATS_OK)
    ∧ (KvWatcher.next (Engine.always 26) (KvWatcher.new (some 8) NATS_OK) 100).result
        = Except.error { status := 26, status_text := "Error",
                         message := "Failed to get next KV watcher update." }
    ∧ ¬ containsText "Failed to get next KV watcher update." "orders" := by
  refine ⟨rfl, rfl, ?_, rfl, rfl, ?_⟩ <;> decide

/-- C10, amended: a failing call of one of these operations returns a
`NatsError` whose message contains the subject, bucket or key the operation
was invoked on: `kvs_bind`, `kvs_delete`, `kvs_keys` (the bucket);
`kvs_watch`, `kv_get`, `kv_create`, `kv_create_string`, `kv_put_string`,
`kv_put`, `kv_delete` (the key and the bucket); `subscribe_sync`, `publish`
in both overloads, `unsubscribe` (the subject); `queue_subscribe_sync` (the
subject and the queue group); and `auto_unsunscribe`, `drain`,
`drain_timeout`, `wait_for_drain_completion`, `get_max_pending`,
`get_dropped`, `get_delivered`, `get_pending`, `get_pending_limits`,
`set_pending_limits` of a subscription (its subject).  A failing
`KvWatcher::next` or `KvWatcher::stop` returns a fixed message that names no
key or bucket: a `KvWatcher` holds the engine handle and nothing else. -/
theorem error_message_names_context :
    (∀ (E : Engine) (c : NatsClient) (bucket : string_view) (e : NatsError),
      (c.kvs_bind E bucket).result = Except.error e → containsText e.message (bucket.str))
    ∧ (∀ (E : Engine) (c : NatsClient) (bucket : string_view) (e : NatsError),
      (c.kvs_delete E bucket).result = Except.error e → containsText e.message (bucket.str))
    ∧ (∀ (E : Engine) (c : NatsClient) (kv_store : KvStore) (opts : Option kvWatchOptions) (e : NatsError),
      (c.kvs_keys E kv_store opts).result = Except.error e → containsText e.message (kv_store.bucket E))
    ∧ (∀ (E : Engine) (c : NatsClient) (indet : natsStatus) (kv_store : KvStore) (key : string_view) (opts : Option kvWatchOptions) (e : NatsError),
      (c.kvs_watch E indet kv_store key opts).result = Except.error e → containsText e.message (key.str) ∧ containsText e.message (kv_store.bucket E))
    ∧ (∀ (E : Engine) (c : NatsClient) (kv_store : KvStore) (key : string_view) (e : NatsError),
      (c.kv_get E kv_store key).result = Except.error e → containsText e.message (key.str) ∧ containsText e.message (kv_store.bucket E))
    ∧ (∀ (E : Engine) (c : NatsClient) (kv_store : KvStore) (key : string_view) (data : List byte) (e : NatsError),
      (c.kv_create E kv_store key data).result = Except.error e → containsText e.message (key.str) ∧ containsText e.message (kv_store.bucket E))
    ∧ (∀ (E : Engine) (c : NatsClient) (kv_store : KvStore) (key data : string_view) (e : NatsError),
      (c.kv_create_string E kv_store key data).result = Except.error e → containsText e.message (key.str) ∧ containsText e.message (kv_store.bucket E))
    ∧ (∀ (E : Engine) (c : NatsClient) (kv_store : KvStore) (key value : string_view) (e : NatsError),
      (c.kv_put_string E kv_store key value).result = Except.error e → containsText e.message (key.str) ∧ containsText e.message (kv_store.bucket E))
    ∧ (∀ (E : Engine) (c : NatsClient) (kv_store : KvStore) (key : string_view) (data : List byte) (e : NatsError),
      (c.kv_put E kv_store key data).result = Except.error e → containsText e.message (key.str) ∧ containsText e.message (kv_store.bucket E))
    ∧ (∀ (E : Engine) (c : NatsClient) (kv_store : KvStore) (key : string_view) (e : NatsError),
      (c.kv_delete E kv_store key).result = Except.error e → containsText e.message (key.str) ∧ containsText e.message (kv_store.bucket E))
    ∧ (∀ (E : Engine) (c : NatsClient) (indet : natsStatus) (subject : string_view) (e : NatsError),
      (c.subscribe_sync E indet subject).result = Except.error e → containsText e.message (subject.str))
    ∧ (∀ (E : Engine) (c : NatsClient) (indet : natsStatus) (subject queue_group : string_view) (e : NatsError),
      (c.queue_subscribe_sync E indet subject queue_group).result = Except.error e → containsText e.message (subject.str) ∧ containsText e.message (queue_group.str))
    ∧ (∀ (E : Engine) (c : NatsClient) (sub : NatsSubscriptionSync) (e : NatsError),
      (c.unsubscribe E sub).result = Except.error e → containsText e.message (sub.subject E))
    ∧ (∀ (E : Engine) (c : NatsClient) (subject data : string_view) (e : NatsError),
      (c.publish E subject data).result = Except.error e → containsText e.message (subject.str))
    ∧ (∀ (E : Engine) (c : NatsClient) (subject : string_view) (data : List byte) (e : NatsError),
      (c.publish_span E subject data).result = Except.error e → containsText e.message (subject.str))
    ∧ (∀ (E : Engine) (self : NatsSubscriptionSync) (max : Int) (e : NatsError),
      (self.auto_unsunscribe E max).result = Except.error e → containsText e.message (self.subject E))
    ∧ (∀ (E : Engine) (self : NatsSubscriptionSync) (e : NatsError),
      (self.drain E).result = Except.error e → containsText e.message (self.subject E))
    ∧ (∀ (E : Engine) (self : NatsSubscriptionSync) (timeout_ms : Int) (e : NatsError),
      (self.drain_timeout E timeout_ms).result = Except.error e → containsText e.message (self.subject E))
    ∧ (∀ (E : Engine) (self : NatsSubscriptionSync) (timeout_ms : Int) (e : NatsError),
      (self.wait_for_drain_completion E timeout_ms).result = Except.error e → containsText e.message (self.subject E))
    ∧ (∀ (E : Engine) (self : NatsSubscriptionSync) (e : NatsError),
      (self.get_max_pending E).result = Except.error e → containsText e.message (self.subject E))
    ∧ (∀ (E : Engine) (self : NatsSubscriptionSync) (e : NatsError),
      (self.get_dropped E).result = Except.error e → containsText e.message (self.subject E))
    ∧ (∀ (E : Engine) (self : NatsSubscriptionSync) (e : NatsError),
      (self.get_delivered E).result = Except.error e → containsText e.message (self.subject E))
    ∧ (∀ (E : Engine) (self : NatsSubscriptionSync) (e : NatsError),
      (self.get_pending E).result = Except.error e → containsText e.message (self.subject E))
    ∧ (∀ (E : Engine) (self : NatsSubscriptionSync) (e : NatsError),
      (self.get_pending_limits E).result = Except.error e → containsText e.message (self.subject E))
    ∧ (∀ (E : Engine) (self : NatsSubscriptionSync) (msgs bytes : Int) (e : NatsError),
      (self.set_pending_limits E msgs bytes).result = Except.error e → containsText e.message (self.subject E))
    ∧ (∀ (E : Engine) (self : KvWatcher) (timeout_ms : Int) (e : NatsError),
      (self.next E timeout_ms).result = Except.error e →
        e.message = "Failed to get next KV watcher update.")
    ∧ (∀ (E : Engine) (self : KvWatcher) (e : NatsError),
      (self.stop E).result = Except.error e → e.message = "Failed to stop KV watcher.") := by
  refine ⟨?_, ?_, ?_, ?_, ?_, ?_, ?_, ?_, ?_, ?_, ?_, ?_, ?_, ?_, ?_, ?_, ?_, ?_, ?_, ?_, ?_, ?_, ?_, ?_, ?_, ?_, ?_⟩
  · intro E c bucket e h
    unfold NatsClient.kvs_bind at h
    simp only [] at h
    split at h
    · cases h
      repeat (first
        | exact containsText_self _
        | exact containsText_append_left _ _
        | apply containsText_append_right)
    · cases h
  · intro E c bucket e h
    unfold NatsClient.kvs_delete at h
    simp only [] at h
    split at h
    · cases h
      repeat (first
        | exact containsText_self _
        | exact containsText_append_left _ _
        | apply containsText_append_right)
    · cases h
  · intro E c kv_store opts e h
    unfold NatsClient.kvs_keys at h
    simp only [] at h
    split at h
    · cases h
      repeat (first
        | exact containsText_self _
        | exact containsText_append_left _ _
        | apply containsText_append_right)
    · cases h
  · intro E c indet kv_store key opts e h
    unfold NatsClient.kvs_watch at h
    simp only [] at h
    split at h
    · cases h
      constructor <;>
      repeat (first
        | exact containsText_self _
        | exact containsText_append_left _ _
        | apply containsText_append_right)
    · cases h
  · intro E c kv_store key e h
    unfold NatsClient.kv_get at h
    simp only [] at h
    split at h
    · cases h
      constructor <;>
      repeat (first
        | exact containsText_self _
        | exact containsText_append_left _ _
        | apply containsText_append_right)
    · cases h
  · intro E c kv_store key data e h
    unfold NatsClient.kv_create at h
    simp only [] at h
    split at h
    · cases h
      constructor <;>
      repeat (first
        | exact containsText_self _
        | exact containsText_append_left _ _
        | apply containsText_append_right)
    · cases h
  · intro E c kv_store key data e h
    unfold NatsClient.kv_create_string at h
    simp only [] at h
    split at h
    · cases h
      constructor <;>
      repeat (first
        | exact containsText_self _
        | exact containsText_append_left _ _
        | apply containsText_append_right)
    · cases h
  · intro E c kv_store key value e h
    unfold NatsClient.kv_put_string at h
    simp only [] at h
    split at h
    · cases h
      constructor <;>
      repeat (first
        | exact containsText_self _
        | exact containsText_append_left _ _
        | apply containsText_append_right)
    · cases h
  · intro E c kv_store key data e h
    unfold NatsClient.kv_put at h
    simp only [] at h
    split at h
    · cases h
      constructor <;>
      repeat (first
        | exact containsText_self _
        | exact containsText_append_left _ _
        | apply containsText_append_right)
    · cases h
  · intro E c kv_store key e h
    unfold NatsClient.kv_delete at h
    simp only [] at h
    split at h
    · cases h
      constructor <;>
      repeat (first
        | exact containsText_self _
        | exact containsText_append_left _ _
        | apply containsText_append_right)
    · cases h
  · intro E c indet subject e h
    unfold NatsClient.subscribe_sync at h
    simp only [] at h
    split at h
    · cases h
      repeat (first
        | exact containsText_self _
        | exact containsText_append_left _ _
        | apply containsText_append_right)
    · cases h
  · intro E c indet subject queue_group e h
    unfold NatsClient.queue_subscribe_sync at h
    simp only [] at h
    split at h
    · cases h
      constructor <;>
      repeat (first
        | exact containsText_self _
        | exact containsText_append_left _ _
        | apply containsText_append_right)
    · cases h
  · intro E c sub e h
    unfold NatsClient.unsubscribe at h
    simp only [] at h
    split at h
    · cases h
      repeat (first
        | exact containsText_self _
        | exact containsText_append_left _ _
        | apply containsText_append_right)
    · cases h
  · intro E c subject data e h
    unfold NatsClient.publish at h
    simp only [] at h
    split at h
    · cases h
      repeat (first
        | exact containsText_self _
        | exact containsText_append_left _ _
        | apply containsText_append_right)
    · cases h
  · intro E c subject data e h
    unfold NatsClient.publish_span at h
    simp only [] at h
    split at h
    · cases h
      repeat (first
        | exact containsText_self _
        | exact containsText_append_left _ _
        | apply containsText_append_right)
    · cases h
  · intro E self max e h
    unfold NatsSubscriptionSync.auto_unsunscribe at h
    simp only [] at h
    split at h
    · cases h
      repeat (first
        | exact containsText_self _
        | exact containsText_append_left _ _
        | apply containsText_append_right)
    · cases h
  · intro E self e h
    unfold NatsSubscriptionSync.drain at h
    simp only [] at h
    split at h
    · cases h
      repeat (first
        | exact containsText_self _
        | exact containsText_append_left _ _
        | apply containsText_append_right)
    · cases h
  · intro E self timeout_ms e h
    unfold NatsSubscriptionSync.drain_timeout at h
    simp only [] at h
    split at h
    · cases h
      repeat (first
        | exact containsText_self _
        | exact containsText_append_left _ _
        | apply containsText_append_right)
    · cases h
  · intro E self timeout_ms e h
    unfold NatsSubscriptionSync.wait_for_drain_completion at h
    simp only [] at h
    split at h
    · cases h
      repeat (first
        | exact containsText_self _
        | exact containsText_append_left _ _
        | apply containsText_append_right)
    · cases h
  · intro E self e h
    unfold NatsSubscriptionSync.get_max_pending at h
    simp only [] at h
    split at h
    · cases h
      repeat (first
        | exact containsText_self _
        | exact containsText_append_left _ _
        | apply containsText_append_right)
    · cases h
  · intro E self e h
    unfold NatsSubscriptionSync.get_dropped at h
    simp only [] at h
    split at h
    · cases h
      repeat (first
        | exact containsText_self _
        | exact containsText_append_left _ _
        | apply containsText_append_right)
    · cases h
  · intro E self e h
    unfold NatsSubscriptionSync.get_delivered at h
    simp only [] at h
    split at h
    · cases h
      repeat (first
        | exact containsText_self _
        | exact containsText_append_left _ _
        | apply containsText_append_right)
    · cases h
  · intro E self e h
    unfold NatsSubscriptionSync.get_pending at h
    simp only [] at h
    split at h
    · cases h
      repeat (first
        | exact containsText_self _
        | exact containsText_append_left _ _
        | apply containsText_append_right)
    · cases h
  · intro E self e h
    unfold NatsSubscriptionSync.get_pending_limits at h
    simp only [] at h
    split at h
    · cases h
      repeat (first
        | exact containsText_self _
        | exact containsText_append_left _ _
        | apply containsText_append_right)
    · cases h
  · intro E self msgs bytes e h
    unfold NatsSubscriptionSync.set_pending_limits at h
    simp only [] at h
    split at h
    · cases h
      repeat (first
        | exact containsText_self _
        | exact containsText_append_left _ _
        | apply containsText_append_right)
    · cases h
  · intro E self timeout_ms e h
    unfold KvWatcher.next at h
    simp only [] at h
    split at h
    · cases h
      rfl
    · split at h <;> cases h
  · intro E self e h
    unfold KvWatcher.stop at h
    simp only [] at h
    split at h
    · cases h
      rfl
    · cases h

/-- C10, amended, at a concrete input: `kv_get` of key "orders" failing with
status 13 names the key and the bucket the engine reports ("orders"). -/
theorem error_message_names_context_witness :
    containsText
      "Failed to read KV entry [orders] from bucket [orders]." "orders" :=
  (error_message_names_context.2.2.2.2.1 (Engine.always 13) NatsClient.sample
    (KvStore.new (some 5)) (string_view.ofString "orders")
    { status := 13, status_text := "Error",
      message := "Failed to read KV entry [orders] from bucket [orders]." } rfl).1



/-! ## kvs_create and the bucket name -/

theorem NatsClient.kvs_create_trace (E : Engine) (c : NatsClient) (indet : kvConfig)
    (bucket_name : string_view) (description : Option string_view) :
    (bucket_name.empty = true →
      (c.kvs_create E indet bucket_name description).result
          = Except.error (NatsError.new E NATS_INVALID_ARG "Bucket name is required.")
      ∧ (c.kvs_create E indet bucket_name description).calls = []
      ∧ (c.kvs_create E indet bucket_name description).self = c)
    ∧ (bucket_name.empty = false →
      (c.kvs_create E indet bucket_name description).calls
          = (if E.status EngineCall.kvConfig_Init ≠ NATS_OK then [EngineCall.kvConfig_Init]
             else [EngineCall.kvConfig_Init,
                   EngineCall.js_CreateKeyValue c.js
                     { E.outKvConfig EngineCall.kvConfig_Init indet with
                       Bucket := some (c_str bucket_name.data) }])
      ∧ (c.kvs_create E indet bucket_name description).status
          = (if E.status EngineCall.kvConfig_Init ≠ NATS_OK then E.status EngineCall.kvConfig_Init
             else E.status (EngineCall.js_CreateKeyValue c.js
                     { E.outKvConfig EngineCall.kvConfig_Init indet with
                       Bucket := some (c_str bucket_name.data) }))
      ∧ ((c.kvs_create E indet bucket_name description).failed = true ↔
          (c.kvs_create E indet bucket_name description).status ≠ NATS_OK)) := by
  constructor
  · intro he
    simp [NatsClient.kvs_create, he]
  · intro he
    by_cases h1 : E.status EngineCall.kvConfig_Init = NATS_OK
    · by_cases h2 : E.status (EngineCall.js_CreateKeyValue c.js
          { E.outKvConfig EngineCall.kvConfig_Init indet with
            Bucket := some (c_str bucket_name.data) }) = NATS_OK
        <;> simp [NatsClient.kvs_create, NatsClient.kvs_config_init, Outcome.status,
          Outcome.failed, NatsError.new, he, h1, h2]
    · simp [NatsClient.kvs_create, NatsClient.kvs_config_init, Outcome.status,
        Outcome.failed, NatsError.new, he, h1]

/-- C11, as stated, fails: "a b" is not a valid bucket name, yet `kvs_create`
asks the engine to create it: it calls `js_CreateKeyValue` with `Bucket` set
to "a b", and the invalid-argument error it returns is the engine's answer. -/
theorem invalid_bucket_name_reaches_engine :
    validBucketName "a b" = false
    ∧ (NatsClient.sample.kvs_create Engine.rejectsBucket { Bucket := none, rest := 0 }
        (string_view.ofString "a b") none).calls
      = [EngineCall.kvConfig_Init,
         EngineCall.js_CreateKeyValue (some 3) { Bucket := some "a b", rest := 0 }]
    ∧ (NatsClient.sample.kvs_create Engine.rejectsBucket { Bucket := none, rest := 0 }
        (string_view.ofString "a b") none).status = NATS_INVALID_ARG
    ∧ Engine.rejectsBucket.status
        (EngineCall.js_CreateKeyValue (some 3) { Bucket := some "a b", rest := 0 })
      = NATS_INVALID_ARG := by
  refine ⟨by decide, rfl, rfl, rfl⟩

/-- C11, amended: `kvs_create` rejects an empty bucket name (size 0) with an
invalid-argument error, "Bucket name is required.", before any engine call.
A name that is not empty is not checked by the wrapper, whatever its
characters: `kvs_create` initialises a configuration, sets `Bucket` to the C
string at the name's `data()` and asks the engine to create the bucket; it
returns an error exactly when one of the two engine calls answers a status
other than OK, and the error carries that status. -/
theorem kvs_create_checks_only_emptiness (E : Engine) (c : NatsClient) (indet : kvConfig)
    (bucket_name : string_view) (description : Option string_view) :
    (bucket_name.empty = true →
      (c.kvs_create E indet bucket_name description).result
          = Except.error (NatsError.new E NATS_INVALID_ARG "Bucket name is required.")
      ∧ (c.kvs_create E indet bucket_name description).calls = []
      ∧ (c.kvs_create E indet bucket_name description).self = c)
    ∧ (bucket_name.empty = false →
      (c.kvs_create E indet bucket_name description).calls
          = (if E.status EngineCall.kvConfig_Init ≠ NATS_OK then [EngineCall.kvConfig_Init]
             else [EngineCall.kvConfig_Init,
                   EngineCall.js_CreateKeyValue c.js
                     { E.outKvConfig EngineCall.kvConfig_Init indet with
                       Bucket := some (c_str bucket_name.data) }])
      ∧ (c.kvs_create E indet bucket_name description).status
          = (if E.status EngineCall.kvConfig_Init ≠ NATS_OK then E.status EngineCall.kvConfig_Init
             else E.status (EngineCall.js_CreateKeyValue c.js
                     { E.outKvConfig EngineCall.kvConfig_Init indet with
                       Bucket := some (c_str bucket_name.data) }))
      ∧ ((c.kvs_create E indet bucket_name description).failed = true ↔
          (c.kvs_create E indet bucket_name description).status ≠ NATS_OK)) :=
  NatsClient.kvs_create_trace E c indet bucket_name description

/-- C11, amended, at a concrete input: the empty name is rejected without an
engine call. -/
theorem kvs_create_checks_only_emptiness_witness :
    (NatsClient.sample.kvs_create (Engine.always NATS_OK) { Bucket := none, rest := 0 }
        (string_view.ofString "") none).result
      = Except.error (NatsError.new (Engine.always NATS_OK) NATS_INVALID_ARG
          "Bucket name is required.")
    ∧ (NatsClient.sample.kvs_create (Engine.always NATS_OK) { Bucket := none, rest := 0 }
        (string_view.ofString "") none).calls = [] :=
  ⟨((kvs_create_checks_only_emptiness (Engine.always NATS_OK) NatsClient.sample
      { Bucket := none, rest := 0 } (string_view.ofString "") none).1 rfl).1,
   ((kvs_create_checks_only_emptiness (Engine.always NATS_OK) NatsClient.sample
      { Bucket := none, rest := 0 } (string_view.ofString "") none).1 rfl).2.1⟩

/-! ## kv_put, kv_put_string and the revision -/

/-- C14: when the initialisation of the JetStream options succeeds,
`jet_stream()` hands the engine the record the engine initialised with
`PublishAsync.MaxPending` set to 256 and the rest untouched; it returns
success exactly when both engine calls answer OK, and then holds the context
the engine stored; when the initialisation fails no context is requested. -/
theorem jet_stream_sets_max_pending (E : Engine) (c : NatsClient) :
    (E.status EngineCall.jsOptions_Init = NATS_OK →
      (c.jet_stream E).calls
          = [EngineCall.jsOptions_Init,
             EngineCall.natsConnection_JetStream c.conn (c.jetStreamOptions E)]
      ∧ (c.jetStreamOptions E).PublishAsync_MaxPending = 256
      ∧ (c.jetStreamOptions E).rest = (E.outJsOptions EngineCall.jsOptions_Init c.jsOpts).rest)
    ∧ ((c.jet_stream E).failed = false ↔
        E.status EngineCall.jsOptions_Init = NATS_OK
        ∧ E.status (EngineCall.natsConnection_JetStream c.conn (c.jetStreamOptions E)) = NATS_OK)
    ∧ ((c.jet_stream E).failed = false →
        (c.jet_stream E).result = Except.ok ()
        ∧ (c.jet_stream E).self.js
            = E.outPtr (EngineCall.natsConnection_JetStream c.conn (c.jetStreamOptions E)) c.js)
    ∧ (E.status EngineCall.jsOptions_Init ≠ NATS_OK →
        (c.jet_stream E).calls = [EngineCall.jsOptions_Init]
        ∧ (c.jet_stream E).status = E.status EngineCall.jsOptions_Init
        ∧ (c.jet_stream E).self.js = c.js) := by
  by_cases h1 : E.status EngineCall.jsOptions_Init = NATS_OK
  · by_cases h2 : E.status (EngineCall.natsConnection_JetStream c.conn
        { E.outJsOptions EngineCall.jsOptions_Init c.jsOpts with
          PublishAsync_MaxPending := 256 }) = NATS_OK
      <;> simp [NatsClient.jet_stream, NatsClient.jetStreamOptions, Outcome.status,
        Outcome.failed, h1, h2, NatsError.new]
  · simp [NatsClient.jet_stream, NatsClient.jetStreamOptions, Outcome.status,
      Outcome.failed, h1, NatsError.new]

/-- C14 at a concrete input: on the connected sample client, with an engine
that accepts every call and stores context 9, `jet_stream()` asks for a
context with `MaxPending` 256 and ends up holding context 9. -/
theorem jet_stream_sets_max_pending_witness :
    (NatsClient.sample.jet_stream (Engine.sample (fun _ => NATS_OK) (fun _ => true) (some 9))).calls
      = [EngineCall.jsOptions_Init,
         EngineCall.natsConnection_JetStream (some 1) { PublishAsync_MaxPending := 256, rest := 0 }]
    ∧ (NatsClient.sample.jet_stream
        (Engine.sample (fun _ => NATS_OK) (fun _ => true) (some 9))).self.js = some 9 :=
  ⟨((jet_stream_sets_max_pending (Engine.sample (fun _ => NATS_OK) (fun _ => true) (some 9))
      NatsClient.sample).1 rfl).1,
   ((jet_stream_sets_max_pending (Engine.sample (fun _ => NATS_OK) (fun _ => true) (some 9))
      NatsClient.sample).2.2.1 rfl).2⟩

/-! ## What the setters hand to the engine -/

/-- C15, the code at the failing input: the parameter of
`set_write_deadline` is a `bool`, so a deadline of 5000 milliseconds becomes
`true` at the call and the engine is handed a write deadline of 1, while
`set_timeout(5000)` hands the engine 5000. -/
theorem write_deadline_is_truncated :
    (NatsOptions.set_write_deadline (Engine.always NATS_OK) (NatsOptions.new (some 2) NATS_OK)
        (int64ToBool 5000)).2
      = [EngineCall.natsOptions_SetWriteDeadline (some 2) 1]
    ∧ (NatsOptions.set_timeout (Engine.always NATS_OK) (NatsOptions.new (some 2) NATS_OK)
        5000).2
      = [EngineCall.natsOptions_SetTimeout (some 2) 5000] := by
  exact ⟨rfl, rfl⟩

/-! ## kv_put_string and the value the engine is handed -/

/-- C16, the code at the failing inputs: `kv_put_string` hands the engine the
C string at `value.data()`.  For the five-character value "ab", zero, "cd"
the engine is handed "ab"; for the view of the first two characters of the
buffer "abcd" the engine is handed "abcd".  `kv_put` hands the engine the
bytes and their number. -/
theorem put_string_hands_engine_c_string :
    string_view.withZero.str.length = 5
    ∧ (NatsClient.sample.kv_put_string (Engine.always NATS_OK) (KvStore.new (some 5))
        (string_view.ofString "k") string_view.withZero).calls
      = [EngineCall.kvStore_PutString none (some 5) "k" "ab"]
    ∧ (NatsClient.sample.kv_put_string (Engine.always NATS_OK) (KvStore.new (some 5))
        (string_view.ofString "k") string_view.withZero).result = Except.ok ()
    ∧ string_view.intoBuffer.str = "ab"
    ∧ (NatsClient.sample.kv_put_string (Engine.always NATS_OK) (KvStore.new (some 5))
        (string_view.ofString "k") string_view.intoBuffer).calls
      = [EngineCall.kvStore_PutString none (some 5) "k" "abcd"]
    ∧ (NatsClient.sample.kv_put (Engine.always NATS_OK) (KvStore.new (some 5))
        (string_view.ofString "k") [97, 98, 0, 99, 100]).calls
      = [EngineCall.kvStore_Put none (some 5) "k" [97, 98, 0, 99, 100] 5] := by
  refine ⟨by decide, rfl, rfl, by decide, rfl, rfl⟩

/-! ## NatsError -/

/-- C19: for every status `s` and message `m`, `NatsError(s, m)` has status
`s`, message `m` and the engine's text for `s` as `status_text`, and
`to_string()` is "NATS error ", the decimal of `s`, ": ", the status text,
" - " and `m`, in this order. -/
theorem error_to_string (E : Engine) (s : natsStatus) (m : String) :
    (NatsError.new E s m).status = s
    ∧ (NatsError.new E s m).message = m
    ∧ (NatsError.new E s m).status_text = E.natsStatus_GetText s
    ∧ (NatsError.new E s m).to_string
        = "NATS error " ++ Nat.repr s ++ ": " ++ E.natsStatus_GetText s ++ " - " ++ m := by
  exact ⟨rfl, rfl, rfl, rfl⟩

/-- C19 at a concrete input: status 16 with the message "boom". -/
theorem error_to_string_witness :
    (NatsError.new (Engine.always NATS_OK) 16 "boom").to_string
      = "NATS error 16: Error - boom" :=
  (error_to_string (Engine.always NATS_OK) 16 "boom").2.2.2.trans (by decide)

/-! ## A freshly created client -/

/-- C20, the code at the failing input: `NatsOptions::s` has no initialiser.
When the memory it occupies holds 16, the client a successful `create()`
returns has 16 as its options status, and `connect()` on it, with no setter
called, fails with "NATS options has an error." without any engine call. -/
theorem fresh_client_has_indeterminate_status :
    (NatsClient.create (Engine.sample (fun _ => NATS_OK) (fun _ => true) (some 2)) 16 NATS_OK NatsClient.sample.jsOpts).1
      = Except.ok { conn := none, opts := { ptr := some 2, s := 16 }, js := none,
                    s := NATS_OK, jsOpts := NatsClient.sample.jsOpts }
    ∧ (NatsClient.connect Engine.connects
        { conn := none, opts := { ptr := some 2, s := 16 }, js := none,
          s := NATS_OK, jsOpts := NatsClient.sample.jsOpts }).result
      = Except.error { status := 16, status_text := "Error",
                       message := "NATS options has an error." }
    ∧ (NatsClient.connect Engine.connects
        { conn := none, opts := { ptr := some 2, s := 16 }, js := none,
          s := NATS_OK, jsOpts := NatsClient.sample.jsOpts }).calls = [] := by
  refine ⟨rfl, rfl, rfl⟩



/-! ## The payload ceiling, against the modelled engine -/

/-- The payload ceiling against the modelled engine, for every connected
client: `publish` (in both overloads) of a payload larger than
`get_max_payload()` to a subject whose C string is not empty returns an error
with status `NATS_MAX_PAYLOAD`, and nothing is added to the outbound buffer;
and `publish` to an empty subject that is a C string (a zero at `data()`)
fails and adds nothing to the outbound buffer.  The wrapper hands the engine
the C string at the subject's `data()`, the payload and its size, and returns
the engine's status; the modelled engine answers the same whatever the
connection handle. -/
theorem publish_enforces_ceiling (m : EngineModel) (c : NatsClient)
    (subject data : string_view) (bytes : List byte) :
    (c_str subject.data ≠ "" → (c.get_max_payload m.engine).1 < (data.size : Int) →
      (c.publish m.engine subject data).failed = true
      ∧ (c.publish m.engine subject data).status = NATS_MAX_PAYLOAD
      ∧ (m.after (c.publish m.engine subject data).calls).outbound = m.outbound)
    ∧ (c_str subject.data ≠ "" → (c.get_max_payload m.engine).1 < (bytes.length : Int) →
      (c.publish_span m.engine subject bytes).failed = true
      ∧ (c.publish_span m.engine subject bytes).status = NATS_MAX_PAYLOAD
      ∧ (m.after (c.publish_span m.engine subject bytes).calls).outbound = m.outbound)
    ∧ (subject.empty = true → subject.isCString →
      (c.publish m.engine subject data).failed = true
      ∧ (m.after (c.publish m.engine subject data).calls).outbound = m.outbound
      ∧ (c.publish_span m.engine subject bytes).failed = true
      ∧ (m.after (c.publish_span m.engine subject bytes).calls).outbound = m.outbound) := by
  refine ⟨?_, ?_, ?_⟩
  · intro hs hbig
    have hbig2 : m.maxPayload < (data.size : Int) := hbig
    simp [NatsClient.publish, EngineModel.engine, EngineModel.status, EngineModel.after,
      EngineModel.apply, Outcome.failed, Outcome.status, NatsError.new, hs, hbig2,
      NATS_MAX_PAYLOAD, NATS_OK]
  · intro hs hbig
    have hbig2 : m.maxPayload < (bytes.length : Int) := hbig
    simp [NatsClient.publish_span, EngineModel.engine, EngineModel.status, EngineModel.after,
      EngineModel.apply, Outcome.failed, Outcome.status, NatsError.new, hs, hbig2,
      NATS_MAX_PAYLOAD, NATS_OK]
  · intro he hc
    have hsize : subject.size = 0 := by
      simpa [string_view.empty] using he
    have hs : c_str subject.data = "" := by
      rw [hc]
      simp [string_view.str, hsize]
    simp [NatsClient.publish, NatsClient.publish_span, EngineModel.engine,
      EngineModel.status, EngineModel.after, EngineModel.apply, Outcome.failed,
      Outcome.status, NatsError.new, hs, NATS_INVALID_SUBJECT, NATS_OK]

/-- The payload ceiling at a concrete input: the server advertises 4 bytes,
the payload "hello" has 5. -/
theorem publish_enforces_ceiling_witness :
    (NatsClient.sample.publish EngineModel.sample.engine (string_view.ofString "orders")
        (string_view.ofString "hello")).status = NATS_MAX_PAYLOAD
    ∧ (EngineModel.sample.after (NatsClient.sample.publish EngineModel.sample.engine
        (string_view.ofString "orders") (string_view.ofString "hello")).calls).outbound = [] :=
  ⟨((publish_enforces_ceiling EngineModel.sample NatsClient.sample
      (string_view.ofString "orders") (string_view.ofString "hello") []).1
      (by decide) (by decide)).2.1,
   ((publish_enforces_ceiling EngineModel.sample NatsClient.sample
      (string_view.ofString "orders") (string_view.ofString "hello") []).1
      (by decide) (by decide)).2.2⟩

/-- C13, the code at the failing input: `publish` hands the engine the C
string at `subject.data()` and drops the subject's size.  For the empty view
at the start of the buffer "abc", `std::string_view("abc", 0)`, and the
payload "hi" the engine is handed the subject "abc" in both overloads;
`publish` returns what the engine answers, so with an engine that accepts the
call it returns success.  The modelled engine, whose ceiling is 4 bytes,
accepts it and takes the two bytes into the outbound buffer under the subject
"abc".  For the empty view of an empty string the engine is handed "" and
the modelled engine refuses. -/
theorem empty_subject_view_is_published :
    string_view.emptyIntoBuffer.empty = true
    ∧ string_view.emptyIntoBuffer.str = ""
    ∧ (NatsClient.sample.publish (Engine.always NATS_OK) string_view.emptyIntoBuffer
        (string_view.ofString "hi")).calls
      = [EngineCall.natsConnection_Publish (some 1) "abc" [104, 105] 2]
    ∧ (NatsClient.sample.publish (Engine.always NATS_OK) string_view.emptyIntoBuffer
        (string_view.ofString "hi")).result = Except.ok ()
    ∧ (NatsClient.sample.publish_span (Engine.always NATS_OK) string_view.emptyIntoBuffer
        [104, 105]).calls
      = [EngineCall.natsConnection_Publish (some 1) "abc" [104, 105] 2]
    ∧ (NatsClient.sample.publish_span (Engine.always NATS_OK) string_view.emptyIntoBuffer
        [104, 105]).result = Except.ok ()
    ∧ (NatsClient.sample.publish EngineModel.sample.engine string_view.emptyIntoBuffer
        (string_view.ofString "hi")).result = Except.ok ()
    ∧ (EngineModel.sample.after (NatsClient.sample.publish EngineModel.sample.engine
        string_view.emptyIntoBuffer (string_view.ofString "hi")).calls).outbound
      = [("abc", [104, 105])]
    ∧ (NatsClient.sample.publish_span EngineModel.sample.engine string_view.emptyIntoBuffer
        [104, 105]).result = Except.ok ()
    ∧ (EngineModel.sample.after (NatsClient.sample.publish_span EngineModel.sample.engine
        string_view.emptyIntoBuffer [104, 105]).calls).outbound
      = [("abc", [104, 105])]
    ∧ (NatsClient.sample.publish EngineModel.sample.engine (string_view.ofString "")
        (string_view.ofString "hi")).status = NATS_INVALID_SUBJECT
    ∧ (NatsClient.sample.publish EngineModel.sample.engine (string_view.ofString "")
        (string_view.ofString "hi")).calls
      = [EngineCall.natsConnection_Publish (some 1) "" [104, 105] 2] := by
  refine ⟨rfl, by decide, rfl, rfl, rfl, rfl, rfl, rfl, rfl, rfl, rfl, rfl⟩

/-! ## The tombstone, against the modelled engine -/

theorem EngineModel.runNext_keeps_stopped (h : Handle) (timeouts : List Int) (m : EngineModel)
    (w : KvWatcher) (hw : w.ptr = some h) (hstop : m.stopped h = true) :
    (EngineModel.runNext m w timeouts).2.ptr = some h
    ∧ (EngineModel.runNext m w timeouts).1.stopped h = true := by
  induction timeouts generalizing m w with
  | nil => exact ⟨hw, hstop⟩
  | cons t rest ih =>
    simp only [EngineModel.runNext]
    apply ih
    · simp [KvWatcher.next, EngineModel.engine, EngineModel.status, hw, hstop,
        NATS_ILLEGAL_STATE, NATS_OK]
    · simp [KvWatcher.next, EngineModel.engine, EngineModel.status, EngineModel.after,
        EngineModel.apply, hw, hstop, NATS_ILLEGAL_STATE, NATS_OK]

theorem EngineModel.next_of_stopped (m : EngineModel) (w : KvWatcher) (h : Handle)
    (timeout_ms : Int) (hw : w.ptr = some h) (hstop : m.stopped h = true) :
    (w.next m.engine timeout_ms).failed = true
    ∧ (w.next m.engine timeout_ms).status = NATS_ILLEGAL_STATE
    ∧ (w.next m.engine timeout_ms).status ≠ NATS_TIMEOUT := by
  simp [KvWatcher.next, EngineModel.engine, EngineModel.status, Outcome.failed,
    Outcome.status, NatsError.new, hw, hstop, NATS_ILLEGAL_STATE, NATS_OK, NATS_TIMEOUT]

/-- C18, against the modelled engine: `stop()` on a watcher succeeds, and
after it and any number of calls to `next()`, every call to `next()`, with
any timeout, returns an error whose status is `NATS_ILLEGAL_STATE`: not
`NATS_TIMEOUT` and not a success.  The wrapper hands the engine the same
watcher handle in `stop` and `next` and returns the engine's status. -/
theorem stopped_watcher_is_illegal_state (m : EngineModel) (w : KvWatcher) (h : Handle)
    (earlier : List Int) (timeout_ms : Int) (hw : w.ptr = some h) :
    (w.stop m.engine).result = Except.ok ()
    ∧ ((EngineModel.runNext (m.after (w.stop m.engine).calls) (w.stop m.engine).self earlier).2.next
        (EngineModel.runNext (m.after (w.stop m.engine).calls) (w.stop m.engine).self
          earlier).1.engine timeout_ms).failed = true
    ∧ ((EngineModel.runNext (m.after (w.stop m.engine).calls) (w.stop m.engine).self earlier).2.next
        (EngineModel.runNext (m.after (w.stop m.engine).calls) (w.stop m.engine).self
          earlier).1.engine timeout_ms).status = NATS_ILLEGAL_STATE
    ∧ ((EngineModel.runNext (m.after (w.stop m.engine).calls) (w.stop m.engine).self earlier).2.next
        (EngineModel.runNext (m.after (w.stop m.engine).calls) (w.stop m.engine).self
          earlier).1.engine timeout_ms).status ≠ NATS_TIMEOUT := by
  have hstop : (w.stop m.engine).result = Except.ok () := by
    simp [KvWatcher.stop, EngineModel.engine, EngineModel.status, hw]
  have hptr : (w.stop m.engine).self.ptr = some h := by
    simp [KvWatcher.stop, EngineModel.engine, EngineModel.status, hw]
  have hflag : (m.after (w.stop m.engine).calls).stopped h = true := by
    simp [KvWatcher.stop, EngineModel.engine, EngineModel.status, EngineModel.after,
      EngineModel.apply, hw]
  have hrun := EngineModel.runNext_keeps_stopped h earlier _ _ hptr hflag
  exact ⟨hstop, EngineModel.next_of_stopped _ _ h timeout_ms hrun.1 hrun.2⟩

/-- C18 at a concrete input: before `stop()` the watcher with handle 8 times
out; after `stop()` and one further `next()`, `next()` is
`NATS_ILLEGAL_STATE`. -/
theorem stopped_watcher_is_illegal_state_witness :
    (KvWatcher.next EngineModel.sample.engine (KvWatcher.new (some 8) NATS_OK) 100).status
      = NATS_TIMEOUT
    ∧ ((EngineModel.runNext
          (EngineModel.sample.after
            (KvWatcher.stop EngineModel.sample.engine (KvWatcher.new (some 8) NATS_OK)).calls)
          (KvWatcher.stop EngineModel.sample.engine (KvWatcher.new (some 8) NATS_OK)).self
          [100]).2.next
        (EngineModel.runNext
          (EngineModel.sample.after
            (KvWatcher.stop EngineModel.sample.engine (KvWatcher.new (some 8) NATS_OK)).calls)
          (KvWatcher.stop EngineModel.sample.engine (KvWatcher.new (some 8) NATS_OK)).self
          [100]).1.engine 0).status = NATS_ILLEGAL_STATE :=
  ⟨rfl,
   (stopped_watcher_is_illegal_state EngineModel.sample (KvWatcher.new (some 8) NATS_OK) 8
      [100] 0 rfl).2.2.1⟩



/-! ## KvKeysList::keys -/

theorem KvKeysList.keys_of_array (arr : List String) (n : Nat) (hn : n ≤ arr.length)
    (cnt : Int) :
    (List.range n).foldlM
        (fun keys i => (KvKeysList.key { kl := { Keys := some arr, Count := cnt } } i).map
          (fun k => keys ++ [k])) []
      = some (arr.take n) := by
  induction n with
  | zero => rfl
  | succ k ih =>
    have hk : k < arr.length := hn
    rw [List.range_succ, List.foldlM_append, ih (Nat.le_of_lt hk)]
    have hkey : KvKeysList.key { kl := { Keys := some arr, Count := cnt } } k = some arr[k] := by
      show arr[k]? = some arr[k]
      exact List.getElem?_eq_getElem hk
    have htake : arr.take (k + 1) = arr.take k ++ [arr[k]] := by
      rw [List.take_succ, List.getElem?_eq_getElem hk]
      rfl
    rw [htake]
    simp only [Option.bind_eq_bind, Option.some_bind, List.foldlM_cons, List.foldlM_nil, hkey,
      Option.map_some', Option.pure_def]

/-- C24: `keys()` returns the snapshot exactly.  For a list whose `Count` is
`n >= 0` and whose array holds the `n` engine keys, the result has length `n`
and its `i`-th element is the `i`-th engine key, in the engine's order; for
`Count <= 0`, as in a default-constructed or a moved-from list, the result
is empty; `keys()` is a function of the list, which it does not change, so
two calls return equal results. -/
theorem keys_returns_snapshot (self : KvKeysList) :
    (∀ arr : List String, self.kl.Keys = some arr → self.kl.Count = (arr.length : Int) →
      self.keys = some arr)
    ∧ (∀ arr : List String, self.kl.Keys = some arr → 0 ≤ self.kl.Count →
      self.kl.Count.toNat ≤ arr.length →
      ∃ res, self.keys = some res ∧ res.length = self.kl.Count.toNat
        ∧ ∀ i, i < self.kl.Count.toNat → res[i]? = arr[i]?)
    ∧ (self.kl.Count ≤ 0 → self.keys = some [])
    ∧ KvKeysList.new.keys = some []
    ∧ (∀ other : KvKeysList, (KvKeysList.moveConstruct other).2.keys = some [])
    ∧ (∀ (mem : Nat → KvKeysList) (this other : Nat), this ≠ other →
      ((KvKeysList.moveAssign mem this other).1 other).keys = some []) := by
  obtain ⟨⟨ks, cnt⟩⟩ := self
  refine ⟨?_, ?_, ?_, rfl, fun _ => rfl, ?_⟩
  · intro arr h1 h2
    simp only at h1 h2
    subst h1 h2
    have h := KvKeysList.keys_of_array arr arr.length (Nat.le_refl _) (arr.length : Int)
    simpa [KvKeysList.keys] using h
  · intro arr h1 _ h3
    simp only at h1 h3
    subst h1
    refine ⟨arr.take cnt.toNat, ?_, ?_, ?_⟩
    · exact KvKeysList.keys_of_array arr cnt.toNat h3 cnt
    · simp [List.length_take, h3]
    · intro i hi
      simp [List.getElem?_take, hi]
  · intro h
    simp only at h
    have h0 : cnt.toNat = 0 := Int.toNat_eq_zero.mpr h
    simp [KvKeysList.keys, h0]
  · intro mem this other hne
    have h2 : other ≠ this := fun e => hne e.symm
    cases hp : (mem this).kl.Keys <;>
      simp [KvKeysList.moveAssign, hne, h2, hp, Function.update, KvKeysList.keys]

/-- C24 at a concrete input: a list of three keys. -/
theorem keys_returns_snapshot_witness :
    KvKeysList.sample.keys = some ["a", "b", "c"] :=
  (keys_returns_snapshot KvKeysList.sample).1 ["a", "b", "c"] rfl rfl



/-! ## Status pass-through -/

/-- C21: each of `next_msg`, `queued_msgs`, `drain`, `get_dropped`,
`get_delivered`, `set_pending_limits`, `kv_get`, `kv_put`, `kv_delete`,
`kvs_bind`, `publish` (both overloads), `subscribe_sync` and
`KvWatcher::stop` starts with its one engine call, returns an error if and
only if that call's status is not OK, and the error carries that status
unchanged; on OK it returns the value the engine produced: the integer the
engine stored, or a wrapper whose `ptr` is the handle the engine stored (for
`next_msg`, a `NatsMessageView` owning exactly the engine's message handle). -/
theorem status_pass_through (E : Engine) (sub : NatsSubscriptionSync) (w : KvWatcher)
    (c : NatsClient) (kv_store : KvStore) (key bucket subject payload : string_view)
    (data : List byte) (timeout_ms msgs bytesLimit : Int) (indet : natsStatus) :
    (((sub.next_msg E timeout_ms).failed = true ↔
        E.status (EngineCall.natsSubscription_NextMsg sub.ptr timeout_ms) ≠ NATS_OK)
      ∧ (sub.next_msg E timeout_ms).status
          = E.status (EngineCall.natsSubscription_NextMsg sub.ptr timeout_ms)
      ∧ (E.status (EngineCall.natsSubscription_NextMsg sub.ptr timeout_ms) = NATS_OK →
          (sub.next_msg E timeout_ms).result
            = Except.ok { ptr := E.outPtr (EngineCall.natsSubscription_NextMsg sub.ptr timeout_ms) none })
      ∧ (sub.next_msg E timeout_ms).calls.head?
          = some (EngineCall.natsSubscription_NextMsg sub.ptr timeout_ms))
    ∧ (((sub.queued_msgs E).failed = true ↔
        E.status (EngineCall.natsSubscription_QueuedMsgs sub.ptr) ≠ NATS_OK)
      ∧ (sub.queued_msgs E).status
          = E.status (EngineCall.natsSubscription_QueuedMsgs sub.ptr)
      ∧ (E.status (EngineCall.natsSubscription_QueuedMsgs sub.ptr) = NATS_OK →
          (sub.queued_msgs E).result
            = Except.ok (E.outInt (EngineCall.natsSubscription_QueuedMsgs sub.ptr) 0 0))
      ∧ (sub.queued_msgs E).calls.head?
          = some (EngineCall.natsSubscription_QueuedMsgs sub.ptr))
    ∧ (((sub.drain E).failed = true ↔
        E.status (EngineCall.natsSubscription_Drain sub.ptr) ≠ NATS_OK)
      ∧ (sub.drain E).status
          = E.status (EngineCall.natsSubscription_Drain sub.ptr)
      ∧ (E.status (EngineCall.natsSubscription_Drain sub.ptr) = NATS_OK →
          (sub.drain E).result
            = Except.ok (()))
      ∧ (sub.drain E).calls.head?
          = some (EngineCall.natsSubscription_Drain sub.ptr))
    ∧ (((sub.get_dropped E).failed = true ↔
        E.status (EngineCall.natsSubscription_GetDropped sub.ptr) ≠ NATS_OK)
      ∧ (sub.get_dropped E).status
          = E.status (EngineCall.natsSubscription_GetDropped sub.ptr)
      ∧ (E.status (EngineCall.natsSubscription_GetDropped sub.ptr) = NATS_OK →
          (sub.get_dropped E).result
            = Except.ok (E.outInt (EngineCall.natsSubscription_GetDropped sub.ptr) 0 0))
      ∧ (sub.get_dropped E).calls.head?
          = some (EngineCall.natsSubscription_GetDropped sub.ptr))
    ∧ (((sub.get_delivered E).failed = true ↔
        E.status (EngineCall.natsSubscription_GetDelivered sub.ptr) ≠ NATS_OK)
      ∧ (sub.get_delivered E).status
          = E.status (EngineCall.natsSubscription_GetDelivered sub.ptr)
      ∧ (E.status (EngineCall.natsSubscription_GetDelivered sub.ptr) = NATS_OK →
          (sub.get_delivered E).result
            = Except.ok (E.outInt (EngineCall.natsSubscription_GetDelivered sub.ptr) 0 0))
      ∧ (sub.get_delivered E).calls.head?
          = some (EngineCall.natsSubscription_GetDelivered sub.ptr))
    ∧ (((sub.set_pending_limits E msgs bytesLimit).failed = true ↔
        E.status (EngineCall.natsSubscription_SetPendingLimits sub.ptr msgs bytesLimit) ≠ NATS_OK)
      ∧ (sub.set_pending_limits E msgs bytesLimit).status
          = E.status (EngineCall.natsSubscription_SetPendingLimits sub.ptr msgs bytesLimit)
      ∧ (E.status (EngineCall.natsSubscription_SetPendingLimits sub.ptr msgs bytesLimit) = NATS_OK →
          (sub.set_pending_limits E msgs bytesLimit).result
            = Except.ok (()))
      ∧ (sub.set_pending_limits E msgs bytesLimit).calls.head?
          = some (EngineCall.natsSubscription_SetPendingLimits sub.ptr msgs bytesLimit))
    ∧ (((c.kv_get E kv_store key).failed = true ↔
        E.status (EngineCall.kvStore_Get kv_store.ptr (c_str key.data)) ≠ NATS_OK)
      ∧ (c.kv_get E kv_store key).status
          = E.status (EngineCall.kvStore_Get kv_store.ptr (c_str key.data))
      ∧ (E.status (EngineCall.kvStore_Get kv_store.ptr (c_str key.data)) = NATS_OK →
          (c.kv_get E kv_store key).result
            = Except.ok { ptr := E.outPtr (EngineCall.kvStore_Get kv_store.ptr (c_str key.data)) none })
      ∧ (c.kv_get E kv_store key).calls.head?
          = some (EngineCall.kvStore_Get kv_store.ptr (c_str key.data)))
    ∧ (((c.kv_put E kv_store key data).failed = true ↔
        E.status (EngineCall.kvStore_Put none kv_store.ptr (c_str key.data) data data.length) ≠ NATS_OK)
      ∧ (c.kv_put E kv_store key data).status
          = E.status (EngineCall.kvStore_Put none kv_store.ptr (c_str key.data) data data.length)
      ∧ (E.status (EngineCall.kvStore_Put none kv_store.ptr (c_str key.data) data data.length) = NATS_OK →
          (c.kv_put E kv_store key data).result
            = Except.ok (()))
      ∧ (c.kv_put E kv_store key data).calls.head?
          = some (EngineCall.kvStore_Put none kv_store.ptr (c_str key.data) data data.length))
    ∧ (((c.kv_delete E kv_store key).failed = true ↔
        E.status (EngineCall.kvStore_Delete kv_store.ptr (c_str key.data)) ≠ NATS_OK)
      ∧ (c.kv_delete E kv_store key).status
          = E.status (EngineCall.kvStore_Delete kv_store.ptr (c_str key.data))
      ∧ (E.status (EngineCall.kvStore_Delete kv_store.ptr (c_str key.data)) = NATS_OK →
          (c.kv_delete E kv_store key).result
            = Except.ok (()))
      ∧ (c.kv_delete E kv_store key).calls.head?
          = some (EngineCall.kvStore_Delete kv_store.ptr (c_str key.data)))
    ∧ (((c.kvs_bind E bucket).failed = true ↔
        E.status (EngineCall.js_KeyValue c.js (c_str bucket.data)) ≠ NATS_OK)
      ∧ (c.kvs_bind E bucket).status
          = E.status (EngineCall.js_KeyValue c.js (c_str bucket.data))
      ∧ (E.status (EngineCall.js_KeyValue c.js (c_str bucket.data)) = NATS_OK →
          (c.kvs_bind E bucket).result
            = Except.ok { ptr := E.outPtr (EngineCall.js_KeyValue c.js (c_str bucket.data)) none })
      ∧ (c.kvs_bind E bucket).calls.head?
          = some (EngineCall.js_KeyValue c.js (c_str bucket.data)))
    ∧ (((c.publish E subject payload).failed = true ↔
        E.status (EngineCall.natsConnection_Publish c.conn (c_str subject.data) (c_bytes payload.data payload.size) payload.size) ≠ NATS_OK)
      ∧ (c.publish E subject payload).status
          = E.status (EngineCall.natsConnection_Publish c.conn (c_str subject.data) (c_bytes payload.data payload.size) payload.size)
      ∧ (E.status (EngineCall.natsConnection_Publish c.conn (c_str subject.data) (c_bytes payload.data payload.size) payload.size) = NATS_OK →
          (c.publish E subject payload).result
            = Except.ok (()))
      ∧ (c.publish E subject payload).calls.head?
          = some (EngineCall.natsConnection_Publish c.conn (c_str subject.data) (c_bytes payload.data payload.size) payload.size))
    ∧ (((c.publish_span E subject data).failed = true ↔
        E.status (EngineCall.natsConnection_Publish c.conn (c_str subject.data) data data.length) ≠ NATS_OK)
      ∧ (c.publish_span E subject data).status
          = E.status (EngineCall.natsConnection_Publish c.conn (c_str subject.data) data data.length)
      ∧ (E.status (EngineCall.natsConnection_Publish c.conn (c_str subject.data) data data.length) = NATS_OK →
          (c.publish_span E subject data).result
            = Except.ok (()))
      ∧ (c.publish_span E subject data).calls.head?
          = some (EngineCall.natsConnection_Publish c.conn (c_str subject.data) data data.length))
    ∧ (((c.subscribe_sync E indet subject).failed = true ↔
        E.status (EngineCall.natsConnection_SubscribeSync c.conn (c_str subject.data)) ≠ NATS_OK)
      ∧ (c.subscribe_sync E indet subject).status
          = E.status (EngineCall.natsConnection_SubscribeSync c.conn (c_str subject.data))
      ∧ (E.status (EngineCall.natsConnection_SubscribeSync c.conn (c_str subject.data)) = NATS_OK →
          (c.subscribe_sync E indet subject).result
            = Except.ok (NatsSubscriptionSync.mk
                (E.outPtr (EngineCall.natsConnection_SubscribeSync c.conn (c_str subject.data)) none)
                indet))
      ∧ (c.subscribe_sync E indet subject).calls.head?
          = some (EngineCall.natsConnection_SubscribeSync c.conn (c_str subject.data)))
    ∧ (((w.stop E).failed = true ↔
        E.status (EngineCall.kvWatcher_Stop w.ptr) ≠ NATS_OK)
      ∧ (w.stop E).status
          = E.status (EngineCall.kvWatcher_Stop w.ptr)
      ∧ (E.status (EngineCall.kvWatcher_Stop w.ptr) = NATS_OK →
          (w.stop E).result
            = Except.ok (()))
      ∧ (w.stop E).calls.head?
          = some (EngineCall.kvWatcher_Stop w.ptr)) := by
  refine ⟨?_, ?_, ?_, ?_, ?_, ?_, ?_, ?_, ?_, ?_, ?_, ?_, ?_, ?_⟩
  · by_cases h : E.status (EngineCall.natsSubscription_NextMsg sub.ptr timeout_ms) = NATS_OK
      <;> simp [NatsSubscriptionSync.next_msg, Outcome.status, Outcome.failed, NatsError.new,
        NatsMessageView.new, KvEntry.new, KvStore.new, NatsSubscriptionSync.new, h]
  · by_cases h : E.status (EngineCall.natsSubscription_QueuedMsgs sub.ptr) = NATS_OK
      <;> simp [NatsSubscriptionSync.queued_msgs, Outcome.status, Outcome.failed, NatsError.new,
        NatsMessageView.new, KvEntry.new, KvStore.new, NatsSubscriptionSync.new, h]
  · by_cases h : E.status (EngineCall.natsSubscription_Drain sub.ptr) = NATS_OK
      <;> simp [NatsSubscriptionSync.drain, Outcome.status, Outcome.failed, NatsError.new,
        NatsMessageView.new, KvEntry.new, KvStore.new, NatsSubscriptionSync.new, h]
  · by_cases h : E.status (EngineCall.natsSubscription_GetDropped sub.ptr) = NATS_OK
      <;> simp [NatsSubscriptionSync.get_dropped, Outcome.status, Outcome.failed, NatsError.new,
        NatsMessageView.new, KvEntry.new, KvStore.new, NatsSubscriptionSync.new, h]
  · by_cases h : E.status (EngineCall.natsSubscription_GetDelivered sub.ptr) = NATS_OK
      <;> simp [NatsSubscriptionSync.get_delivered, Outcome.status, Outcome.failed, NatsError.new,
        NatsMessageView.new, KvEntry.new, KvStore.new, NatsSubscriptionSync.new, h]
  · by_cases h : E.status (EngineCall.natsSubscription_SetPendingLimits sub.ptr msgs bytesLimit) = NATS_OK
      <;> simp [NatsSubscriptionSync.set_pending_limits, Outcome.status, Outcome.failed, NatsError.new,
        NatsMessageView.new, KvEntry.new, KvStore.new, NatsSubscriptionSync.new, h]
  · by_cases h : E.status (EngineCall.kvStore_Get kv_store.ptr (c_str key.data)) = NATS_OK
      <;> simp [NatsClient.kv_get, Outcome.status, Outcome.failed, NatsError.new,
        NatsMessageView.new, KvEntry.new, KvStore.new, NatsSubscriptionSync.new, h]
  · by_cases h : E.status (EngineCall.kvStore_Put none kv_store.ptr (c_str key.data) data data.length) = NATS_OK
      <;> simp [NatsClient.kv_put, Outcome.status, Outcome.failed, NatsError.new,
        NatsMessageView.new, KvEntry.new, KvStore.new, NatsSubscriptionSync.new, h]
  · by_cases h : E.status (EngineCall.kvStore_Delete kv_store.ptr (c_str key.data)) = NATS_OK
      <;> simp [NatsClient.kv_delete, Outcome.status, Outcome.failed, NatsError.new,
        NatsMessageView.new, KvEntry.new, KvStore.new, NatsSubscriptionSync.new, h]
  · by_cases h : E.status (EngineCall.js_KeyValue c.js (c_str bucket.data)) = NATS_OK
      <;> simp [NatsClient.kvs_bind, Outcome.status, Outcome.failed, NatsError.new,
        NatsMessageView.new, KvEntry.new, KvStore.new, NatsSubscriptionSync.new, h]
  · by_cases h : E.status (EngineCall.natsConnection_Publish c.conn (c_str subject.data) (c_bytes payload.data payload.size) payload.size) = NATS_OK
      <;> simp [NatsClient.publish, Outcome.status, Outcome.failed, NatsError.new,
        NatsMessageView.new, KvEntry.new, KvStore.new, NatsSubscriptionSync.new, h]
  · by_cases h : E.status (EngineCall.natsConnection_Publish c.conn (c_str subject.data) data data.length) = NATS_OK
      <;> simp [NatsClient.publish_span, Outcome.status, Outcome.failed, NatsError.new,
        NatsMessageView.new, KvEntry.new, KvStore.new, NatsSubscriptionSync.new, h]
  · by_cases h : E.status (EngineCall.natsConnection_SubscribeSync c.conn (c_str subject.data)) = NATS_OK
      <;> simp [NatsClient.subscribe_sync, Outcome.status, Outcome.failed, NatsError.new,
        NatsMessageView.new, KvEntry.new, KvStore.new, NatsSubscriptionSync.new, h]
  · by_cases h : E.status (EngineCall.kvWatcher_Stop w.ptr) = NATS_OK
      <;> simp [KvWatcher.stop, Outcome.status, Outcome.failed, NatsError.new,
        NatsMessageView.new, KvEntry.new, KvStore.new, NatsSubscriptionSync.new, h]

/-- C21 at a concrete input: `next_msg` with an engine that answers OK and
stores message 9, and with one that answers status 26. -/
theorem status_pass_through_witness :
    (NatsSubscriptionSync.next_msg (Engine.sample (fun _ => NATS_OK) (fun _ => true) (some 9))
        (NatsSubscriptionSync.new (some 4) NATS_OK) 100).result
      = Except.ok { ptr := some 9 }
    ∧ (NatsSubscriptionSync.next_msg (Engine.always 26)
        (NatsSubscriptionSync.new (some 4) NATS_OK) 100).status = 26 :=
  ⟨(status_pass_through (Engine.sample (fun _ => NATS_OK) (fun _ => true) (some 9))
      (NatsSubscriptionSync.new (some 4) NATS_OK) (KvWatcher.new (some 8) NATS_OK)
      NatsClient.sample (KvStore.new (some 5)) (string_view.ofString "k")
      (string_view.ofString "b") (string_view.ofString "orders") (string_view.ofString "x")
      [] 100 0 0 NATS_OK).1.2.2.1 rfl,
   (status_pass_through (Engine.always 26)
      (NatsSubscriptionSync.new (some 4) NATS_OK) (KvWatcher.new (some 8) NATS_OK)
      NatsClient.sample (KvStore.new (some 5)) (string_view.ofString "k")
      (string_view.ofString "b") (string_view.ofString "orders") (string_view.ofString "x")
      [] 100 0 0 NATS_OK).1.2.1⟩

/-! ## Connecting twice -/

/-- C22, the code at the failing input: `connect()` and `jet_stream()` store
the new handle over the old one.  A client that connects (connection 7),
activates JetStream (context 3), connects again (connection 8) and activates
again (context 8) makes no destroy call in the second `connect()` or
`jet_stream()`, and its destruction destroys connection 8, the options
object and context 8: connection 7 and context 3 are never destroyed. -/
theorem second_connect_overwrites_handle :
    NatsClient.activatedOnce.conn = some 7
    ∧ NatsClient.activatedOnce.js = some 3
    ∧ (NatsClient.activatedOnce.connect Engine.connectsAgain).result = Except.ok ()
    ∧ (NatsClient.activatedOnce.connect Engine.connectsAgain).calls = connectSteps (some 2)
    ∧ NatsClient.connectedTwice.conn = some 8
    ∧ (NatsClient.connectedTwice.jet_stream Engine.connectsAgain).result = Except.ok ()
    ∧ (NatsClient.connectedTwice.jet_stream Engine.connectsAgain).calls
      = [EngineCall.jsOptions_Init,
         EngineCall.natsConnection_JetStream (some 8) { PublishAsync_MaxPending := 256, rest := 0 }]
    ∧ NatsClient.activatedTwice.js = some 8
    ∧ NatsClient.activatedTwice.destructor.2
      = [EngineCall.natsConnection_Destroy (some 8), EngineCall.natsOptions_Destroy (some 2),
         EngineCall.jsCtx_Destroy (some 8)] := by
  refine ⟨rfl, rfl, rfl, rfl, rfl, rfl, rfl, rfl, rfl⟩

/-! ## kvs_create and its description argument -/

/-- The description argument of `kvs_create` is never read.  For every
bucket name and any two descriptions, absent or not, it makes the same
engine calls and returns the same result; for a name that is not empty, once
the configuration is initialised, it hands the engine the configuration the
engine initialised with only `Bucket` set, to the C string at the name's
`data()`; for an empty name it returns the invalid-argument error "Bucket
name is required." without any engine call, so before any configuration is
initialised. -/
theorem kvs_create_ignores_description (E : Engine) (c : NatsClient) (indet : kvConfig)
    (bucket_name : string_view) (d1 d2 : Option string_view) :
    c.kvs_create E indet bucket_name d1 = c.kvs_create E indet bucket_name d2
    ∧ (bucket_name.empty = false → E.status EngineCall.kvConfig_Init = NATS_OK →
        (c.kvs_create E indet bucket_name d1).calls
          = [EngineCall.kvConfig_Init,
             EngineCall.js_CreateKeyValue c.js
               { Bucket := some (c_str bucket_name.data),
                 rest := (E.outKvConfig EngineCall.kvConfig_Init indet).rest }])
    ∧ (bucket_name.empty = true →
        (c.kvs_create E indet bucket_name d1).result
          = Except.error (NatsError.new E NATS_INVALID_ARG "Bucket name is required.")
        ∧ (c.kvs_create E indet bucket_name d1).calls = []) := by
  refine ⟨rfl, ?_, ?_⟩
  · intro he hs
    have h := ((NatsClient.kvs_create_trace E c indet bucket_name d1).2 he).1
    rw [h]
    simp [hs]
  · intro he
    have h := (NatsClient.kvs_create_trace E c indet bucket_name d1).1 he
    exact ⟨h.1, h.2.1⟩

/-- The description argument at a concrete input: the bucket "cfg" with and
without a description. -/
theorem kvs_create_ignores_description_witness :
    (NatsClient.sample.kvs_create (Engine.always NATS_OK) { Bucket := none, rest := 0 }
        (string_view.ofString "cfg") (some (string_view.ofString "settings"))).calls
      = [EngineCall.kvConfig_Init,
         EngineCall.js_CreateKeyValue (some 3) { Bucket := some "cfg", rest := 0 }] :=
  (kvs_create_ignores_description (Engine.always NATS_OK) NatsClient.sample
    { Bucket := none, rest := 0 } (string_view.ofString "cfg")
    (some (string_view.ofString "settings")) none).2.1 rfl rfl

/-- C23, the code at the failing input: `kvs_create` sets `Bucket` to the C
string at `bucket_name.data()` and drops the name's size.  For the view of
the first two characters of the buffer "abcd", `std::string_view("abcd", 2)`,
the given name is "ab" and the engine is asked to create the bucket "abcd",
with a description and without one; with an engine that accepts the calls
and stores bucket 5, `kvs_create` returns success with that bucket. -/
theorem bucket_name_view_is_read_as_c_string :
    string_view.intoBuffer.str = "ab"
    ∧ string_view.intoBuffer.empty = false
    ∧ (NatsClient.sample.kvs_create (Engine.always NATS_OK) { Bucket := none, rest := 0 }
        string_view.intoBuffer none).calls
      = [EngineCall.kvConfig_Init,
         EngineCall.js_CreateKeyValue (some 3) { Bucket := some "abcd", rest := 0 }]
    ∧ (NatsClient.sample.kvs_create (Engine.always NATS_OK) { Bucket := none, rest := 0 }
        string_view.intoBuffer (some (string_view.ofString "settings"))).calls
      = [EngineCall.kvConfig_Init,
         EngineCall.js_CreateKeyValue (some 3) { Bucket := some "abcd", rest := 0 }]
    ∧ (NatsClient.sample.kvs_create
        (Engine.sample (fun _ => NATS_OK) (fun _ => true) (some 5))
        { Bucket := none, rest := 0 } string_view.intoBuffer none).result
      = Except.ok { ptr := some 5 } := by
  refine ⟨by decide, rfl, rfl, rfl, rfl⟩

end nats
